import Mathlib

/-!
# foolrenderer: mesh import, textures, colour conversion and the basic shader

A shallow embedding of the mesh importer (`utilities/mesh.c`), the texture
store (`texture.c`), the colour conversions (`graphics/color.h`) and the basic
shader (`shaders/basic.c`) of foolrenderer, and the properties of their
natural-language specification.

Conventions of the embedding.

* `float` is an abstract scalar type `F` that only carries the operations the
  source applies to it (`+`, `-`, `*`, `/`, unary minus, the literals `0` and
  `1`, conversion from integers, `==` and `<`).  No algebraic law is assumed
  unless a theorem asks for one, so the structural theorems hold for every
  interpretation of the floating-point operations, exact or rounded.  The
  conversion of a `float` to an unsigned integer, `powf` and the `float` stored
  in four bytes are parameters; theorems "in exact arithmetic" take an ordered
  field, the floor as conversion and the real power function.  Where rounding
  decides a property, `float` is `binary32`: finite IEEE 754 binary32 values
  with rounding to nearest, ties to even.
* A buffer owned by the caller or by the foreign `fastObjMesh` is a pointer: it
  is modelled as a map from element offsets to values together with the count
  stored next to it.  A buffer that the code allocates itself is a list whose
  length is the allocated element count; a nullable pointer is an `Option`.
* `uint32_t` / `unsigned int` arithmetic that can leave the 32-bit range is
  reduced with `uint32_wrap`, `size_t` arithmetic with `size_wrap` (64 bits).
* Every `malloc` call site has its outcome recorded in an allocator record.
  A struct that `malloc` returned holds indeterminate pointers until they are
  assigned: `load_mesh` records which members `destroy_mesh` frees unassigned.
* Functions whose memory safety is at stake return a `traced` result: the list
  of the buffer reads they perform and the value, which is `none` when a read
  leaves its buffer.
-/

namespace Foolrenderer

/-! ## Machine integers -/

/-- Reduction of a natural number to the range of `uint32_t`. -/
def uint32_wrap (n : Nat) : Nat := n % 4294967296

/-! ## Vectors (`math/vector.h`) -/

/-- Modelled from the spec: the type `vector2` of `math/vector.h`, two floats
named `u`, `v` in `mesh.c`. -/
structure vector2 (F : Type) where
  u : F
  v : F
deriving DecidableEq, Repr

/-- Modelled from the spec: the type `vector3` of `math/vector.h`, three floats
named `x`, `y`, `z`. -/
structure vector3 (F : Type) where
  x : F
  y : F
  z : F
deriving DecidableEq, Repr

/-- Modelled from the spec: the type `vector4` of `math/vector.h`, four floats
named `x`, `y`, `z`, `w`. -/
structure vector4 (F : Type) where
  x : F
  y : F
  z : F
  w : F
deriving DecidableEq, Repr

/-- Modelled from the spec: the constant `VECTOR3_ZERO` of `math/vector.h`. -/
def VECTOR3_ZERO {F : Type} [Zero F] : vector3 F := ⟨0, 0, 0⟩

/-- Modelled from the spec: `vector3_add` of `math/vector.h`, the
component-wise sum. -/
def vector3_add {F : Type} [Add F] (a b : vector3 F) : vector3 F :=
  ⟨a.x + b.x, a.y + b.y, a.z + b.z⟩

/-- Modelled from the spec: `vector3_subtract` of `math/vector.h`, the
component-wise difference. -/
def vector3_subtract {F : Type} [Sub F] (a b : vector3 F) : vector3 F :=
  ⟨a.x - b.x, a.y - b.y, a.z - b.z⟩

/-- Modelled from the spec: `vector3_multiply_scalar` of `math/vector.h`. -/
def vector3_multiply_scalar {F : Type} [Mul F] (a : vector3 F) (s : F) : vector3 F :=
  ⟨a.x * s, a.y * s, a.z * s⟩

/-- Modelled from the spec: `vector3_dot` of `math/vector.h`. -/
def vector3_dot {F : Type} [Add F] [Mul F] (a b : vector3 F) : F :=
  a.x * b.x + a.y * b.y + a.z * b.z

/-- Modelled from the spec: `vector3_cross` of `math/vector.h`, the
right-handed cross product. -/
def vector3_cross {F : Type} [Sub F] [Mul F] (a b : vector3 F) : vector3 F :=
  ⟨a.y * b.z - a.z * b.y, a.z * b.x - a.x * b.z, a.x * b.y - a.y * b.x⟩

/-! ## Data model -/

/-- The `fastObjIndex` of fast_obj: one face-vertex reference, a triple of
indices into the position, texcoord and normal arrays. -/
structure fastObjIndex where
  p : Nat
  t : Nat
  n : Nat
deriving DecidableEq, Repr

/-- The fields of `fastObjMesh` that `mesh.c` reads.  `map_Kd_path` is
`data->materials->map_Kd.path` of the first material (`none` is `NULL`). -/
structure fastObjMesh (F : Type) where
  position_count : Nat
  positions : Nat → F
  texcoord_count : Nat
  texcoords : Nat → F
  normal_count : Nat
  normals : Nat → F
  face_count : Nat
  face_vertices : Nat → Nat
  indices : Nat → fastObjIndex
  material_count : Nat
  map_Kd_path : Option String

/-- The `struct mesh` of `utilities/mesh.h`, with the fields `mesh.c` uses. -/
structure mesh (F : Type) where
  positions : List (vector3 F)
  texcoords : Option (List (vector2 F))
  normals : Option (List (vector3 F))
  tangents : Option (List (vector4 F))
  indices : List Nat
  vertex_count : Nat
  triangle_count : Nat
  diffuse_texture_path : Option String

/-- Outcome of every `malloc` call site of `mesh.c`; `true` is a non-`NULL`
result. -/
structure allocator where
  mesh : Bool
  indices : Bool
  positions : Bool
  texcoords : Bool
  normals : Bool
  path : Bool
  derived_normals : Bool
  tangents : Bool
deriving DecidableEq, Repr

/-- The allocator all of whose calls succeed. -/
def allocator.succeeding : allocator :=
  ⟨true, true, true, true, true, true, true, true⟩

/-! ## `put_vertex` and `set_vertex_attributes` -/

/-- The macro `VERTEX_EQUAL`. -/
def VERTEX_EQUAL (a b : fastObjIndex) : Bool :=
  a.p == b.p && a.t == b.t && a.n == b.n

/-- The search loop of `put_vertex`, running over the slots from `i` on. -/
def put_vertex_scan (vertex : fastObjIndex) : List fastObjIndex → Nat → Option Nat
  | [], _ => none
  | v :: rest, i =>
    if VERTEX_EQUAL v vertex then some i else put_vertex_scan vertex rest (i + 1)

/-- The function `put_vertex`.  The list is the used part of `vertex_set`, its
length is `*vertex_set_size`; the result is the returned index and the updated
set.  (`vertex_set_size` stays below `index_count`, so `++` cannot wrap.) -/
def put_vertex (vertex_set : List fastObjIndex) (vertex : fastObjIndex) :
    Nat × List fastObjIndex :=
  match put_vertex_scan vertex vertex_set 0 with
  | some i => (i, vertex_set)
  | none => (vertex_set.length + 1 - 1, vertex_set ++ [vertex])

/-- The first loop of `set_vertex_attributes` over the faces `0 .. f - 1`:
`none` when a face is neither empty nor a triangle, otherwise `index_count`. -/
def count_indices {F : Type} (data : fastObjMesh F) : Nat → Option Nat
  | 0 => some 0
  | f + 1 =>
    match count_indices data f with
    | none => none
    | some index_count =>
      let face_vertices := data.face_vertices f
      if face_vertices ≠ 0 ∧ face_vertices ≠ 3 then none
      else some (uint32_wrap (index_count + face_vertices))

/-- The variables the deduplication loop of `set_vertex_attributes` updates:
the written part of `indices`, the used part of `vertex_set`, and the flags. -/
structure dedup_state where
  indices : List Nat
  vertex_set : List fastObjIndex
  has_texcoords : Bool
  has_normals : Bool
deriving DecidableEq, Repr

/-- One iteration of the deduplication loop. -/
def dedup_step {F : Type} (data : fastObjMesh F) (s : dedup_state)
    (vertex : fastObjIndex) : dedup_state :=
  let r := put_vertex s.vertex_set vertex
  let vertex_set_index := r.1
  let ti := vertex.t
  let ni := vertex.n
  { indices := s.indices ++ [vertex_set_index]
    vertex_set := r.2
    has_texcoords := s.has_texcoords || (decide (ti > 0) && decide (ti < data.texcoord_count))
    has_normals := s.has_normals || (decide (ni > 0) && decide (ni < data.normal_count)) }

/-- The deduplication loop of `set_vertex_attributes` after `i` iterations. -/
def dedup_loop {F : Type} (data : fastObjMesh F) : Nat → dedup_state
  | 0 => ⟨[], [], false, false⟩
  | i + 1 => dedup_step data (dedup_loop data i) (data.indices i)

/-- A `memcpy` of two floats starting at element `offset` of `src`. -/
def read_vector2 {F : Type} (src : Nat → F) (offset : Nat) : vector2 F :=
  ⟨src offset, src (offset + 1)⟩

/-- A `memcpy` of three floats starting at element `offset` of `src`. -/
def read_vector3 {F : Type} (src : Nat → F) (offset : Nat) : vector3 F :=
  ⟨src offset, src (offset + 1), src (offset + 2)⟩

/-- The "Set positions" block of the materialisation loop.  `src` is computed
as in the source and, as in the source, the `memcpy` does not read from it. -/
def materialize_position {F : Type} (data : fastObjMesh F) (vertex : fastObjIndex) :
    vector3 F :=
  let _src : Nat :=
    if vertex.p < data.position_count then uint32_wrap (vertex.p * 3) else 0
  read_vector3 data.positions (uint32_wrap (vertex.p * 3))

/-- The "Set texcoords" block of the materialisation loop. -/
def materialize_texcoord {F : Type} (data : fastObjMesh F) (vertex : fastObjIndex) :
    vector2 F :=
  let _src : Nat :=
    if vertex.t < data.texcoord_count then uint32_wrap (vertex.t * 2) else 0
  read_vector2 data.texcoords (uint32_wrap (vertex.t * 2))

/-- The "Set normals" block of the materialisation loop; `normalize` is
`vector3_normalize` of `math/vector.h`. -/
def materialize_normal {F : Type} (normalize : vector3 F → vector3 F)
    (data : fastObjMesh F) (vertex : fastObjIndex) : vector3 F :=
  let _src : Nat :=
    if vertex.n < data.normal_count then uint32_wrap (vertex.n * 3) else 0
  normalize (read_vector3 data.normals (uint32_wrap (vertex.n * 3)))

/-- The function `set_vertex_attributes`; `none` is the return value `true`
(failure), `some m` is the return value `false` with the mesh as written. -/
def set_vertex_attributes {F : Type} (normalize : vector3 F → vector3 F)
    (a : allocator) (m : mesh F) (data : fastObjMesh F) : Option (mesh F) :=
  match count_indices data data.face_count with
  | none => none
  | some index_count =>
    if !a.indices then none
    else
      let s := dedup_loop data index_count
      let vertex_set_size := s.vertex_set.length
      if !a.positions || (s.has_texcoords && !a.texcoords) ||
          (s.has_normals && !a.normals) then none
      else
        some { m with
          positions := s.vertex_set.map (materialize_position data)
          texcoords :=
            if s.has_texcoords then some (s.vertex_set.map (materialize_texcoord data))
            else none
          normals :=
            if s.has_normals then some (s.vertex_set.map (materialize_normal normalize data))
            else none
          indices := s.indices
          vertex_count := vertex_set_size
          triangle_count := index_count / 3 }

/-! ## `set_diffuse_texture_name` -/

/-- The function `set_diffuse_texture_name`; `none` is the return value `true`
(failure).  `strlen (texture_path) + 1 <= 1` holds exactly for the empty
string. -/
def set_diffuse_texture_name {F : Type} (a : allocator) (m : mesh F)
    (data : fastObjMesh F) : Option (mesh F) :=
  let m := { m with diffuse_texture_path := none }
  if data.material_count = 0 then some m
  else
    match data.map_Kd_path with
    | none => some m
    | some texture_path =>
      let length := texture_path.length + 1
      if length ≤ 1 then some m
      else if !a.path then none
      else some { m with diffuse_texture_path := some texture_path }

/-! ## `compute_normals` -/

/-- The read `mesh->indices[t * 3 + k]`, for `k = 0, 1, 2`. -/
def triangle_vertex {F : Type} (m : mesh F) (t k : Nat) : Nat :=
  m.indices.getD (uint32_wrap (t * 3 + k)) 0

/-- The assignment `acc[index] = vector3_add (acc[index], n)`. -/
def accumulate {F : Type} [Add F] [Zero F] (acc : List (vector3 F)) (index : Nat)
    (n : vector3 F) : List (vector3 F) :=
  acc.set index (vector3_add (acc.getD index VECTOR3_ZERO) n)

/-- The unnormalised surface normal `n` that the triangle loop of
`compute_normals` computes for triangle `t`. -/
def surface_normal {F : Type} [Sub F] [Mul F] [Zero F] (m : mesh F) (t : Nat) : vector3 F :=
  let index_0 := triangle_vertex m t 0
  let index_1 := triangle_vertex m t 1
  let index_2 := triangle_vertex m t 2
  let p0 := m.positions.getD index_0 VECTOR3_ZERO
  let p1 := m.positions.getD index_1 VECTOR3_ZERO
  let p2 := m.positions.getD index_2 VECTOR3_ZERO
  let u := vector3_subtract p1 p0
  let v := vector3_subtract p2 p0
  vector3_cross u v

/-- The body of the triangle loop of `compute_normals`. -/
def compute_normals_triangle {F : Type} [Add F] [Sub F] [Mul F] [Zero F] (m : mesh F)
    (normals : List (vector3 F)) (t : Nat) : List (vector3 F) :=
  let index_0 := triangle_vertex m t 0
  let index_1 := triangle_vertex m t 1
  let index_2 := triangle_vertex m t 2
  let n := surface_normal m t
  let normals := accumulate normals index_0 n
  let normals := accumulate normals index_1 n
  accumulate normals index_2 n

/-- The array `mesh->normals` after the zeroing loop and `t` iterations of the
triangle loop of `compute_normals`. -/
def compute_normals_loop {F : Type} [Add F] [Sub F] [Mul F] [Zero F] (m : mesh F) :
    Nat → List (vector3 F)
  | 0 => List.replicate m.vertex_count VECTOR3_ZERO
  | t + 1 => compute_normals_triangle m (compute_normals_loop m t) t

/-- The function `compute_normals`; `none` is the return value `true`. -/
def compute_normals {F : Type} [Add F] [Sub F] [Mul F] [Zero F]
    (normalize : vector3 F → vector3 F) (a : allocator) (m : mesh F) : Option (mesh F) :=
  if !a.derived_normals then none
  else
    some { m with
      normals := some ((compute_normals_loop m m.triangle_count).map normalize) }

/-! ## `compute_tangents` -/

/-- The per-triangle `tangent` and `bitangent` of `compute_tangents`. -/
def triangle_tangent {F : Type} [Add F] [Sub F] [Mul F] [Div F] [Zero F] [One F]
    [DecidableEq F] (positions : List (vector3 F)) (texcoords : List (vector2 F))
    (index_0 index_1 index_2 : Nat) : vector3 F × vector3 F :=
  let p0 := positions.getD index_0 VECTOR3_ZERO
  let p1 := positions.getD index_1 VECTOR3_ZERO
  let p2 := positions.getD index_2 VECTOR3_ZERO
  let w0 := texcoords.getD index_0 ⟨0, 0⟩
  let w1 := texcoords.getD index_1 ⟨0, 0⟩
  let w2 := texcoords.getD index_2 ⟨0, 0⟩
  let e1 := vector3_subtract p1 p0
  let e2 := vector3_subtract p2 p0
  let x1 := w1.u - w0.u
  let x2 := w2.u - w0.u
  let y1 := w1.v - w0.v
  let y2 := w2.v - w0.v
  let d := x1 * y2 - x2 * y1
  if d = 0 then (VECTOR3_ZERO, VECTOR3_ZERO)
  else
    let r := 1 / d
    let tangent :=
      vector3_subtract (vector3_multiply_scalar e1 y2) (vector3_multiply_scalar e2 y1)
    let tangent := vector3_multiply_scalar tangent r
    let bitangent :=
      vector3_subtract (vector3_multiply_scalar e2 x1) (vector3_multiply_scalar e1 x2)
    let bitangent := vector3_multiply_scalar bitangent r
    (tangent, bitangent)

/-- The body of the triangle loop of `compute_tangents`, on the pair of the
local arrays `tangents` and `bitangents`. -/
def compute_tangents_triangle {F : Type} [Add F] [Sub F] [Mul F] [Div F] [Zero F] [One F]
    [DecidableEq F] (m : mesh F) (texcoords : List (vector2 F))
    (acc : List (vector3 F) × List (vector3 F)) (t : Nat) :
    List (vector3 F) × List (vector3 F) :=
  let index_0 := triangle_vertex m t 0
  let index_1 := triangle_vertex m t 1
  let index_2 := triangle_vertex m t 2
  let tb := triangle_tangent m.positions texcoords index_0 index_1 index_2
  let tangents := accumulate acc.1 index_0 tb.1
  let tangents := accumulate tangents index_1 tb.1
  let tangents := accumulate tangents index_2 tb.1
  let bitangents := accumulate acc.2 index_0 tb.2
  let bitangents := accumulate bitangents index_1 tb.2
  let bitangents := accumulate bitangents index_2 tb.2
  (tangents, bitangents)

/-- The local arrays `tangents` and `bitangents` after the zeroing loop and `t`
iterations of the triangle loop of `compute_tangents`. -/
def compute_tangents_loop {F : Type} [Add F] [Sub F] [Mul F] [Div F] [Zero F] [One F]
    [DecidableEq F] (m : mesh F) (texcoords : List (vector2 F)) :
    Nat → List (vector3 F) × List (vector3 F)
  | 0 => (List.replicate m.vertex_count VECTOR3_ZERO,
          List.replicate m.vertex_count VECTOR3_ZERO)
  | t + 1 => compute_tangents_triangle m texcoords (compute_tangents_loop m texcoords t) t

/-- The body of the last loop of `compute_tangents`: the stored tangent of a
vertex with accumulated tangent `t`, accumulated bitangent `b` and normal `n`. -/
def vertex_tangent {F : Type} [Add F] [Sub F] [Mul F] [Neg F] [Zero F] [One F] [LT F]
    [DecidableRel (LT.lt : F → F → Prop)] (normalize : vector3 F → vector3 F)
    (t b n : vector3 F) : vector4 F :=
  let t := vector3_subtract t (vector3_multiply_scalar n (vector3_dot n t))
  let t := normalize t
  ⟨t.x, t.y, t.z, if vector3_dot (vector3_cross n t) b < 0 then -1 else 1⟩

/-- The function `compute_tangents`; `none` is the return value `true`. -/
def compute_tangents {F : Type} [Add F] [Sub F] [Mul F] [Div F] [Neg F] [Zero F] [One F]
    [LT F] [DecidableEq F] [DecidableRel (LT.lt : F → F → Prop)]
    (normalize : vector3 F → vector3 F) (a : allocator) (m : mesh F) : Option (mesh F) :=
  match m.normals, m.texcoords with
  | none, _ => some { m with tangents := none }
  | some _, none => some { m with tangents := none }
  | some normals, some texcoords =>
    if !a.tangents then none
    else
      let acc := compute_tangents_loop m texcoords m.triangle_count
      some { m with
        tangents := some ((List.range m.vertex_count).map (fun v =>
          vertex_tangent normalize (acc.1.getD v VECTOR3_ZERO) (acc.2.getD v VECTOR3_ZERO)
            (normals.getD v VECTOR3_ZERO))) }

/-! ## `load_mesh` and `destroy_mesh` -/

/-- The pointer members of `struct mesh`, in the order in which `destroy_mesh`
passes them to `free`. -/
inductive mesh_member where
  | positions
  | texcoords
  | normals
  | tangents
  | indices
  | diffuse_texture_path
deriving DecidableEq, Repr

/-- How a call of `load_mesh` that returns no mesh ends.  `returns_null` is the
return value `NULL` after a run in which every pointer passed to `free` had
been assigned before.  `frees_unwritten members` is a run in which
`destroy_mesh` passes to `free` the listed members of the `malloc`'ed struct
although nothing was ever stored in them: their values are indeterminate and
the behaviour of the call is undefined. -/
inductive load_failure where
  | returns_null
  | frees_unwritten (members : List mesh_member)
deriving DecidableEq, Repr

/-- The function `destroy_mesh` applied to the struct that `load_mesh` obtained
from `malloc`: `written` lists the pointer members assigned since then, the
result lists the members that reach `free` without having been assigned. -/
def destroy_mesh (written : List mesh_member) : List mesh_member :=
  [mesh_member.positions, mesh_member.texcoords, mesh_member.normals,
    mesh_member.tangents, mesh_member.indices, mesh_member.diffuse_texture_path].filter
    (fun member => decide (member ∉ written))

/-- The label `load_failed` of `load_mesh`: the call `destroy_mesh (mesh)`
followed by `return NULL`. -/
def load_failed {F : Type} (written : List mesh_member) : Except load_failure (mesh F) :=
  if (destroy_mesh written).isEmpty then Except.error load_failure.returns_null
  else Except.error (load_failure.frees_unwritten (destroy_mesh written))

/-- The function `load_mesh`.  `uninit` is the content of the freshly
allocated `struct mesh`, `file` the result of `fast_obj_read` (`none` is
`NULL`); `Except.ok` carries the returned mesh.  At each `goto load_failed` the
members assigned so far are listed: `set_vertex_attributes` assigns
`positions`, `texcoords`, `normals` and `indices` only when it returns `false`,
`set_diffuse_texture_name` assigns `diffuse_texture_path` and
`compute_tangents` assigns `tangents` before any of their `return`s, and
`compute_normals` assigns `normals`. -/
def load_mesh {F : Type} [Add F] [Sub F] [Mul F] [Div F] [Neg F] [Zero F] [One F]
    [LT F] [DecidableEq F] [DecidableRel (LT.lt : F → F → Prop)]
    (normalize : vector3 F → vector3 F) (a : allocator) (uninit : mesh F)
    (file : Option (fastObjMesh F)) : Except load_failure (mesh F) :=
  if !a.mesh then Except.error load_failure.returns_null
  else
    match file with
    | none => load_failed []
    | some data =>
      match set_vertex_attributes normalize a uninit data with
      | none => load_failed []
      | some m =>
        match set_diffuse_texture_name a m data with
        | none =>
          load_failed [mesh_member.positions, mesh_member.texcoords, mesh_member.normals,
            mesh_member.indices, mesh_member.diffuse_texture_path]
        | some m =>
          match (if m.normals.isNone then compute_normals normalize a m else some m) with
          | none =>
            load_failed [mesh_member.positions, mesh_member.texcoords, mesh_member.normals,
              mesh_member.indices, mesh_member.diffuse_texture_path]
          | some m =>
            match compute_tangents normalize a m with
            | none =>
              load_failed [mesh_member.positions, mesh_member.texcoords,
                mesh_member.normals, mesh_member.indices,
                mesh_member.diffuse_texture_path, mesh_member.tangents]
            | some m => Except.ok m

/-! ## Quantities the specification speaks about -/

/-- The sum of the vertex counts of the faces `0 .. data.face_count - 1`. -/
def face_vertex_total {F : Type} (data : fastObjMesh F) : Nat :=
  ((List.range data.face_count).map data.face_vertices).sum

/-- The first `k` face-vertex references of the input, in face order. -/
def references {F : Type} (data : fastObjMesh F) (k : Nat) : List fastObjIndex :=
  (List.range k).map data.indices

/-! ## Concrete inputs -/

/-- A foreign buffer that holds the elements of `l`, followed by `d`. -/
def list_buffer {α : Type} (l : List α) (d : α) : Nat → α := fun i => l.getD i d

/-- The content of a `struct mesh` before any field is written. -/
def blank_mesh : mesh ℚ := ⟨[], none, none, none, [], 0, 0, none⟩

/-- A single triangle with corners `(0,0,0)`, `(1,0,0)`, `(0,1,0)`, three
texcoords and no normals.  Element 0 of each source array is the dummy entry
fast_obj puts there. -/
def triangle_data : fastObjMesh ℚ where
  position_count := 4
  positions := list_buffer [0, 0, 0, 0, 0, 0, 1, 0, 0, 0, 1, 0] 0
  texcoord_count := 4
  texcoords := list_buffer [0, 0, 0, 0, 1, 0, 0, 1] 0
  normal_count := 1
  normals := list_buffer [0, 0, 1] 0
  face_count := 1
  face_vertices := list_buffer [3] 0
  indices := list_buffer [⟨1, 1, 0⟩, ⟨2, 2, 0⟩, ⟨3, 3, 0⟩] ⟨0, 0, 0⟩
  material_count := 0
  map_Kd_path := none

/-- A unit quad split into the triangles `(1, 2, 3)` and `(1, 3, 4)`, with an
empty face in between; the two triangles share two face-vertex triples. -/
def quad_data : fastObjMesh ℚ where
  position_count := 5
  positions := list_buffer [0, 0, 0, 0, 0, 0, 1, 0, 0, 1, 1, 0, 0, 1, 0] 0
  texcoord_count := 5
  texcoords := list_buffer [0, 0, 0, 0, 1, 0, 1, 1, 0, 1] 0
  normal_count := 2
  normals := list_buffer [0, 0, 1, 0, 0, 2] 0
  face_count := 3
  face_vertices := list_buffer [3, 0, 3] 0
  indices := list_buffer
    [⟨1, 1, 1⟩, ⟨2, 2, 1⟩, ⟨3, 3, 1⟩, ⟨1, 1, 1⟩, ⟨3, 3, 1⟩, ⟨4, 4, 1⟩] ⟨0, 0, 0⟩
  material_count := 0
  map_Kd_path := none

/-- The input `quad_data` with a four-vertex face appended after the two
triangles. -/
def quad_face_data : fastObjMesh ℚ :=
  { quad_data with
    face_count := 4
    face_vertices := list_buffer [3, 0, 3, 4] 0 }

/-- One triangle whose second and third corner carry indices beyond the source
arrays: each source array has 2 elements (the dummy element 0 and one real
element), the memory behind each array holds the value 7. -/
def stray_index_data : fastObjMesh ℚ where
  position_count := 2
  positions := list_buffer [0, 0, 0, 1, 2, 3] 7
  texcoord_count := 2
  texcoords := list_buffer [0, 0, 1, 1] 7
  normal_count := 2
  normals := list_buffer [0, 0, 0, 0, 0, 1] 7
  face_count := 1
  face_vertices := list_buffer [3] 0
  indices := list_buffer [⟨1, 1, 1⟩, ⟨2, 2, 2⟩, ⟨5, 5, 5⟩] ⟨0, 0, 0⟩
  material_count := 0
  map_Kd_path := none

/-- The contributions that the corners of the triangles `0 .. t - 1` make to
vertex `v`, in the order of the index buffer: triangle `s` contributes
`contribution s` once for each of its three corners that references `v`. -/
def corner_contributions {F : Type} (m : mesh F) (contribution : Nat → vector3 F)
    (v : Nat) : Nat → List (vector3 F)
  | 0 => []
  | t + 1 =>
    corner_contributions m contribution v t ++
      (([0, 1, 2] : List Nat).filter (fun k => decide (triangle_vertex m t k = v))).map
        (fun _ => contribution t)

/-- The mesh of the single triangle `(0,0,0)`, `(1,0,0)`, `(0,1,0)` with the
texcoords `(0,0)`, `(1,0)`, `(0,1)`, before normals and tangents are derived. -/
def flat_triangle : mesh ℚ where
  positions := [⟨0, 0, 0⟩, ⟨1, 0, 0⟩, ⟨0, 1, 0⟩]
  texcoords := some [⟨0, 0⟩, ⟨1, 0⟩, ⟨0, 1⟩]
  normals := none
  tangents := none
  indices := [0, 1, 2]
  vertex_count := 3
  triangle_count := 1
  diffuse_texture_path := none

/-- The per-triangle tangent and bitangent in the words of the specification
(4.3b), for edge vectors `e1`, `e2` and UV deltas `(x1, y1)`, `(x2, y2)`: zero
vectors when `d = x1 * y2 - x2 * y1` is zero, otherwise
`(e1 * y2 - e2 * y1) * (1 / d)` and `(e2 * x1 - e1 * x2) * (1 / d)`. -/
def lengyel_contribution {F : Type} [Sub F] [Mul F] [Div F] [Zero F] [One F]
    [DecidableEq F] (e1 e2 : vector3 F) (x1 y1 x2 y2 : F) : vector3 F × vector3 F :=
  if x1 * y2 - x2 * y1 = 0 then (VECTOR3_ZERO, VECTOR3_ZERO)
  else
    (vector3_multiply_scalar
        (vector3_subtract (vector3_multiply_scalar e1 y2) (vector3_multiply_scalar e2 y1))
        (1 / (x1 * y2 - x2 * y1)),
      vector3_multiply_scalar
        (vector3_subtract (vector3_multiply_scalar e2 x1) (vector3_multiply_scalar e1 x2))
        (1 / (x1 * y2 - x2 * y1)))

/-- The contribution of triangle `t` of the mesh to the tangent and bitangent
accumulators of `compute_tangents`. -/
def tangent_contribution {F : Type} [Add F] [Sub F] [Mul F] [Div F] [Zero F] [One F]
    [DecidableEq F] (m : mesh F) (texcoords : List (vector2 F)) (t : Nat) :
    vector3 F × vector3 F :=
  triangle_tangent m.positions texcoords (triangle_vertex m t 0) (triangle_vertex m t 1)
    (triangle_vertex m t 2)

/-- The triangle `flat_triangle` with the normal `(0,0,1)` at its vertices and
the given texcoords. -/
def lit_triangle (texcoords : List (vector2 ℚ)) : mesh ℚ :=
  { flat_triangle with
    texcoords := some texcoords
    normals := some [⟨0, 0, 1⟩, ⟨0, 0, 1⟩, ⟨0, 0, 1⟩] }

/-- The texcoords of `flat_quad`: the `x` and `y` of its positions. -/
def flat_quad_texcoords : List (vector2 ℚ) := [⟨0, 0⟩, ⟨1, 0⟩, ⟨1, 1⟩, ⟨0, 1⟩]

/-- The unit square in the plane `z = 0`, split into the triangles `(0, 1, 2)`
and `(0, 2, 3)`. -/
def flat_quad : mesh ℚ where
  positions := [⟨0, 0, 0⟩, ⟨1, 0, 0⟩, ⟨1, 1, 0⟩, ⟨0, 1, 0⟩]
  texcoords := some flat_quad_texcoords
  normals := some [⟨0, 0, 1⟩, ⟨0, 0, 1⟩, ⟨0, 0, 1⟩, ⟨0, 0, 1⟩]
  tangents := none
  indices := [0, 1, 2, 0, 2, 3]
  vertex_count := 4
  triangle_count := 2
  diffuse_texture_path := none

/-- Texcoords that map every vertex of `flat_quad` to the same point, so that
the UV determinant of both triangles is zero. -/
def collapsed_texcoords : List (vector2 ℚ) := [⟨0, 0⟩, ⟨0, 0⟩, ⟨0, 0⟩, ⟨0, 0⟩]

/-! ## Attribute access (`get_mesh_position` and its siblings) -/

/-- Modelled from the spec: the constant `VECTOR2_ZERO` of `math/vector.h`. -/
def VECTOR2_ZERO {F : Type} [Zero F] : vector2 F := ⟨0, 0⟩

/-- Modelled from the spec: the constant `VECTOR4_ZERO` of `math/vector.h`. -/
def VECTOR4_ZERO {F : Type} [Zero F] : vector4 F := ⟨0, 0, 0, 0⟩

/-- Modelled from the spec: the constant `VECTOR4_ONE` of `math/vector.h`. -/
def VECTOR4_ONE {F : Type} [One F] : vector4 F := ⟨1, 1, 1, 1⟩

/-- A result together with the buffer reads performed to obtain it.  The value
`none` stands for a read outside the buffer it addresses. -/
structure traced (ρ α : Type) where
  reads : List ρ
  value : Option α
deriving DecidableEq, Repr

/-- A read performed by an attribute getter: element `offset` of the index
buffer, or element `offset` of the attribute array. -/
inductive mesh_read where
  | index (offset : Nat)
  | attribute (offset : Nat)
deriving DecidableEq, Repr

/-- The `else` branch shared by the four getters:
`index = mesh->indices[triangle_index * 3 + vertex_index]` followed by the read
of `array[index]`.  The offset is computed in `uint32_t`. -/
def read_vertex_attribute {F α : Type} (m : mesh F) (array : List α)
    (triangle_index vertex_index : Nat) : traced mesh_read α :=
  let offset := uint32_wrap (triangle_index * 3 + vertex_index)
  match m.indices[offset]? with
  | none => ⟨[mesh_read.index offset], none⟩
  | some index =>
    ⟨[mesh_read.index offset, mesh_read.attribute index], array[index]?⟩

/-- The function `get_mesh_position`; the value is what is stored to
`*position`. -/
def get_mesh_position {F : Type} [Zero F] (m : mesh F) (triangle_index vertex_index : Nat) :
    traced mesh_read (vector3 F) :=
  if triangle_index ≥ m.triangle_count ∨ vertex_index > 2 then ⟨[], some VECTOR3_ZERO⟩
  else read_vertex_attribute m m.positions triangle_index vertex_index

/-- The function `get_mesh_texcoord`. -/
def get_mesh_texcoord {F : Type} [Zero F] (m : mesh F) (triangle_index vertex_index : Nat) :
    traced mesh_read (vector2 F) :=
  if triangle_index ≥ m.triangle_count ∨ vertex_index > 2 then ⟨[], some VECTOR2_ZERO⟩
  else
    match m.texcoords with
    | none => ⟨[], some VECTOR2_ZERO⟩
    | some texcoords => read_vertex_attribute m texcoords triangle_index vertex_index

/-- The function `get_mesh_normal`. -/
def get_mesh_normal {F : Type} [Zero F] (m : mesh F) (triangle_index vertex_index : Nat) :
    traced mesh_read (vector3 F) :=
  if triangle_index ≥ m.triangle_count ∨ vertex_index > 2 then ⟨[], some VECTOR3_ZERO⟩
  else
    match m.normals with
    | none => ⟨[], some VECTOR3_ZERO⟩
    | some normals => read_vertex_attribute m normals triangle_index vertex_index

/-- The function `get_mesh_tangent`. -/
def get_mesh_tangent {F : Type} [Zero F] (m : mesh F) (triangle_index vertex_index : Nat) :
    traced mesh_read (vector4 F) :=
  if triangle_index ≥ m.triangle_count ∨ vertex_index > 2 then ⟨[], some VECTOR4_ZERO⟩
  else
    match m.tangents with
    | none => ⟨[], some VECTOR4_ZERO⟩
    | some tangents => read_vertex_attribute m tangents triangle_index vertex_index

/-- The invariants of an imported mesh: the index buffer has
`3 * triangle_count` entries (fewer than `2 ^ 32`), each below `vertex_count`,
and every present per-vertex array has `vertex_count` elements. -/
def mesh_invariant {F : Type} (m : mesh F) : Prop :=
  m.triangle_count * 3 = m.indices.length ∧
  m.indices.length < 4294967296 ∧
  (∀ k, k ∈ m.indices → k < m.vertex_count) ∧
  m.positions.length = m.vertex_count ∧
  (∀ l, m.texcoords = some l → l.length = m.vertex_count) ∧
  (∀ l, m.normals = some l → l.length = m.vertex_count) ∧
  (∀ l, m.tangents = some l → l.length = m.vertex_count)

/-! ## Colour conversion (`graphics/color.h`) -/

/-- Reduction of a natural number to the range of `size_t`, taken to be 64
bits wide. -/
def size_wrap (n : Nat) : Nat := n % 18446744073709551616

/-- The type `uint8_t`. -/
abbrev uint8_t : Type := Fin 256

/-- The macro `GAMMA`, the constant `2.2f`. -/
def GAMMA {F : Type} [NatCast F] [Div F] : F := ((22 : Nat) : F) / ((10 : Nat) : F)

/-- The function `float_to_uint8`.  `trunc` is the conversion of a `float` to
an unsigned integer, which discards the fractional part (a value outside the
range of `uint8_t` is undefined in C and reduced modulo 256 here); `0xFF` is
converted to `float` for the product. -/
def float_to_uint8 {F : Type} [NatCast F] [Mul F] (trunc : F → Nat) (value : F) : uint8_t :=
  ⟨trunc (value * ((255 : Nat) : F)) % 256, Nat.mod_lt _ (by decide)⟩

/-- The function `uint8_to_float`. -/
def uint8_to_float {F : Type} [NatCast F] [Div F] (value : uint8_t) : F :=
  ((value.val : Nat) : F) / ((255 : Nat) : F)

/-- The function `convert_to_srgb_color`; `powf` is the function of `math.h`. -/
def convert_to_srgb_color {F : Type} [NatCast F] [Div F] [One F] (powf : F → F → F)
    (value : F) : F :=
  powf value (1 / GAMMA)

/-- The function `convert_to_linear_color`. -/
def convert_to_linear_color {F : Type} [NatCast F] [Div F] (powf : F → F → F)
    (vlaue : F) : F :=
  powf vlaue GAMMA

/-! ## Textures (`texture.c`) -/

/-- Modelled from the spec: the `enum texture_format` of `texture.h`, a closed
set of three formats; `unrecognized` stands for every other value an argument
of the enumeration type can carry. -/
inductive texture_format where
  | TEXTURE_FORMAT_RGBA8
  | TEXTURE_FORMAT_SRGB8_A8
  | TEXTURE_FORMAT_DEPTH_FLOAT
  | unrecognized (tag : Nat)
deriving DecidableEq, Repr

open texture_format

/-- The value of `sizeof (float)`. -/
def sizeof_float : Nat := 4

/-- The `struct texture`; `pixels` is the buffer behind the `void *`, byte by
byte. -/
structure texture where
  format : texture_format
  width : Nat
  height : Nat
  pixels : List uint8_t
deriving DecidableEq, Repr

/-- Outcome of the two `malloc` calls of `generate_texture`; `true` is a
non-`NULL` result. -/
structure texture_allocator where
  texture : Bool
  pixels : Bool
deriving DecidableEq, Repr

/-- The function `get_pixel_size`. -/
def get_pixel_size (format : texture_format) : Nat :=
  match format with
  | TEXTURE_FORMAT_RGBA8 => 4
  | TEXTURE_FORMAT_SRGB8_A8 => 4
  | TEXTURE_FORMAT_DEPTH_FLOAT => sizeof_float
  | unrecognized _ => 0

/-- The function `generate_texture`; `none` is `NULL`.  `fresh` is the content
of the memory `malloc` hands out, which the function leaves as it is.  The
products `(size_t)width * height` and `pixel_count * pixel_size` are formed in
`size_t`. -/
def generate_texture (a : texture_allocator) (fresh : Nat → uint8_t)
    (internal_format : texture_format) (width height : Nat) : Option texture :=
  if width = 0 ∨ height = 0 then none
  else
    let pixel_size := get_pixel_size internal_format
    if pixel_size = 0 then none
    else if !a.texture then none
    else
      let pixel_count := size_wrap (width * height)
      if !a.pixels then none
      else
        some
          { format := internal_format
            width := width
            height := height
            pixels := (List.range (size_wrap (pixel_count * pixel_size))).map fresh }

/-- The loop of `set_texture_pixels` after `p` iterations, on the bytes of
`texture->pixels`; `pixels` is the source image. -/
def set_texture_pixels_loop (pixels : Nat → uint8_t) : Nat → List uint8_t → List uint8_t
  | 0, texture_pixels => texture_pixels
  | p + 1, texture_pixels =>
    let image_pixel := size_wrap (p * 3)
    let texture_pixel := size_wrap (p * 4)
    ((((set_texture_pixels_loop pixels p texture_pixels).set texture_pixel
      (pixels image_pixel)).set (texture_pixel + 1)
      (pixels (image_pixel + 1))).set (texture_pixel + 2)
      (pixels (image_pixel + 2))).set (texture_pixel + 3) 255

/-- The function `set_texture_pixels`: the returned flag and the texture
afterwards.  `none` is a `NULL` argument. -/
def set_texture_pixels (texture : Option texture) (pixels : Option (Nat → uint8_t)) :
    Bool × Option Foolrenderer.texture :=
  match texture, pixels with
  | none, _ => (false, none)
  | some t, none => (false, some t)
  | some t, some pixels =>
    if t.format = TEXTURE_FORMAT_RGBA8 ∨ t.format = TEXTURE_FORMAT_SRGB8_A8 then
      let pixel_count := size_wrap (t.width * t.height)
      (true, some { t with pixels := set_texture_pixels_loop pixels pixel_count t.pixels })
    else (false, some t)

/-- Modelled from the spec: `clamp01_float` of `math/math_utility.h`, the clamp
of a value to `[0, 1]`. -/
def clamp01_float {F : Type} [Zero F] [One F] [LT F] [DecidableRel (LT.lt : F → F → Prop)]
    (f : F) : F :=
  if f < 0 then 0 else if 1 < f then 1 else f

/-- The macro `FALLBACK_PIXEL`. -/
def FALLBACK_PIXEL {F : Type} [One F] : vector4 F := VECTOR4_ONE

/-- The column (or row) `texture_sample` selects for a coordinate and the
texture width (or height):
`index = (uint32_t)(clamp01_float (coordinate) * size)` followed by
`index = index >= size ? size - 1 : index`, in `uint32_t`.  `trunc` is the
conversion of a `float` to an unsigned integer (a value outside the range of
`uint32_t` is undefined in C and reduced modulo `2 ^ 32` here). -/
def sample_index {F : Type} [Zero F] [One F] [Mul F] [NatCast F] [LT F]
    [DecidableRel (LT.lt : F → F → Prop)] (trunc : F → Nat) (coordinate : F) (size : Nat) :
    Nat :=
  let c := clamp01_float coordinate
  let index := uint32_wrap (trunc (c * (size : F)))
  if index ≥ size then uint32_wrap (size + 4294967296 - 1) else index

/-- The `pixel_offset` of `texture_sample`:
`(size_t)u_index + v_index * texture->width`, where the product is formed in
`uint32_t`. -/
def texture_sample_offset {F : Type} [Zero F] [One F] [Mul F] [NatCast F] [LT F]
    [DecidableRel (LT.lt : F → F → Prop)] (trunc : F → Nat) (t : texture)
    (texcoord : vector2 F) : Nat :=
  let u_index := sample_index trunc texcoord.u t.width
  let v_index := sample_index trunc texcoord.v t.height
  size_wrap (u_index + uint32_wrap (v_index * t.width))

/-- The read of the bytes `target[0] .. target[3]` of a buffer. -/
def read_texel (pixels : List uint8_t) (target : Nat) :
    Option (uint8_t × uint8_t × uint8_t × uint8_t) :=
  match pixels[target]?, pixels[target + 1]?, pixels[target + 2]?, pixels[target + 3]? with
  | some b0, some b1, some b2, some b3 => some (b0, b1, b2, b3)
  | _, _, _, _ => none

/-- The function `texture_sample`, with the byte offsets it reads in
`texture->pixels`.  `load` is the `float` that `sizeof (float)` bytes of memory
represent; the members `r`, `g`, `b`, `a` of a `vector4` are `x`, `y`, `z`,
`w`. -/
def texture_sample {F : Type} [Zero F] [One F] [Mul F] [Div F] [NatCast F] [LT F]
    [DecidableRel (LT.lt : F → F → Prop)] (trunc : F → Nat) (powf : F → F → F)
    (load : uint8_t × uint8_t × uint8_t × uint8_t → F) (texture : Option texture)
    (texcoord : vector2 F) : traced Nat (vector4 F) :=
  match texture with
  | none => ⟨[], some FALLBACK_PIXEL⟩
  | some t =>
    let pixel_offset := texture_sample_offset trunc t texcoord
    if t.format = TEXTURE_FORMAT_RGBA8 then
      let target := size_wrap (pixel_offset * 4)
      ⟨[target, target + 1, target + 2, target + 3],
        (read_texel t.pixels target).map (fun b =>
          ⟨((b.1.val : Nat) : F) / ((255 : Nat) : F),
            ((b.2.1.val : Nat) : F) / ((255 : Nat) : F),
            ((b.2.2.1.val : Nat) : F) / ((255 : Nat) : F),
            ((b.2.2.2.val : Nat) : F) / ((255 : Nat) : F)⟩)⟩
    else if t.format = TEXTURE_FORMAT_SRGB8_A8 then
      let target := size_wrap (pixel_offset * 4)
      ⟨[target, target + 1, target + 2, target + 3],
        (read_texel t.pixels target).map (fun b =>
          ⟨powf (((b.1.val : Nat) : F) / ((255 : Nat) : F)) GAMMA,
            powf (((b.2.1.val : Nat) : F) / ((255 : Nat) : F)) GAMMA,
            powf (((b.2.2.1.val : Nat) : F) / ((255 : Nat) : F)) GAMMA,
            ((b.2.2.2.val : Nat) : F) / ((255 : Nat) : F)⟩)⟩
    else if t.format = TEXTURE_FORMAT_DEPTH_FLOAT then
      let target := size_wrap (pixel_offset * sizeof_float)
      ⟨[target, target + 1, target + 2, target + 3],
        (read_texel t.pixels target).map (fun b => ⟨load b, load b, load b, 1⟩)⟩
    else ⟨[], some FALLBACK_PIXEL⟩

/-- The invariant of a texture in the data model of the specification:
positive 32-bit dimensions, one of the three formats, and a pixel buffer of
`width * height * pixel_size` bytes, a number in the range of `size_t`. -/
def texture_invariant (t : texture) : Prop :=
  0 < t.width ∧ t.width < 4294967296 ∧ 0 < t.height ∧ t.height < 4294967296 ∧
  get_pixel_size t.format ≠ 0 ∧
  t.pixels.length = t.width * t.height * get_pixel_size t.format ∧
  t.pixels.length < 18446744073709551616

/-! ## Concrete textures -/

/-- A `2 x 2` RGBA8 texture; texel `k` holds the bytes `10 k + 1 .. 10 k + 4`
except for its alpha, which is 255. -/
def checker_texture : texture where
  format := TEXTURE_FORMAT_RGBA8
  width := 2
  height := 2
  pixels := [1, 2, 3, 255, 11, 12, 13, 255, 21, 22, 23, 255, 31, 32, 33, 255]

/-- The conversion of an exact rational to an unsigned integer: the integer
part. -/
def rat_trunc (x : ℚ) : Nat := ⌊x⌋₊

/-- A stand-in for `powf` on exact rationals that is right for the exponents 0
and 1, enough to evaluate samples of textures that are not sRGB encoded. -/
def rat_powf (x y : ℚ) : ℚ := if y = 0 then 1 else x

/-- A stand-in for the `float` that four bytes represent: the first byte as a
number. -/
def rat_load (b : uint8_t × uint8_t × uint8_t × uint8_t) : ℚ := (b.1.val : ℚ)

/-- A source image for a `2 x 2` texture: byte `i` of the image is `i`. -/
def ramp_image : Nat → uint8_t := fun i => ⟨i % 256, Nat.mod_lt _ (by decide)⟩

/-- A `1 x 1` depth texture. -/
def depth_texel : texture where
  format := TEXTURE_FORMAT_DEPTH_FLOAT
  width := 1
  height := 1
  pixels := [7, 0, 0, 0]

/-! ## Quantities of Lengyel's method -/

/-- The edge `e_k = p_k - p_0` of triangle `t`, for `k = 1, 2`, as
`compute_tangents` forms it. -/
def triangle_edge {F : Type} [Sub F] [Zero F] (m : mesh F) (t k : Nat) : vector3 F :=
  vector3_subtract (m.positions.getD (triangle_vertex m t k) VECTOR3_ZERO)
    (m.positions.getD (triangle_vertex m t 0) VECTOR3_ZERO)

/-- The UV delta `(x_k, y_k) = w_k - w_0` of triangle `t`, for `k = 1, 2`, as
`compute_tangents` forms it. -/
def triangle_uv_delta {F : Type} [Sub F] [Zero F] (m : mesh F) (texcoords : List (vector2 F))
    (t k : Nat) : vector2 F :=
  ⟨(texcoords.getD (triangle_vertex m t k) ⟨0, 0⟩).u -
      (texcoords.getD (triangle_vertex m t 0) ⟨0, 0⟩).u,
    (texcoords.getD (triangle_vertex m t k) ⟨0, 0⟩).v -
      (texcoords.getD (triangle_vertex m t 0) ⟨0, 0⟩).v⟩

/-- The UV determinant `d = x1 * y2 - x2 * y1` of triangle `t`. -/
def triangle_uv_determinant {F : Type} [Sub F] [Mul F] [Zero F] (m : mesh F)
    (texcoords : List (vector2 F)) (t : Nat) : F :=
  (triangle_uv_delta m texcoords t 1).u * (triangle_uv_delta m texcoords t 2).v -
    (triangle_uv_delta m texcoords t 2).u * (triangle_uv_delta m texcoords t 1).v

/-- An RGBA8 texture of width 65536 and height 65537 whose
`65536 * 65537 * 4 = 17180131328` bytes are all zero. -/
def tall_texture : texture where
  format := TEXTURE_FORMAT_RGBA8
  width := 65536
  height := 65537
  pixels := List.replicate 17180131328 0

/-! ## The basic shader (`shaders/basic.c`) -/

/-- Modelled from the spec: `vector3_multiply` of `math/vector.h`, the
element-wise product. -/
def vector3_multiply {F : Type} [Mul F] (a b : vector3 F) : vector3 F :=
  ⟨a.x * b.x, a.y * b.y, a.z * b.z⟩

/-- Modelled from the spec: `vector4_to_3` of `math/vector.h`. -/
def vector4_to_3 {F : Type} (v : vector4 F) : vector3 F := ⟨v.x, v.y, v.z⟩

/-- Modelled from the spec: `vector3_to_4` of `math/vector.h`. -/
def vector3_to_4 {F : Type} (v : vector3 F) (w : F) : vector4 F := ⟨v.x, v.y, v.z, w⟩

/-- Modelled from the spec: `max_float` of `math/math_utility.h`, the larger of
two values. -/
def max_float {F : Type} [LT F] [DecidableRel (LT.lt : F → F → Prop)] (a b : F) : F :=
  if a < b then b else a

/-- Modelled from the spec: the `struct shader_context` of `shader_context.h`,
a mapping from slot numbers to interpolated values, one family of slots per
vector type. -/
structure shader_context (F : Type) where
  vector2_slots : Nat → vector2 F
  vector3_slots : Nat → vector3 F

/-- Modelled from the spec: `shader_context_vector2` of `shader_context.h`. -/
def shader_context_vector2 {F : Type} (c : shader_context F) (index : Nat) : vector2 F :=
  c.vector2_slots index

/-- Modelled from the spec: `shader_context_vector3` of `shader_context.h`. -/
def shader_context_vector3 {F : Type} (c : shader_context F) (index : Nat) : vector3 F :=
  c.vector3_slots index

/-- The macro `TEXCOORD`. -/
def TEXCOORD : Nat := 0

/-- The macro `NORMAL`. -/
def NORMAL : Nat := 0

/-- The macro `POSITION`. -/
def POSITION : Nat := 1

/-- Modelled from the spec: the members of the `struct basic_uniform` of
`shaders/basic.h` that `basic_fragment_shader` reads. -/
structure basic_uniform (F : Type) where
  light_direction : vector3 F
  light_color : vector3 F
  ambient_color : vector3 F
  ambient_reflectance : vector3 F
  diffuse_reflectance : vector3 F
  specular_reflectance : vector3 F
  shininess : F
  diffuse_texture : Option texture

/-- The local `ambient_lighting` of `basic_fragment_shader`. -/
def ambient_lighting {F : Type} [Mul F] (unif : basic_uniform F) : vector3 F :=
  vector3_multiply unif.ambient_color unif.ambient_reflectance

/-- The local `n_dot_l` of `basic_fragment_shader`. -/
def n_dot_l {F : Type} [Add F] [Mul F] (normalize : vector3 F → vector3 F)
    (input : shader_context F) (unif : basic_uniform F) : F :=
  let normal := normalize (shader_context_vector3 input NORMAL)
  vector3_dot normal unif.light_direction

/-- The local `diffuse_lighting` of `basic_fragment_shader`, after both of its
assignments. -/
def diffuse_lighting {F : Type} [Add F] [Mul F] [Zero F] [LT F]
    [DecidableRel (LT.lt : F → F → Prop)] (normalize : vector3 F → vector3 F)
    (input : shader_context F) (unif : basic_uniform F) : vector3 F :=
  let diffuse_intensity := max_float 0 (n_dot_l normalize input unif)
  let diffuse_lighting := vector3_multiply_scalar unif.light_color diffuse_intensity
  vector3_multiply diffuse_lighting unif.diffuse_reflectance

/-- The local `specular_lighting` of `basic_fragment_shader` after the block
guarded by `n_dot_l > 0.0f`. -/
def specular_lighting {F : Type} [Add F] [Mul F] [Neg F] [Zero F] [One F] [LT F]
    [DecidableRel (LT.lt : F → F → Prop)] (normalize : vector3 F → vector3 F)
    (powf : F → F → F) (input : shader_context F) (unif : basic_uniform F) : vector3 F :=
  let normal := normalize (shader_context_vector3 input NORMAL)
  if 0 < n_dot_l normalize input unif then
    let postion := shader_context_vector3 input POSITION
    let view_direction := vector3_multiply_scalar postion (-1)
    let view_direction := normalize view_direction
    let halfway := vector3_add view_direction unif.light_direction
    let halfway := normalize halfway
    let n_dot_h := vector3_dot normal halfway
    let specular_intensity := powf (max_float 0 n_dot_h) unif.shininess
    let specular_lighting := vector3_multiply_scalar unif.light_color specular_intensity
    vector3_multiply specular_lighting unif.specular_reflectance
  else VECTOR3_ZERO

/-- The function `basic_fragment_shader`.  `texture_color` receives the result
of `texture_sample` for `unif->diffuse_texture`; the result is `none` when that
sample reads outside the pixel buffer. -/
def basic_fragment_shader {F : Type} [Add F] [Mul F] [Div F] [Neg F] [Zero F] [One F]
    [NatCast F] [LT F] [DecidableRel (LT.lt : F → F → Prop)]
    (normalize : vector3 F → vector3 F) (trunc : F → Nat) (powf : F → F → F)
    (load : uint8_t × uint8_t × uint8_t × uint8_t → F) (input : shader_context F)
    (unif : basic_uniform F) : Option (vector4 F) :=
  let ambient_lighting := ambient_lighting unif
  let diffuse_lighting := diffuse_lighting normalize input unif
  let specular_lighting := specular_lighting normalize powf input unif
  let texcoord := shader_context_vector2 input TEXCOORD
  (texture_sample trunc powf load unif.diffuse_texture texcoord).value.map
    (fun texture_color =>
      let fragment_color := vector3_add ambient_lighting diffuse_lighting
      let fragment_color := vector3_multiply fragment_color (vector4_to_3 texture_color)
      let fragment_color := vector3_add fragment_color specular_lighting
      vector3_to_4 fragment_color 1)

/-- The RGB of the fragment colour when the diffuse-map sample multiplies the
diffuse term only: `ambient + diffuse * sample + specular`. -/
def diffuse_only_textured {F : Type} [Add F] [Mul F] (ambient diffuse specular
    sample : vector3 F) : vector3 F :=
  vector3_add (vector3_add ambient (vector3_multiply diffuse sample)) specular

/-- A shading context with the normal `(0, 0, 1)`, the view-space position
`(0, 0, -1)` and the texcoord `(0, 0)`. -/
def facing_context : shader_context ℚ where
  vector2_slots := fun _ => ⟨0, 0⟩
  vector3_slots := fun i => if i = 0 then ⟨0, 0, 1⟩ else ⟨0, 0, -1⟩

/-- A uniform block with white ambient light of full reflectance, a light that
shines from behind the surface, and the `2 x 2` texture as diffuse map. -/
def backlit_uniform : basic_uniform ℚ where
  light_direction := ⟨0, 0, -1⟩
  light_color := ⟨1, 1, 1⟩
  ambient_color := ⟨1, 1, 1⟩
  ambient_reflectance := ⟨1, 1, 1⟩
  diffuse_reflectance := ⟨1, 1, 1⟩
  specular_reflectance := ⟨1, 1, 1⟩
  shininess := 1
  diffuse_texture := some checker_texture

/-! ## An input beyond the range of `uint32_t` -/

/-- An input of 1431655766 triangles, whose `3 * 1431655766 = 4294967298`
face-vertex references exceed the range of `uint32_t` by 2.  References 0 and 2
carry the triple `(1, 0, 0)`, reference 1 the triple `(2, 0, 0)` and every
later reference the triple `(3, 1, 1)`, whose texcoord and normal index are
valid. -/
def wrapping_data : fastObjMesh ℚ where
  position_count := 4
  positions := list_buffer [0, 0, 0, 0, 0, 0, 1, 0, 0, 0, 1, 0] 0
  texcoord_count := 2
  texcoords := list_buffer [0, 0, 1, 1] 0
  normal_count := 2
  normals := list_buffer [0, 0, 0, 0, 0, 1] 0
  face_count := 1431655766
  face_vertices := fun _ => 3
  indices := fun i =>
    if i = 0 ∨ i = 2 then ⟨1, 0, 0⟩ else if i = 1 then ⟨2, 0, 0⟩ else ⟨3, 1, 1⟩
  material_count := 0
  map_Kd_path := none

/-! ## IEEE 754 binary32 -/

/-- The number of binary digits of `n`; the first argument bounds the depth of
the recursion and is `n` itself at the call. -/
def bit_length : Nat → Nat → Nat
  | 0, _ => 0
  | fuel + 1, n => if n = 0 then 0 else bit_length fuel (n / 2) + 1

/-- A finite value of the IEEE 754 binary32 format, the `float` of the
platforms foolrenderer is built for: `significand * 2 ^ exponent`, negated
when `negative` is set.  The range of the exponent is not limited: overflow
and subnormal values are outside the model. -/
structure binary32 where
  negative : Bool
  significand : Nat
  exponent : Int
deriving DecidableEq, Repr

/-- The rational number a `binary32` stands for. -/
def binary32.value (a : binary32) : ℚ :=
  (if a.negative then -1 else 1) * (a.significand : ℚ) * (2 : ℚ) ^ a.exponent

/-- Rounding of `significand * 2 ^ exponent` to the nearest value with a
significand of at most 24 binary digits, ties to the even significand: the
rounding of every binary32 operation in the default rounding mode. -/
def binary32.round (negative : Bool) (significand : Nat) (exponent : Int) : binary32 :=
  let digits := bit_length significand significand
  if digits ≤ 24 then ⟨negative, significand, exponent⟩
  else
    let shift := digits - 24
    let quotient := significand / 2 ^ shift
    let remainder := significand % 2 ^ shift
    let half := 2 ^ (shift - 1)
    let rounded :=
      if remainder < half then quotient
      else if half < remainder then quotient + 1
      else if quotient % 2 = 0 then quotient else quotient + 1
    ⟨negative, rounded, exponent + (shift : Int)⟩

/-- The integer `a * 2 ^ (-e)`, for an `e` that is at most the exponent of
`a`. -/
def binary32.scaled (a : binary32) (e : Int) : Int :=
  let magnitude : Int := ((a.significand * 2 ^ (a.exponent - e).toNat : Nat) : Int)
  if a.negative then -magnitude else magnitude

/-- The comparison `a < b` of two `float`s. -/
def binary32.less (a b : binary32) : Prop :=
  a.scaled (if a.exponent ≤ b.exponent then a.exponent else b.exponent) <
    b.scaled (if a.exponent ≤ b.exponent then a.exponent else b.exponent)

/-- The conversion `(uint32_t)` of a `float`, which discards the fractional
part.  The conversion of a value of `-1` or less is undefined in C and is 0
here. -/
def binary32.trunc (a : binary32) : Nat :=
  if a.negative then 0
  else if 0 ≤ a.exponent then a.significand * 2 ^ a.exponent.toNat
  else a.significand / 2 ^ (-a.exponent).toNat

instance : Zero binary32 := ⟨⟨false, 0, 0⟩⟩

instance : One binary32 := ⟨⟨false, 1, 0⟩⟩

instance : NatCast binary32 := ⟨fun n => binary32.round false n 0⟩

instance : Mul binary32 :=
  ⟨fun a b => binary32.round (xor a.negative b.negative) (a.significand * b.significand)
    (a.exponent + b.exponent)⟩

instance : LT binary32 := ⟨binary32.less⟩

instance : DecidableRel (LT.lt : binary32 → binary32 → Prop) :=
  fun _ _ => Int.decLt _ _

theorem VERTEX_EQUAL_iff (a b : fastObjIndex) : VERTEX_EQUAL a b = true ↔ a = b := by
  cases a; cases b
  simp [VERTEX_EQUAL, and_assoc]

theorem put_vertex_scan_some {vertex : fastObjIndex} :
    ∀ (l : List fastObjIndex) (i k : Nat), put_vertex_scan vertex l i = some k →
      i ≤ k ∧ l[k - i]? = some vertex := by
  intro l
  induction l with
  | nil => intro i k h; simp [put_vertex_scan] at h
  | cons v rest ih =>
    intro i k h
    unfold put_vertex_scan at h
    split at h
    · rename_i heq
      have hk : i = k := by simpa using h
      subst hk
      have := (VERTEX_EQUAL_iff v vertex).1 heq
      simp [this]
    · obtain ⟨hle, hget⟩ := ih (i + 1) k h
      refine ⟨by omega, ?_⟩
      have : k - i = (k - (i + 1)) + 1 := by omega
      rw [this]
      simpa using hget

theorem put_vertex_scan_none {vertex : fastObjIndex} :
    ∀ (l : List fastObjIndex) (i : Nat), put_vertex_scan vertex l i = none ↔ vertex ∉ l := by
  intro l
  induction l with
  | nil => intro i; simp [put_vertex_scan]
  | cons v rest ih =>
    intro i
    unfold put_vertex_scan
    by_cases heq : VERTEX_EQUAL v vertex = true
    · have hv := (VERTEX_EQUAL_iff v vertex).1 heq
      rw [if_pos heq]
      simp [hv]
    · have hne : ¬ v = vertex := fun h => heq ((VERTEX_EQUAL_iff v vertex).2 h)
      have hne' : ¬ vertex = v := fun h => hne h.symm
      simp [heq, ih, hne']

theorem put_vertex_lookup (vertex_set : List fastObjIndex) (vertex : fastObjIndex) :
    (put_vertex vertex_set vertex).2[(put_vertex vertex_set vertex).1]? = some vertex := by
  unfold put_vertex
  split
  · rename_i i h
    have := (put_vertex_scan_some vertex_set 0 i h).2
    simpa using this
  · simp

theorem put_vertex_of_mem {vertex_set : List fastObjIndex} {vertex : fastObjIndex}
    (h : vertex ∈ vertex_set) : (put_vertex vertex_set vertex).2 = vertex_set := by
  unfold put_vertex
  split
  · rfl
  · rename_i hnone
    exact absurd h ((put_vertex_scan_none vertex_set 0).1 hnone)

theorem put_vertex_of_not_mem {vertex_set : List fastObjIndex} {vertex : fastObjIndex}
    (h : vertex ∉ vertex_set) :
    put_vertex vertex_set vertex = (vertex_set.length, vertex_set ++ [vertex]) := by
  unfold put_vertex
  split
  · rename_i i hsome
    have := (put_vertex_scan_none vertex_set 0).2 h
    rw [this] at hsome
    exact absurd hsome (by simp)
  · simp

/-! ## Invariants of the deduplication loop -/

theorem references_succ {F : Type} (data : fastObjMesh F) (n : Nat) :
    references data (n + 1) = references data n ++ [data.indices n] := by
  simp [references, List.range_succ]

theorem mem_references {F : Type} (data : fastObjMesh F) (n : Nat) (x : fastObjIndex) :
    x ∈ references data n ↔ ∃ i, i < n ∧ data.indices i = x := by
  simp [references]

theorem dedup_loop_succ {F : Type} (data : fastObjMesh F) (n : Nat) :
    dedup_loop data (n + 1) = dedup_step data (dedup_loop data n) (data.indices n) := rfl

theorem dedup_loop_indices_length {F : Type} (data : fastObjMesh F) (n : Nat) :
    (dedup_loop data n).indices.length = n := by
  induction n with
  | zero => rfl
  | succ n ih => simp [dedup_loop_succ, dedup_step, ih]

theorem dedup_loop_mem_vertex_set {F : Type} (data : fastObjMesh F) (n : Nat)
    (x : fastObjIndex) :
    x ∈ (dedup_loop data n).vertex_set ↔ x ∈ references data n := by
  induction n with
  | zero => simp [dedup_loop, references]
  | succ n ih =>
    rw [references_succ, dedup_loop_succ]
    simp only [dedup_step]
    by_cases hmem : data.indices n ∈ (dedup_loop data n).vertex_set
    · rw [put_vertex_of_mem hmem, List.mem_append, ← ih]
      constructor
      · intro h; exact Or.inl h
      · rintro (h | h)
        · exact h
        · have : x = data.indices n := by simpa using h
          rw [this]; exact hmem
    · rw [put_vertex_of_not_mem hmem]
      simp [List.mem_append, ih]

theorem dedup_loop_vertex_set_nodup {F : Type} (data : fastObjMesh F) (n : Nat) :
    (dedup_loop data n).vertex_set.Nodup := by
  induction n with
  | zero => simp [dedup_loop]
  | succ n ih =>
    rw [dedup_loop_succ]
    simp only [dedup_step]
    by_cases hmem : data.indices n ∈ (dedup_loop data n).vertex_set
    · rw [put_vertex_of_mem hmem]; exact ih
    · rw [put_vertex_of_not_mem hmem]
      exact List.Nodup.append ih (List.nodup_singleton _) (by simpa using hmem)

theorem dedup_step_vertex_set_stable {F : Type} (data : fastObjMesh F) (s : dedup_state)
    (vertex x : fastObjIndex) (k : Nat) (h : s.vertex_set[k]? = some x) :
    (dedup_step data s vertex).vertex_set[k]? = some x := by
  simp only [dedup_step]
  by_cases hmem : vertex ∈ s.vertex_set
  · rw [put_vertex_of_mem hmem]; exact h
  · rw [put_vertex_of_not_mem hmem]
    have hk : k < s.vertex_set.length := by
      rcases Nat.lt_or_ge k s.vertex_set.length with hlt | hge
      · exact hlt
      · rw [List.getElem?_eq_none hge] at h; exact absurd h (by simp)
    simp only
    rw [List.getElem?_append_left hk]; exact h

theorem dedup_loop_lookup {F : Type} (data : fastObjMesh F) (n i : Nat) (hi : i < n) :
    ∃ k, (dedup_loop data n).indices[i]? = some k ∧
      (dedup_loop data n).vertex_set[k]? = some (data.indices i) := by
  induction n with
  | zero => omega
  | succ n ih =>
    rcases Nat.lt_or_ge i n with hlt | hge
    · obtain ⟨k, hk, hv⟩ := ih hlt
      refine ⟨k, ?_, ?_⟩
      · rw [dedup_loop_succ]
        simp only [dedup_step]
        rw [List.getElem?_append_left (by rw [dedup_loop_indices_length]; exact hlt)]
        exact hk
      · rw [dedup_loop_succ]
        exact dedup_step_vertex_set_stable data _ _ _ k hv
    · have hin : i = n := by omega
      subst hin
      refine ⟨(put_vertex (dedup_loop data i).vertex_set (data.indices i)).1, ?_, ?_⟩
      · rw [dedup_loop_succ]
        simp only [dedup_step]
        rw [List.getElem?_append_right (by rw [dedup_loop_indices_length])]
        simp [dedup_loop_indices_length]
      · rw [dedup_loop_succ]
        simp only [dedup_step]
        exact put_vertex_lookup _ _

theorem dedup_loop_indices_stable {F : Type} (data : fastObjMesh F) (n i : Nat) (hi : i < n) :
    (dedup_loop data n).indices[i]? =
      some (put_vertex (dedup_loop data i).vertex_set (data.indices i)).1 := by
  induction n with
  | zero => omega
  | succ n ih =>
    rw [dedup_loop_succ]
    simp only [dedup_step]
    rcases Nat.lt_or_ge i n with hlt | hge
    · rw [List.getElem?_append_left (by rw [dedup_loop_indices_length]; exact hlt)]
      exact ih hlt
    · have hin : i = n := by omega
      subst hin
      rw [List.getElem?_append_right (by rw [dedup_loop_indices_length])]
      simp [dedup_loop_indices_length]

theorem dedup_loop_vertex_set_length {F : Type} (data : fastObjMesh F) (n : Nat) :
    (dedup_loop data n).vertex_set.length = (references data n).toFinset.card := by
  rw [← List.toFinset_card_of_nodup (dedup_loop_vertex_set_nodup data n)]
  congr 1
  ext x
  simp only [List.mem_toFinset]
  exact dedup_loop_mem_vertex_set data n x

theorem nodup_getElem?_inj {α : Type} {l : List α} (hl : l.Nodup) {i j : Nat} {x : α}
    (hi : l[i]? = some x) (hj : l[j]? = some x) : i = j := by
  obtain ⟨hi', hxi⟩ := List.getElem?_eq_some.1 hi
  obtain ⟨hj', hxj⟩ := List.getElem?_eq_some.1 hj
  exact (List.Nodup.getElem_inj_iff hl).1 (hxi.trans hxj.symm)

/-! ## The counting loop and the result of `set_vertex_attributes` -/

theorem count_indices_eq_none_iff {F : Type} (data : fastObjMesh F) (k : Nat) :
    count_indices data k = none ↔
      ∃ f, f < k ∧ data.face_vertices f ≠ 0 ∧ data.face_vertices f ≠ 3 := by
  induction k with
  | zero => simp [count_indices]
  | succ k ih =>
    unfold count_indices
    cases hc : count_indices data k with
    | none =>
      obtain ⟨f, hf, h⟩ := ih.1 hc
      simp only [true_iff]
      exact ⟨f, by omega, h⟩
    | some c =>
      have hno : ¬ ∃ f, f < k ∧ data.face_vertices f ≠ 0 ∧ data.face_vertices f ≠ 3 := by
        intro h; rw [ih.2 h] at hc; exact absurd hc (by simp)
      simp only
      constructor
      · intro h
        split at h
        · rename_i hbad; exact ⟨k, by omega, hbad⟩
        · exact absurd h (by simp)
      · rintro ⟨f, hf, hbad⟩
        rcases Nat.lt_or_ge f k with hlt | hge
        · exact absurd ⟨f, hlt, hbad⟩ hno
        · have hfk : f = k := by omega
          subst hfk
          rw [if_pos hbad]

theorem count_indices_eq_some {F : Type} (data : fastObjMesh F) (k : Nat)
    (hfaces : ∀ f, f < k → data.face_vertices f = 0 ∨ data.face_vertices f = 3)
    (hfit : ((List.range k).map data.face_vertices).sum < 4294967296) :
    count_indices data k = some ((List.range k).map data.face_vertices).sum := by
  induction k with
  | zero => simp [count_indices]
  | succ k ih =>
    rw [List.sum_range_succ] at hfit ⊢
    unfold count_indices
    rw [ih (fun f hf => hfaces f (by omega)) (by omega)]
    have hk := hfaces k (by omega)
    have hgood : ¬ (data.face_vertices k ≠ 0 ∧ data.face_vertices k ≠ 3) := by
      rintro ⟨h0, h3⟩; rcases hk with h | h
      · exact h0 h
      · exact h3 h
    simp only
    rw [if_neg hgood, uint32_wrap, Nat.mod_eq_of_lt hfit]

theorem count_indices_eq_some_wrap {F : Type} (data : fastObjMesh F) (k : Nat)
    (hfaces : ∀ f, f < k → data.face_vertices f = 0 ∨ data.face_vertices f = 3) :
    count_indices data k =
      some (uint32_wrap ((List.range k).map data.face_vertices).sum) := by
  induction k with
  | zero => simp [count_indices, uint32_wrap]
  | succ k ih =>
    rw [List.sum_range_succ]
    unfold count_indices
    rw [ih (fun f hf => hfaces f (by omega))]
    have hk := hfaces k (by omega)
    have hgood : ¬ (data.face_vertices k ≠ 0 ∧ data.face_vertices k ≠ 3) := by
      rintro ⟨h0, h3⟩; rcases hk with h | h
      · exact h0 h
      · exact h3 h
    simp only
    rw [if_neg hgood]
    simp only [uint32_wrap, Nat.mod_add_mod]

theorem face_vertex_sum_dvd {F : Type} (data : fastObjMesh F) (k : Nat)
    (hfaces : ∀ f, f < k → data.face_vertices f = 0 ∨ data.face_vertices f = 3) :
    ((List.range k).map data.face_vertices).sum =
      3 * ((List.range k).filter (fun f => data.face_vertices f = 3)).length := by
  induction k with
  | zero => simp
  | succ k ih =>
    rw [List.sum_range_succ, ih (fun f hf => hfaces f (by omega)), List.range_succ,
      List.filter_append, List.length_append]
    rcases hfaces k (by omega) with h | h
    · simp [h]
    · simp [h]; omega

theorem set_vertex_attributes_eq_some {F : Type} {normalize : vector3 F → vector3 F}
    {a : allocator} {m0 m : mesh F} {data : fastObjMesh F}
    (h : set_vertex_attributes normalize a m0 data = some m) :
    ∃ index_count, count_indices data data.face_count = some index_count ∧
      m.indices = (dedup_loop data index_count).indices ∧
      m.vertex_count = (dedup_loop data index_count).vertex_set.length ∧
      m.triangle_count = index_count / 3 ∧
      m.positions = (dedup_loop data index_count).vertex_set.map (materialize_position data) ∧
      m.texcoords =
        (if (dedup_loop data index_count).has_texcoords then
          some ((dedup_loop data index_count).vertex_set.map (materialize_texcoord data))
        else none) ∧
      m.normals =
        (if (dedup_loop data index_count).has_normals then
          some ((dedup_loop data index_count).vertex_set.map
            (materialize_normal normalize data))
        else none) := by
  unfold set_vertex_attributes at h
  split at h
  · exact absurd h (by simp)
  · rename_i index_count hcount
    split at h
    · exact absurd h (by simp)
    · simp only at h
      split at h
      · exact absurd h (by simp)
      · have hm := Option.some.inj h
        subst hm
        exact ⟨index_count, hcount, rfl, rfl, rfl, rfl, rfl, rfl⟩

theorem set_vertex_attributes_succeeds {F : Type} (normalize : vector3 F → vector3 F)
    (a : allocator) (m0 : mesh F) (data : fastObjMesh F) (index_count : Nat)
    (hcount : count_indices data data.face_count = some index_count)
    (hi : a.indices = true) (hp : a.positions = true) (ht : a.texcoords = true)
    (hn : a.normals = true) :
    ∃ m, set_vertex_attributes normalize a m0 data = some m := by
  unfold set_vertex_attributes
  rw [hcount]
  simp [hi, hp, ht, hn]

/-! ## Deduplication: the properties of the specification -/

theorem set_vertex_attributes_returns {F : Type} (normalize : vector3 F → vector3 F)
    (a : allocator) (m0 : mesh F) (data : fastObjMesh F)
    (hfaces : ∀ f, f < data.face_count →
      data.face_vertices f = 0 ∨ data.face_vertices f = 3)
    (hi : a.indices = true) (hp : a.positions = true) (ht : a.texcoords = true)
    (hn : a.normals = true) :
    ∃ m, set_vertex_attributes normalize a m0 data = some m := by
  cases hc : count_indices data data.face_count with
  | some c => exact set_vertex_attributes_succeeds normalize a m0 data c hc hi hp ht hn
  | none =>
    obtain ⟨f, hf, h0, h3⟩ := (count_indices_eq_none_iff data data.face_count).1 hc
    rcases hfaces f hf with h | h
    · exact absurd h h0
    · exact absurd h h3

theorem set_vertex_attributes_of_fit {F : Type} {normalize : vector3 F → vector3 F}
    {a : allocator} {m0 m : mesh F} {data : fastObjMesh F}
    (hfaces : ∀ f, f < data.face_count →
      data.face_vertices f = 0 ∨ data.face_vertices f = 3)
    (hfit : face_vertex_total data < 4294967296)
    (h : set_vertex_attributes normalize a m0 data = some m) :
    m.indices = (dedup_loop data (face_vertex_total data)).indices ∧
      m.vertex_count = (dedup_loop data (face_vertex_total data)).vertex_set.length ∧
      m.triangle_count = face_vertex_total data / 3 ∧
      m.texcoords.isSome = (dedup_loop data (face_vertex_total data)).has_texcoords ∧
      m.normals.isSome = (dedup_loop data (face_vertex_total data)).has_normals := by
  obtain ⟨c, hc, hind, hvc, htc, -, htex, hnor⟩ := set_vertex_attributes_eq_some h
  have hc' := count_indices_eq_some data data.face_count hfaces hfit
  rw [hc] at hc'
  have hceq : c = face_vertex_total data := Option.some.inj hc'
  subst hceq
  refine ⟨hind, hvc, htc, ?_, ?_⟩
  · rw [htex]; cases (dedup_loop data (face_vertex_total data)).has_texcoords <;> rfl
  · rw [hnor]; cases (dedup_loop data (face_vertex_total data)).has_normals <;> rfl

/-- C1 (amended): for an input whose faces all have 0 or 3 vertices and whose
face vertex counts sum to less than `2 ^ 32`, so that the `uint32_t
index_count` of the source does not wrap, `set_vertex_attributes` returns a
mesh when its allocations succeed, and in every mesh it returns two face-vertex
references have the same unified index exactly when their `(p, t, n)` triples
are identical, and the entry of the unique-triple table at the index of a
reference is the triple of that reference. -/
theorem set_vertex_attributes_index_identifies_triple {F : Type}
    (normalize : vector3 F → vector3 F) (a : allocator) (m0 : mesh F)
    (data : fastObjMesh F)
    (hfaces : ∀ f, f < data.face_count →
      data.face_vertices f = 0 ∨ data.face_vertices f = 3)
    (hfit : face_vertex_total data < 4294967296) :
    (a.indices = true → a.positions = true → a.texcoords = true → a.normals = true →
      ∃ m, set_vertex_attributes normalize a m0 data = some m) ∧
    ∀ m, set_vertex_attributes normalize a m0 data = some m →
      ∀ i j, i < face_vertex_total data → j < face_vertex_total data →
        (m.indices[i]? = m.indices[j]? ↔ data.indices i = data.indices j) ∧
          ∃ k, m.indices[i]? = some k ∧
            (dedup_loop data (face_vertex_total data)).vertex_set[k]? =
              some (data.indices i) := by
  refine ⟨set_vertex_attributes_returns normalize a m0 data hfaces, fun m h i j hi hj => ?_⟩
  obtain ⟨hind, -⟩ := set_vertex_attributes_of_fit hfaces hfit h
  obtain ⟨ki, hki, hvi⟩ := dedup_loop_lookup data _ i hi
  obtain ⟨kj, hkj, hvj⟩ := dedup_loop_lookup data _ j hj
  rw [hind]
  refine ⟨⟨fun heq => ?_, fun heq => ?_⟩, ki, hki, hvi⟩
  · rw [hki, hkj] at heq
    have hk : ki = kj := Option.some.inj heq
    rw [hk, hvj] at hvi
    exact (Option.some.inj hvi).symm
  · rw [heq] at hvi
    have hk : ki = kj :=
      nodup_getElem?_inj (dedup_loop_vertex_set_nodup data _) hvi hvj
    rw [hki, hkj, hk]

/-- Witness of C1 on the quad: the index buffer is `[0, 1, 2, 0, 2, 3]`;
references 0 and 3 carry the same triple and share the index 0. -/
theorem set_vertex_attributes_index_identifies_triple_witness :
    (∃ m, set_vertex_attributes id allocator.succeeding blank_mesh quad_data = some m ∧
      m.indices = [0, 1, 2, 0, 2, 3] ∧
      quad_data.indices 0 = quad_data.indices 3 ∧
      quad_data.indices 0 ≠ quad_data.indices 1) ∧
    ((allocator.succeeding.indices = true → allocator.succeeding.positions = true →
        allocator.succeeding.texcoords = true → allocator.succeeding.normals = true →
        ∃ m, set_vertex_attributes id allocator.succeeding blank_mesh quad_data = some m) ∧
      ∀ m, set_vertex_attributes id allocator.succeeding blank_mesh quad_data = some m →
        ∀ i j, i < face_vertex_total quad_data → j < face_vertex_total quad_data →
          (m.indices[i]? = m.indices[j]? ↔ quad_data.indices i = quad_data.indices j) ∧
            ∃ k, m.indices[i]? = some k ∧
              (dedup_loop quad_data (face_vertex_total quad_data)).vertex_set[k]? =
                some (quad_data.indices i)) :=
  ⟨⟨_, rfl, by decide, by decide, by decide⟩,
    set_vertex_attributes_index_identifies_triple id allocator.succeeding blank_mesh
      quad_data (by decide) (by decide)⟩

/-- C2 (amended): for an input whose faces all have 0 or 3 vertices and whose
face vertex counts sum to less than `2 ^ 32`, `set_vertex_attributes` returns a
mesh when its allocations succeed, and every mesh it returns has as many
vertices as there are distinct `(p, t, n)` triples among the face-vertex
references, and a reference whose triple was not seen before receives the
number of distinct triples seen before it. -/
theorem set_vertex_attributes_vertex_count {F : Type}
    (normalize : vector3 F → vector3 F) (a : allocator) (m0 : mesh F)
    (data : fastObjMesh F)
    (hfaces : ∀ f, f < data.face_count →
      data.face_vertices f = 0 ∨ data.face_vertices f = 3)
    (hfit : face_vertex_total data < 4294967296) :
    (a.indices = true → a.positions = true → a.texcoords = true → a.normals = true →
      ∃ m, set_vertex_attributes normalize a m0 data = some m) ∧
    ∀ m, set_vertex_attributes normalize a m0 data = some m →
      m.vertex_count = (references data (face_vertex_total data)).toFinset.card ∧
        ∀ i, i < face_vertex_total data → data.indices i ∉ references data i →
          m.indices[i]? = some (references data i).toFinset.card := by
  refine ⟨set_vertex_attributes_returns normalize a m0 data hfaces, fun m h => ?_⟩
  obtain ⟨hind, hvc, -⟩ := set_vertex_attributes_of_fit hfaces hfit h
  refine ⟨by rw [hvc, dedup_loop_vertex_set_length], fun i hi hnew => ?_⟩
  rw [hind, dedup_loop_indices_stable data _ i hi]
  have hnot : data.indices i ∉ (dedup_loop data i).vertex_set := by
    rw [dedup_loop_mem_vertex_set]; exact hnew
  rw [put_vertex_of_not_mem hnot, dedup_loop_vertex_set_length]

/-- Witness of C2: the single triangle with three distinct triples gives 3
vertices, 1 triangle and the indices `[0, 1, 2]`; the quad split into two
triangles gives 4 vertices, not 6. -/
theorem set_vertex_attributes_vertex_count_witness :
    (∃ m, set_vertex_attributes id allocator.succeeding blank_mesh triangle_data = some m ∧
      m.vertex_count = 3 ∧ m.triangle_count = 1 ∧ m.indices = [0, 1, 2]) ∧
    (∃ m, set_vertex_attributes id allocator.succeeding blank_mesh quad_data = some m ∧
      m.vertex_count = 4 ∧ m.triangle_count = 2) ∧
    ((allocator.succeeding.indices = true → allocator.succeeding.positions = true →
        allocator.succeeding.texcoords = true → allocator.succeeding.normals = true →
        ∃ m, set_vertex_attributes id allocator.succeeding blank_mesh quad_data = some m) ∧
      ∀ m, set_vertex_attributes id allocator.succeeding blank_mesh quad_data = some m →
        m.vertex_count = (references quad_data (face_vertex_total quad_data)).toFinset.card ∧
          ∀ i, i < face_vertex_total quad_data →
            quad_data.indices i ∉ references quad_data i →
            m.indices[i]? = some (references quad_data i).toFinset.card) :=
  ⟨⟨_, rfl, by decide, by decide, by decide⟩, ⟨_, rfl, by decide, by decide⟩,
    set_vertex_attributes_vertex_count id allocator.succeeding blank_mesh quad_data
      (by decide) (by decide)⟩

/-- C3 (amended): for an input whose faces all have 0 or 3 vertices and whose
face vertex counts sum to less than `2 ^ 32`, `set_vertex_attributes` returns a
mesh when its allocations succeed, and in every mesh it returns the number of
indices is the sum of the face vertex counts, `triangle_count * 3` is the
length of the index buffer, and every index is below `vertex_count`. -/
theorem set_vertex_attributes_index_buffer {F : Type}
    (normalize : vector3 F → vector3 F) (a : allocator) (m0 : mesh F)
    (data : fastObjMesh F)
    (hfaces : ∀ f, f < data.face_count →
      data.face_vertices f = 0 ∨ data.face_vertices f = 3)
    (hfit : face_vertex_total data < 4294967296) :
    (a.indices = true → a.positions = true → a.texcoords = true → a.normals = true →
      ∃ m, set_vertex_attributes normalize a m0 data = some m) ∧
    ∀ m, set_vertex_attributes normalize a m0 data = some m →
      m.indices.length = face_vertex_total data ∧
        m.triangle_count * 3 = m.indices.length ∧
        ∀ k, k ∈ m.indices → k < m.vertex_count := by
  refine ⟨set_vertex_attributes_returns normalize a m0 data hfaces, fun m h => ?_⟩
  obtain ⟨hind, hvc, htc, -⟩ := set_vertex_attributes_of_fit hfaces hfit h
  have hlen : m.indices.length = face_vertex_total data := by
    rw [hind, dedup_loop_indices_length]
  refine ⟨hlen, ?_, fun k hk => ?_⟩
  · rw [htc, hlen]
    have := face_vertex_sum_dvd data data.face_count hfaces
    unfold face_vertex_total at *
    omega
  · obtain ⟨i, hi, hget⟩ := List.mem_iff_getElem.1 hk
    rw [hlen] at hi
    obtain ⟨k', hk', hv⟩ := dedup_loop_lookup data _ i hi
    have hkk : k' = k := by
      have h1 : m.indices[i]? = some k := by
        rw [List.getElem?_eq_some]; exact ⟨by rw [hlen]; exact hi, hget⟩
      rw [hind, hk'] at h1
      exact Option.some.inj h1
    subst hkk
    rw [hvc]
    exact (List.getElem?_eq_some.1 hv).1

/-- Witness of C3 on the quad: 6 indices, 2 triangles, 4 vertices. -/
theorem set_vertex_attributes_index_buffer_witness :
    (∃ m, set_vertex_attributes id allocator.succeeding blank_mesh quad_data = some m ∧
      face_vertex_total quad_data = 6 ∧ m.indices.length = 6 ∧ m.triangle_count = 2 ∧
      m.vertex_count = 4) ∧
    ((allocator.succeeding.indices = true → allocator.succeeding.positions = true →
        allocator.succeeding.texcoords = true → allocator.succeeding.normals = true →
        ∃ m, set_vertex_attributes id allocator.succeeding blank_mesh quad_data = some m) ∧
      ∀ m, set_vertex_attributes id allocator.succeeding blank_mesh quad_data = some m →
        m.indices.length = face_vertex_total quad_data ∧
          m.triangle_count * 3 = m.indices.length ∧
          ∀ k, k ∈ m.indices → k < m.vertex_count) :=
  ⟨⟨_, rfl, by decide, by decide, by decide, by decide⟩,
    set_vertex_attributes_index_buffer id allocator.succeeding blank_mesh quad_data
      (by decide) (by decide)⟩

/-- C4 (the code departs from the claim): a face whose vertex count is neither
0 nor 3 makes `set_vertex_attributes` report failure, whatever the other faces
are and wherever the face stands, but `load_mesh` does not then simply return
no mesh: at `load_failed` it calls `destroy_mesh` on the struct it obtained
from `malloc`, none of whose six pointer members has been assigned, so all six
are passed to `free` with indeterminate values; so it is for the quad followed
by a four-vertex face.  When every face has 0 or 3 vertices and the
allocations succeed, `set_vertex_attributes` succeeds, and the index buffer has
as many entries as the `uint32_t` counter holds after adding 3 for each
triangular face and nothing for a face with 0 vertices. -/
theorem load_mesh_frees_unwritten_members {F : Type} [Add F] [Sub F] [Mul F]
    [Div F] [Neg F] [Zero F] [One F] [LT F] [DecidableEq F]
    [DecidableRel (LT.lt : F → F → Prop)]
    (normalize : vector3 F → vector3 F) (a : allocator) (m0 : mesh F)
    (data : fastObjMesh F) :
    ((∃ f, f < data.face_count ∧ data.face_vertices f ≠ 0 ∧ data.face_vertices f ≠ 3) →
      set_vertex_attributes normalize a m0 data = none ∧
        (a.mesh = true →
          load_mesh normalize a m0 (some data) =
            Except.error (load_failure.frees_unwritten
              [mesh_member.positions, mesh_member.texcoords, mesh_member.normals,
                mesh_member.tangents, mesh_member.indices,
                mesh_member.diffuse_texture_path])) ∧
        (a.mesh = false →
          load_mesh normalize a m0 (some data) =
            Except.error load_failure.returns_null)) ∧
    ((∀ f, f < data.face_count → data.face_vertices f = 0 ∨ data.face_vertices f = 3) →
      a.indices = true → a.positions = true → a.texcoords = true → a.normals = true →
      ∃ m, set_vertex_attributes normalize a m0 data = some m ∧
        m.indices.length =
          uint32_wrap (3 * ((List.range data.face_count).filter
            (fun f => data.face_vertices f = 3)).length)) ∧
    set_vertex_attributes id allocator.succeeding blank_mesh quad_face_data = none ∧
    load_mesh id allocator.succeeding blank_mesh (some quad_face_data) =
      Except.error (load_failure.frees_unwritten
        [mesh_member.positions, mesh_member.texcoords, mesh_member.normals,
          mesh_member.tangents, mesh_member.indices, mesh_member.diffuse_texture_path]) ∧
    (∃ m, set_vertex_attributes id allocator.succeeding blank_mesh quad_data = some m ∧
      m.indices.length = 6) := by
  refine ⟨fun hbad => ?_, fun hfaces hi hp ht hn => ?_, rfl, rfl, ⟨_, rfl, rfl⟩⟩
  · have hnone := (count_indices_eq_none_iff data data.face_count).2 hbad
    have hsva : set_vertex_attributes normalize a m0 data = none := by
      unfold set_vertex_attributes; rw [hnone]
    refine ⟨hsva, fun hmesh => ?_, fun hmesh => ?_⟩
    · unfold load_mesh
      simp only [hsva, hmesh]
      rfl
    · unfold load_mesh
      simp only [hmesh]
      rfl
  · have hc := count_indices_eq_some_wrap data data.face_count hfaces
    obtain ⟨m, hm⟩ := set_vertex_attributes_succeeds normalize a m0 data _ hc hi hp ht hn
    refine ⟨m, hm, ?_⟩
    obtain ⟨c', hc', hind, -⟩ := set_vertex_attributes_eq_some hm
    rw [hc] at hc'
    rw [hind, dedup_loop_indices_length, ← Option.some.inj hc',
      face_vertex_sum_dvd data data.face_count hfaces]

/-! ## Materialisation of the per-vertex arrays -/

/-- C5 (the code departs from the claim): the value `set_vertex_attributes`
copies for a unique triple is read at the offset its index addresses
(`p * 3`, `t * 2`, `n * 3` in `unsigned int` arithmetic) whether or not the
index is below the source count; the fallback `src` is never read.  On
`stray_index_data` the vertices 1 and 2 have indices beyond the source counts
and receive what lies behind the arrays (the value 7), not source element 0,
which is `(0, 0, 0)`, `(0, 0)` and `(0, 0, 0)`. -/
theorem set_vertex_attributes_reads_out_of_range_element :
    (∀ (data : fastObjMesh ℚ) (vertex : fastObjIndex),
      materialize_position data vertex =
          read_vector3 data.positions (uint32_wrap (vertex.p * 3)) ∧
        materialize_texcoord data vertex =
          read_vector2 data.texcoords (uint32_wrap (vertex.t * 2)) ∧
        materialize_normal id data vertex =
          read_vector3 data.normals (uint32_wrap (vertex.n * 3))) ∧
    (∃ m, set_vertex_attributes id allocator.succeeding blank_mesh stray_index_data = some m ∧
      m.positions = [⟨1, 2, 3⟩, ⟨7, 7, 7⟩, ⟨7, 7, 7⟩] ∧
      m.texcoords = some [⟨1, 1⟩, ⟨7, 7⟩, ⟨7, 7⟩] ∧
      m.normals = some [⟨0, 0, 1⟩, ⟨7, 7, 7⟩, ⟨7, 7, 7⟩]) ∧
    read_vector3 stray_index_data.positions 0 = ⟨0, 0, 0⟩ ∧
    read_vector2 stray_index_data.texcoords 0 = ⟨0, 0⟩ ∧
    read_vector3 stray_index_data.normals 0 = ⟨0, 0, 0⟩ :=
  ⟨fun _ _ => ⟨rfl, rfl, rfl⟩, ⟨_, rfl, by decide, by decide, by decide⟩,
    by decide, by decide, by decide⟩

theorem dedup_loop_has_texcoords {F : Type} (data : fastObjMesh F) (n : Nat) :
    (dedup_loop data n).has_texcoords = true ↔
      ∃ i, i < n ∧ 0 < (data.indices i).t ∧ (data.indices i).t < data.texcoord_count := by
  induction n with
  | zero => simp [dedup_loop]
  | succ n ih =>
    rw [dedup_loop_succ]
    simp only [dedup_step, Bool.or_eq_true, Bool.and_eq_true, decide_eq_true_eq, ih]
    constructor
    · rintro (⟨i, hi, h⟩ | h)
      · exact ⟨i, by omega, h⟩
      · exact ⟨n, by omega, h⟩
    · rintro ⟨i, hi, h⟩
      rcases Nat.lt_or_ge i n with hlt | hge
      · exact Or.inl ⟨i, hlt, h⟩
      · have : i = n := by omega
        subst this; exact Or.inr h

theorem dedup_loop_has_normals {F : Type} (data : fastObjMesh F) (n : Nat) :
    (dedup_loop data n).has_normals = true ↔
      ∃ i, i < n ∧ 0 < (data.indices i).n ∧ (data.indices i).n < data.normal_count := by
  induction n with
  | zero => simp [dedup_loop]
  | succ n ih =>
    rw [dedup_loop_succ]
    simp only [dedup_step, Bool.or_eq_true, Bool.and_eq_true, decide_eq_true_eq, ih]
    constructor
    · rintro (⟨i, hi, h⟩ | h)
      · exact ⟨i, by omega, h⟩
      · exact ⟨n, by omega, h⟩
    · rintro ⟨i, hi, h⟩
      rcases Nat.lt_or_ge i n with hlt | hge
      · exact Or.inl ⟨i, hlt, h⟩
      · have : i = n := by omega
        subst this; exact Or.inr h

/-- C6 (amended): for an input whose faces all have 0 or 3 vertices and whose
face vertex counts sum to less than `2 ^ 32`, `set_vertex_attributes` returns a
mesh when its allocations succeed, and every mesh it returns has a texcoord
array exactly when some face-vertex reference has a texcoord index `t` with
`0 < t < texcoord_count`, and has normals exactly when some reference has a
normal index `n` with `0 < n < normal_count`. -/
theorem set_vertex_attributes_optional_arrays {F : Type}
    (normalize : vector3 F → vector3 F) (a : allocator) (m0 : mesh F)
    (data : fastObjMesh F)
    (hfaces : ∀ f, f < data.face_count →
      data.face_vertices f = 0 ∨ data.face_vertices f = 3)
    (hfit : face_vertex_total data < 4294967296) :
    (a.indices = true → a.positions = true → a.texcoords = true → a.normals = true →
      ∃ m, set_vertex_attributes normalize a m0 data = some m) ∧
    ∀ m, set_vertex_attributes normalize a m0 data = some m →
      (m.texcoords.isSome = true ↔
        ∃ i, i < face_vertex_total data ∧
          0 < (data.indices i).t ∧ (data.indices i).t < data.texcoord_count) ∧
      (m.normals.isSome = true ↔
        ∃ i, i < face_vertex_total data ∧
          0 < (data.indices i).n ∧ (data.indices i).n < data.normal_count) := by
  refine ⟨set_vertex_attributes_returns normalize a m0 data hfaces, fun m h => ?_⟩
  obtain ⟨-, -, -, htex, hnor⟩ := set_vertex_attributes_of_fit hfaces hfit h
  rw [htex, hnor, dedup_loop_has_texcoords, dedup_loop_has_normals]
  exact ⟨Iff.rfl, Iff.rfl⟩

/-- Witness of C6: the triangle has the texcoord indices 1, 2, 3 below the
count 4 and only the normal index 0, so it gets texcoords and no normals. -/
theorem set_vertex_attributes_optional_arrays_witness :
    (∃ m, set_vertex_attributes id allocator.succeeding blank_mesh triangle_data = some m ∧
      m.texcoords.isSome = true ∧ m.normals.isSome = false) ∧
    ((allocator.succeeding.indices = true → allocator.succeeding.positions = true →
        allocator.succeeding.texcoords = true → allocator.succeeding.normals = true →
        ∃ m, set_vertex_attributes id allocator.succeeding blank_mesh triangle_data =
          some m) ∧
      ∀ m, set_vertex_attributes id allocator.succeeding blank_mesh triangle_data = some m →
        (m.texcoords.isSome = true ↔
          ∃ i, i < face_vertex_total triangle_data ∧
            0 < (triangle_data.indices i).t ∧
              (triangle_data.indices i).t < triangle_data.texcoord_count) ∧
        (m.normals.isSome = true ↔
          ∃ i, i < face_vertex_total triangle_data ∧
            0 < (triangle_data.indices i).n ∧
              (triangle_data.indices i).n < triangle_data.normal_count)) :=
  ⟨⟨_, rfl, by decide, by decide⟩,
    set_vertex_attributes_optional_arrays id allocator.succeeding blank_mesh triangle_data
      (by decide) (by decide)⟩

/-! ## `load_mesh`: presence and length of the per-vertex arrays -/

theorem set_diffuse_texture_name_eq_some {F : Type} {a : allocator} {m m' : mesh F}
    {data : fastObjMesh F} (h : set_diffuse_texture_name a m data = some m') :
    ∃ path, m' = { m with diffuse_texture_path := path } := by
  unfold set_diffuse_texture_name at h
  simp only at h
  split at h
  · exact ⟨none, (Option.some.inj h).symm⟩
  · split at h
    · exact ⟨none, (Option.some.inj h).symm⟩
    · split at h
      · exact ⟨none, (Option.some.inj h).symm⟩
      · split at h
        · exact absurd h (by simp)
        · exact ⟨_, (Option.some.inj h).symm⟩

theorem accumulate_length {F : Type} [Add F] [Zero F] (acc : List (vector3 F)) (index : Nat)
    (n : vector3 F) : (accumulate acc index n).length = acc.length := by
  simp [accumulate]

theorem compute_normals_loop_length {F : Type} [Add F] [Sub F] [Mul F] [Zero F]
    (m : mesh F) (t : Nat) : (compute_normals_loop m t).length = m.vertex_count := by
  induction t with
  | zero => simp [compute_normals_loop]
  | succ t ih => simp [compute_normals_loop, compute_normals_triangle, accumulate_length, ih]

theorem compute_normals_eq_some {F : Type} [Add F] [Sub F] [Mul F] [Zero F]
    {normalize : vector3 F → vector3 F} {a : allocator} {m m' : mesh F}
    (h : compute_normals normalize a m = some m') :
    m' = { m with
      normals := some ((compute_normals_loop m m.triangle_count).map normalize) } := by
  unfold compute_normals at h
  split at h
  · exact absurd h (by simp)
  · exact (Option.some.inj h).symm

theorem compute_tangents_eq_some {F : Type} [Add F] [Sub F] [Mul F] [Div F] [Neg F]
    [Zero F] [One F] [LT F] [DecidableEq F] [DecidableRel (LT.lt : F → F → Prop)]
    {normalize : vector3 F → vector3 F} {a : allocator} {m m' : mesh F}
    (h : compute_tangents normalize a m = some m') :
    ∃ tangents, m' = { m with tangents := tangents } ∧
      (tangents.isSome = true ↔ m.normals.isSome = true ∧ m.texcoords.isSome = true) ∧
      ∀ l, tangents = some l → l.length = m.vertex_count := by
  unfold compute_tangents at h
  split at h
  · rename_i hn
    refine ⟨none, (Option.some.inj h).symm, ?_, ?_⟩
    · simp [hn]
    · intro l hl; exact absurd hl (by simp)
  · rename_i hn ht
    refine ⟨none, (Option.some.inj h).symm, ?_, ?_⟩
    · simp [ht]
    · intro l hl; exact absurd hl (by simp)
  · rename_i normals texcoords hn ht
    split at h
    · exact absurd h (by simp)
    · refine ⟨_, (Option.some.inj h).symm, ?_, ?_⟩
      · simp [hn, ht]
      · intro l hl
        have := Option.some.inj hl
        subst this
        simp

theorem set_diffuse_texture_name_returns {F : Type} (a : allocator) (m : mesh F)
    (data : fastObjMesh F) (hp : a.path = true) :
    ∃ m', set_diffuse_texture_name a m data = some m' := by
  unfold set_diffuse_texture_name
  simp only [hp]
  split
  · exact ⟨_, rfl⟩
  · split
    · exact ⟨_, rfl⟩
    · split
      · exact ⟨_, rfl⟩
      · exact ⟨_, rfl⟩

theorem compute_tangents_returns {F : Type} [Add F] [Sub F] [Mul F] [Div F] [Neg F]
    [Zero F] [One F] [LT F] [DecidableEq F] [DecidableRel (LT.lt : F → F → Prop)]
    (normalize : vector3 F → vector3 F) (a : allocator) (m : mesh F)
    (ht : a.tangents = true) : ∃ m', compute_tangents normalize a m = some m' := by
  unfold compute_tangents
  split
  · exact ⟨_, rfl⟩
  · exact ⟨_, rfl⟩
  · simp [ht]

theorem load_failed_ne_ok {F : Type} (written : List mesh_member) (m : mesh F) :
    (load_failed written : Except load_failure (mesh F)) ≠ Except.ok m := by
  unfold load_failed
  split <;> exact fun h => Except.noConfusion h

/-- C7: `load_mesh` returns a mesh for an input whose faces all have 0 or 3
vertices when every allocation succeeds, and in every mesh that `load_mesh`
returns the normal array is present, the tangent array is present exactly when
the normal and the texcoord array are, and each present per-vertex array has
`vertex_count` elements. -/
theorem load_mesh_vertex_arrays {F : Type} [Add F] [Sub F] [Mul F] [Div F] [Neg F]
    [Zero F] [One F] [LT F] [DecidableEq F] [DecidableRel (LT.lt : F → F → Prop)]
    (normalize : vector3 F → vector3 F) (a : allocator) (uninit : mesh F)
    (file : Option (fastObjMesh F)) :
    (∀ data, file = some data → a = allocator.succeeding →
      (∀ f, f < data.face_count → data.face_vertices f = 0 ∨ data.face_vertices f = 3) →
      ∃ m, load_mesh normalize a uninit file = Except.ok m) ∧
    ∀ m, load_mesh normalize a uninit file = Except.ok m →
      m.normals.isSome = true ∧
        (m.tangents.isSome = true ↔ m.normals.isSome = true ∧ m.texcoords.isSome = true) ∧
        m.positions.length = m.vertex_count ∧
        (∀ l, m.texcoords = some l → l.length = m.vertex_count) ∧
        (∀ l, m.normals = some l → l.length = m.vertex_count) ∧
        (∀ l, m.tangents = some l → l.length = m.vertex_count) := by
  constructor
  · intro data hfile ha hfaces
    subst hfile
    subst ha
    obtain ⟨m1, h1⟩ := set_vertex_attributes_returns normalize allocator.succeeding uninit
      data hfaces rfl rfl rfl rfl
    obtain ⟨m2, h2⟩ := set_diffuse_texture_name_returns allocator.succeeding m1 data rfl
    have h3 : ∃ m3, (if m2.normals.isNone = true then
        compute_normals normalize allocator.succeeding m2 else some m2) = some m3 := by
      split
      · exact ⟨_, rfl⟩
      · exact ⟨_, rfl⟩
    obtain ⟨m3, h3⟩ := h3
    obtain ⟨m4, h4⟩ := compute_tangents_returns normalize allocator.succeeding m3 rfl
    refine ⟨m4, ?_⟩
    unfold load_mesh
    simp only [h1, h2, h3, h4]
    rfl
  intro m h
  unfold load_mesh at h
  split at h
  · exact Except.noConfusion h
  cases file with
  | none => exact absurd h (load_failed_ne_ok _ m)
  | some data =>
    simp only at h
    cases h1 : set_vertex_attributes normalize a uninit data with
    | none => rw [h1] at h; exact absurd h (load_failed_ne_ok _ m)
    | some m1 =>
      rw [h1] at h
      simp only at h
      cases h2 : set_diffuse_texture_name a m1 data with
      | none => rw [h2] at h; exact absurd h (load_failed_ne_ok _ m)
      | some m2 =>
        rw [h2] at h
        simp only at h
        obtain ⟨c, -, -, hvc, -, hpos, htex, hnor⟩ := set_vertex_attributes_eq_some h1
        obtain ⟨path, hm2⟩ := set_diffuse_texture_name_eq_some h2
        have hpos1 : m1.positions.length = m1.vertex_count := by
          rw [hpos, hvc, List.length_map]
        have htex1 : ∀ l, m1.texcoords = some l → l.length = m1.vertex_count := by
          intro l hl
          rw [htex] at hl
          split at hl
          · have := Option.some.inj hl
            subst this
            rw [hvc, List.length_map]
          · exact absurd hl (by simp)
        have hnor1 : ∀ l, m1.normals = some l → l.length = m1.vertex_count := by
          intro l hl
          rw [hnor] at hl
          split at hl
          · have := Option.some.inj hl
            subst this
            rw [hvc, List.length_map]
          · exact absurd hl (by simp)
        subst hm2
        -- the mesh after the optional call of `compute_normals`
        have key : ∀ m3 : mesh F,
            (if m1.normals.isNone = true then
              compute_normals normalize a { m1 with diffuse_texture_path := path }
             else some { m1 with diffuse_texture_path := path }) = some m3 →
            m3.normals.isSome = true ∧ m3.positions = m1.positions ∧
              m3.texcoords = m1.texcoords ∧ m3.vertex_count = m1.vertex_count ∧
              (∀ l, m3.normals = some l → l.length = m1.vertex_count) := by
          intro m3 h3
          split at h3
          · have := compute_normals_eq_some h3
            subst this
            refine ⟨rfl, rfl, rfl, rfl, ?_⟩
            intro l hl
            have := Option.some.inj hl
            subst this
            rw [List.length_map, compute_normals_loop_length]
          · rename_i hsome
            have := Option.some.inj h3
            subst this
            refine ⟨?_, rfl, rfl, rfl, hnor1⟩
            cases hn : m1.normals with
            | none => rw [hn] at hsome; exact absurd rfl hsome
            | some l => rfl
        cases h3 : (if m1.normals.isNone = true then
              compute_normals normalize a { m1 with diffuse_texture_path := path }
             else some { m1 with diffuse_texture_path := path }) with
        | none =>
          simp only [h3] at h
          exact absurd h (load_failed_ne_ok _ m)
        | some m3 =>
          simp only [h3] at h
          obtain ⟨hn3, hp3, ht3, hv3, hl3⟩ := key m3 h3
          have h4 : compute_tangents normalize a m3 = some m := by
            cases hct : compute_tangents normalize a m3 with
            | none => rw [hct] at h; exact absurd h (load_failed_ne_ok _ m)
            | some m4 => rw [hct] at h; rw [Except.ok.inj h]
          obtain ⟨tangents, hm, hiff, hlen⟩ := compute_tangents_eq_some h4
          subst hm
          refine ⟨hn3, hiff, ?_, ?_, ?_, ?_⟩
          · show m3.positions.length = m3.vertex_count
            rw [hp3, hv3]; exact hpos1
          · intro l hl
            show l.length = m3.vertex_count
            rw [hv3]; exact htex1 l (ht3 ▸ hl)
          · intro l hl
            show l.length = m3.vertex_count
            rw [hv3]; exact hl3 l hl
          · exact hlen

/-- Witness of C7: `load_mesh` returns a mesh for the triangle, whose normals
are derived and whose tangents are present. -/
theorem load_mesh_vertex_arrays_witness :
    (∃ m, load_mesh id allocator.succeeding blank_mesh (some triangle_data) = Except.ok m) ∧
    ∃ m, load_mesh id allocator.succeeding blank_mesh (some triangle_data) = Except.ok m ∧
      m.vertex_count = 3 ∧
      (m.normals.isSome = true ∧
        (m.tangents.isSome = true ↔ m.normals.isSome = true ∧ m.texcoords.isSome = true) ∧
        m.positions.length = m.vertex_count ∧
        (∀ l, m.texcoords = some l → l.length = m.vertex_count) ∧
        (∀ l, m.normals = some l → l.length = m.vertex_count) ∧
        (∀ l, m.tangents = some l → l.length = m.vertex_count)) :=
  ⟨(load_mesh_vertex_arrays id allocator.succeeding blank_mesh (some triangle_data)).1
      triangle_data rfl rfl (by decide),
    ⟨_, rfl, by decide,
      (load_mesh_vertex_arrays id allocator.succeeding blank_mesh (some triangle_data)).2
        _ rfl⟩⟩

/-! ## `compute_normals` -/

theorem accumulate_getD {F : Type} [Add F] [Zero F] (acc : List (vector3 F)) (index : Nat)
    (n : vector3 F) (v : Nat) (hv : v < acc.length) :
    (accumulate acc index n).getD v VECTOR3_ZERO =
      if index = v then vector3_add (acc.getD v VECTOR3_ZERO) n
      else acc.getD v VECTOR3_ZERO := by
  unfold accumulate
  by_cases h : index = v
  · subst h
    simp [List.getD_eq_getElem?_getD, List.getElem?_set, hv]
  · simp [List.getD_eq_getElem?_getD, List.getElem?_set, h]

theorem accumulate_three_getD {F : Type} [Add F] [Zero F] (acc : List (vector3 F))
    (i0 i1 i2 : Nat) (n : vector3 F) (v : Nat) (hv : v < acc.length) :
    (accumulate (accumulate (accumulate acc i0 n) i1 n) i2 n).getD v VECTOR3_ZERO =
      ((([i0, i1, i2] : List Nat).filter (fun i => decide (i = v))).map (fun _ => n)).foldl
        vector3_add (acc.getD v VECTOR3_ZERO) := by
  rw [accumulate_getD _ _ _ _ (by simpa [accumulate_length] using hv),
    accumulate_getD _ _ _ _ (by simpa [accumulate_length] using hv),
    accumulate_getD _ _ _ _ hv]
  by_cases h0 : i0 = v <;> by_cases h1 : i1 = v <;> by_cases h2 : i2 = v <;>
    simp [List.filter, h0, h1, h2]

theorem corner_filter_eq {F : Type} (m : mesh F) (t v : Nat) (n : vector3 F) :
    (([0, 1, 2] : List Nat).filter (fun k => decide (triangle_vertex m t k = v))).map
        (fun _ => n) =
      (([triangle_vertex m t 0, triangle_vertex m t 1, triangle_vertex m t 2] :
        List Nat).filter (fun i => decide (i = v))).map (fun _ => n) := by
  by_cases h0 : triangle_vertex m t 0 = v <;> by_cases h1 : triangle_vertex m t 1 = v <;>
    by_cases h2 : triangle_vertex m t 2 = v <;> simp [List.filter, h0, h1, h2]

theorem compute_normals_loop_getD {F : Type} [Add F] [Sub F] [Mul F] [Zero F]
    (m : mesh F) (v : Nat) (hv : v < m.vertex_count) (t : Nat) :
    (compute_normals_loop m t).getD v VECTOR3_ZERO =
      (corner_contributions m (surface_normal m) v t).foldl vector3_add VECTOR3_ZERO := by
  induction t with
  | zero =>
    simp [compute_normals_loop, corner_contributions, List.getD_eq_getElem?_getD, hv]
  | succ t ih =>
    rw [corner_contributions, List.foldl_append, ← ih, corner_filter_eq]
    show (compute_normals_triangle m (compute_normals_loop m t) t).getD v VECTOR3_ZERO = _
    unfold compute_normals_triangle
    exact accumulate_three_getD _ _ _ _ _ v (by rw [compute_normals_loop_length]; exact hv)

/-- C8: when its allocation succeeds, `compute_normals` returns the mesh whose
normal at each vertex is `vector3_normalize` of the sum, over the triangle
corners of the index buffer that reference the vertex, of the unnormalised
face normal `(p1 - p0) x (p2 - p0)` of the corner's triangle. -/
theorem compute_normals_vertex_normal {F : Type} [Add F] [Sub F] [Mul F] [Zero F]
    (normalize : vector3 F → vector3 F) (a : allocator) (m : mesh F)
    (ha : a.derived_normals = true) :
    ∃ m' normals, compute_normals normalize a m = some m' ∧ m'.normals = some normals ∧
      (∀ t, surface_normal m t =
        vector3_cross
          (vector3_subtract (m.positions.getD (triangle_vertex m t 1) VECTOR3_ZERO)
            (m.positions.getD (triangle_vertex m t 0) VECTOR3_ZERO))
          (vector3_subtract (m.positions.getD (triangle_vertex m t 2) VECTOR3_ZERO)
            (m.positions.getD (triangle_vertex m t 0) VECTOR3_ZERO))) ∧
      ∀ v, v < m.vertex_count →
        normals[v]? = some (normalize
          ((corner_contributions m (surface_normal m) v m.triangle_count).foldl
            vector3_add VECTOR3_ZERO)) := by
  refine ⟨{ m with
      normals := some ((compute_normals_loop m m.triangle_count).map normalize) },
    (compute_normals_loop m m.triangle_count).map normalize, ?_, rfl,
    fun t => rfl, fun v hv => ?_⟩
  · unfold compute_normals
    simp [ha]
  · have hlen : v < (compute_normals_loop m m.triangle_count).length := by
      rw [compute_normals_loop_length]; exact hv
    rw [List.getElem?_map, ← compute_normals_loop_getD m v hv,
      List.getD_eq_getElem?_getD, List.getElem?_eq_getElem hlen]
    rfl

/-- Witness of C8: the single triangle `(0,0,0)`, `(1,0,0)`, `(0,1,0)` has the
face normal `(0,0,1)`, a unit vector, and gets the normal `(0,0,1)` at all
three vertices (with a `vector3_normalize` that leaves unit vectors alone). -/
theorem compute_normals_vertex_normal_witness :
    (∃ m', compute_normals id allocator.succeeding flat_triangle = some m' ∧
      m'.normals = some [⟨0, 0, 1⟩, ⟨0, 0, 1⟩, ⟨0, 0, 1⟩]) ∧
    surface_normal flat_triangle 0 = ⟨0, 0, 1⟩ ∧
    (∃ m' normals, compute_normals id allocator.succeeding flat_triangle = some m' ∧
      m'.normals = some normals ∧
      (∀ t, surface_normal flat_triangle t =
        vector3_cross
          (vector3_subtract
            (flat_triangle.positions.getD (triangle_vertex flat_triangle t 1) VECTOR3_ZERO)
            (flat_triangle.positions.getD (triangle_vertex flat_triangle t 0) VECTOR3_ZERO))
          (vector3_subtract
            (flat_triangle.positions.getD (triangle_vertex flat_triangle t 2) VECTOR3_ZERO)
            (flat_triangle.positions.getD (triangle_vertex flat_triangle t 0) VECTOR3_ZERO))) ∧
      ∀ v, v < flat_triangle.vertex_count →
        normals[v]? = some (id
          ((corner_contributions flat_triangle (surface_normal flat_triangle) v
            flat_triangle.triangle_count).foldl vector3_add VECTOR3_ZERO))) :=
  ⟨⟨_, rfl, by
      simp [compute_normals_loop, compute_normals_triangle, accumulate, surface_normal,
        triangle_vertex, flat_triangle, uint32_wrap, vector3_cross, vector3_subtract,
        vector3_add, VECTOR3_ZERO]⟩,
    by
      simp [surface_normal, triangle_vertex, flat_triangle, uint32_wrap, vector3_cross,
        vector3_subtract, VECTOR3_ZERO],
    compute_normals_vertex_normal id allocator.succeeding flat_triangle rfl⟩

/-! ## `compute_tangents` -/

theorem compute_tangents_loop_length {F : Type} [Add F] [Sub F] [Mul F] [Div F] [Zero F]
    [One F] [DecidableEq F] (m : mesh F) (texcoords : List (vector2 F)) (t : Nat) :
    (compute_tangents_loop m texcoords t).1.length = m.vertex_count ∧
      (compute_tangents_loop m texcoords t).2.length = m.vertex_count := by
  induction t with
  | zero => simp [compute_tangents_loop]
  | succ t ih =>
    simp [compute_tangents_loop, compute_tangents_triangle, accumulate_length, ih]

theorem compute_tangents_loop_getD {F : Type} [Add F] [Sub F] [Mul F] [Div F] [Zero F]
    [One F] [DecidableEq F] (m : mesh F) (texcoords : List (vector2 F)) (v : Nat)
    (hv : v < m.vertex_count) (t : Nat) :
    (compute_tangents_loop m texcoords t).1.getD v VECTOR3_ZERO =
        (corner_contributions m (fun s => (tangent_contribution m texcoords s).1) v t).foldl
          vector3_add VECTOR3_ZERO ∧
      (compute_tangents_loop m texcoords t).2.getD v VECTOR3_ZERO =
        (corner_contributions m (fun s => (tangent_contribution m texcoords s).2) v t).foldl
          vector3_add VECTOR3_ZERO := by
  induction t with
  | zero =>
    simp [compute_tangents_loop, corner_contributions, List.getD_eq_getElem?_getD, hv]
  | succ t ih =>
    obtain ⟨h1, h2⟩ := compute_tangents_loop_length m texcoords t
    rw [corner_contributions, corner_contributions, List.foldl_append, List.foldl_append,
      ← ih.1, ← ih.2, corner_filter_eq, corner_filter_eq]
    constructor
    · show (compute_tangents_triangle m texcoords (compute_tangents_loop m texcoords t)
        t).1.getD v VECTOR3_ZERO = _
      unfold compute_tangents_triangle
      exact accumulate_three_getD _ _ _ _ _ v (by rw [h1]; exact hv)
    · show (compute_tangents_triangle m texcoords (compute_tangents_loop m texcoords t)
        t).2.getD v VECTOR3_ZERO = _
      unfold compute_tangents_triangle
      exact accumulate_three_getD _ _ _ _ _ v (by rw [h2]; exact hv)

/-- C9: `compute_tangents` produces tangents for a mesh with normals and
texcoords when its allocation succeeds, and whenever it produces tangents the
`w` of the stored tangent of every vertex is `-1` if `dot (cross (n, t'), b)`
is negative and `1` otherwise, where `n` is the vertex normal, `t'` the stored
(orthogonalised and normalised) tangent direction and `b` the accumulated
bitangent; so it is `1` or `-1` and no other value. -/
theorem compute_tangents_handedness {F : Type} [Add F] [Sub F] [Mul F] [Div F] [Neg F]
    [Zero F] [One F] [LT F] [DecidableEq F] [DecidableRel (LT.lt : F → F → Prop)]
    (normalize : vector3 F → vector3 F) (a : allocator) (m : mesh F) :
    (m.normals.isSome = true → m.texcoords.isSome = true → a.tangents = true →
      ∃ m' tangents, compute_tangents normalize a m = some m' ∧
        m'.tangents = some tangents) ∧
    ∀ m' tangents, compute_tangents normalize a m = some m' → m'.tangents = some tangents →
      ∃ normals texcoords, m.normals = some normals ∧ m.texcoords = some texcoords ∧
        tangents.length = m.vertex_count ∧
        ∀ v, v < m.vertex_count → ∃ T, tangents[v]? = some T ∧
          (⟨T.x, T.y, T.z⟩ : vector3 F) =
            normalize (vector3_subtract
              ((compute_tangents_loop m texcoords m.triangle_count).1.getD v VECTOR3_ZERO)
              (vector3_multiply_scalar (normals.getD v VECTOR3_ZERO)
                (vector3_dot (normals.getD v VECTOR3_ZERO)
                  ((compute_tangents_loop m texcoords m.triangle_count).1.getD v
                    VECTOR3_ZERO)))) ∧
          T.w =
            (if vector3_dot (vector3_cross (normals.getD v VECTOR3_ZERO) ⟨T.x, T.y, T.z⟩)
                ((compute_tangents_loop m texcoords m.triangle_count).2.getD v VECTOR3_ZERO) < 0
              then -1 else 1) ∧
          (T.w = 1 ∨ T.w = -1) ∧ ((1 : F) ≠ 0 → (-1 : F) ≠ 0 → T.w ≠ 0) := by
  constructor
  · intro hn htc ha
    obtain ⟨m', hm'⟩ := compute_tangents_returns normalize a m ha
    obtain ⟨tangents, hm, hiff, -⟩ := compute_tangents_eq_some hm'
    have hsome : tangents.isSome = true := hiff.2 ⟨hn, htc⟩
    obtain ⟨l, hl⟩ := Option.isSome_iff_exists.1 hsome
    refine ⟨m', l, hm', ?_⟩
    rw [hm, ← hl]
  intro m' tangents h ht
  unfold compute_tangents at h
  split at h
  · have := Option.some.inj h
    subst this
    exact absurd ht (by simp)
  · have := Option.some.inj h
    subst this
    exact absurd ht (by simp)
  · rename_i normals texcoords hn htc
    split at h
    · exact absurd h (by simp)
    · have := Option.some.inj h
      subst this
      have hl := Option.some.inj ht
      subst hl
      refine ⟨normals, texcoords, hn, htc, by simp, fun v hv => ?_⟩
      refine ⟨_, by rw [List.getElem?_map, List.getElem?_range hv]; rfl, rfl, rfl, ?_, ?_⟩
      · simp only [vertex_tangent]
        split
        · exact Or.inr rfl
        · exact Or.inl rfl
      · intro h1 hm1
        simp only [vertex_tangent]
        split
        · exact hm1
        · exact h1

/-- Witness of C9: with the texcoords `(0,0)`, `(1,0)`, `(0,1)` the triangle
gets the tangent `(1, 0, 0)` with `w = 1`; with the mirrored texcoords
`(0,0)`, `(1,0)`, `(0,-1)` it gets `w = -1`. -/
theorem compute_tangents_handedness_witness :
    (∃ m', compute_tangents id allocator.succeeding
        (lit_triangle [⟨0, 0⟩, ⟨1, 0⟩, ⟨0, 1⟩]) = some m' ∧
      m'.tangents = some [⟨1, 0, 0, 1⟩, ⟨1, 0, 0, 1⟩, ⟨1, 0, 0, 1⟩]) ∧
    (∃ m', compute_tangents id allocator.succeeding
        (lit_triangle [⟨0, 0⟩, ⟨1, 0⟩, ⟨0, -1⟩]) = some m' ∧
      m'.tangents = some [⟨1, 0, 0, -1⟩, ⟨1, 0, 0, -1⟩, ⟨1, 0, 0, -1⟩]) ∧
    (∃ m' tangents, compute_tangents id allocator.succeeding
        (lit_triangle [⟨0, 0⟩, ⟨1, 0⟩, ⟨0, -1⟩]) = some m' ∧
      m'.tangents = some tangents ∧
      ∀ T, T ∈ tangents → T.w = 1 ∨ T.w = -1) := by
  have e1 : ∃ m', compute_tangents id allocator.succeeding
        (lit_triangle [⟨0, 0⟩, ⟨1, 0⟩, ⟨0, 1⟩]) = some m' ∧
      m'.tangents = some [⟨1, 0, 0, 1⟩, ⟨1, 0, 0, 1⟩, ⟨1, 0, 0, 1⟩] := by
    refine ⟨_, rfl, ?_⟩
    simp [lit_triangle, flat_triangle, compute_tangents_loop, compute_tangents_triangle,
      triangle_tangent, accumulate, vertex_tangent, triangle_vertex, uint32_wrap,
      vector3_cross, vector3_dot, vector3_subtract, vector3_multiply_scalar, vector3_add,
      VECTOR3_ZERO, List.range_succ]
  have e2 : ∃ m', compute_tangents id allocator.succeeding
        (lit_triangle [⟨0, 0⟩, ⟨1, 0⟩, ⟨0, -1⟩]) = some m' ∧
      m'.tangents = some [⟨1, 0, 0, -1⟩, ⟨1, 0, 0, -1⟩, ⟨1, 0, 0, -1⟩] := by
    refine ⟨_, rfl, ?_⟩
    simp [lit_triangle, flat_triangle, compute_tangents_loop, compute_tangents_triangle,
      triangle_tangent, accumulate, vertex_tangent, triangle_vertex, uint32_wrap,
      vector3_cross, vector3_dot, vector3_subtract, vector3_multiply_scalar, vector3_add,
      VECTOR3_ZERO, List.range_succ]
  refine ⟨e1, e2, ?_⟩
  obtain ⟨m', tangents, hm', ht⟩ :=
    (compute_tangents_handedness id allocator.succeeding
      (lit_triangle [⟨0, 0⟩, ⟨1, 0⟩, ⟨0, -1⟩])).1 rfl rfl rfl
  refine ⟨m', tangents, hm', ht, fun T hT => ?_⟩
  obtain ⟨normals, texcoords, -, -, hlen, hall⟩ :=
    (compute_tangents_handedness id allocator.succeeding
      (lit_triangle [⟨0, 0⟩, ⟨1, 0⟩, ⟨0, -1⟩])).2 m' tangents hm' ht
  obtain ⟨v, hv, hget⟩ := List.mem_iff_getElem.1 hT
  obtain ⟨T', hT', -, -, hw, -⟩ := hall v (by rw [← hlen]; exact hv)
  rw [List.getElem?_eq_getElem hv, hget] at hT'
  rw [Option.some.inj hT']
  exact hw

/-- C10: the contribution of a triangle in `compute_tangents` is the one of
the specification for the edges `e1 = p1 - p0`, `e2 = p2 - p0` and the UV
deltas relative to vertex 0 (zero tangent and bitangent when `d = 0`, else
`(e1 * y2 - e2 * y1) * (1 / d)` and `(e2 * x1 - e1 * x2) * (1 / d)`), and after
the triangle loop the tangent and the bitangent accumulator of a vertex hold
the sum of the contributions of all triangle corners that reference the
vertex, the zero contributions of degenerate triangles included. -/
theorem compute_tangents_accumulates_lengyel {F : Type} [Add F] [Sub F] [Mul F] [Div F]
    [Zero F] [One F] [DecidableEq F] (m : mesh F) (texcoords : List (vector2 F))
    (v : Nat) (hv : v < m.vertex_count) :
    (∀ t, tangent_contribution m texcoords t =
      lengyel_contribution
        (vector3_subtract (m.positions.getD (triangle_vertex m t 1) VECTOR3_ZERO)
          (m.positions.getD (triangle_vertex m t 0) VECTOR3_ZERO))
        (vector3_subtract (m.positions.getD (triangle_vertex m t 2) VECTOR3_ZERO)
          (m.positions.getD (triangle_vertex m t 0) VECTOR3_ZERO))
        ((texcoords.getD (triangle_vertex m t 1) ⟨0, 0⟩).u -
          (texcoords.getD (triangle_vertex m t 0) ⟨0, 0⟩).u)
        ((texcoords.getD (triangle_vertex m t 1) ⟨0, 0⟩).v -
          (texcoords.getD (triangle_vertex m t 0) ⟨0, 0⟩).v)
        ((texcoords.getD (triangle_vertex m t 2) ⟨0, 0⟩).u -
          (texcoords.getD (triangle_vertex m t 0) ⟨0, 0⟩).u)
        ((texcoords.getD (triangle_vertex m t 2) ⟨0, 0⟩).v -
          (texcoords.getD (triangle_vertex m t 0) ⟨0, 0⟩).v)) ∧
    (compute_tangents_loop m texcoords m.triangle_count).1[v]? =
      some ((corner_contributions m (fun t => (tangent_contribution m texcoords t).1) v
        m.triangle_count).foldl vector3_add VECTOR3_ZERO) ∧
    (compute_tangents_loop m texcoords m.triangle_count).2[v]? =
      some ((corner_contributions m (fun t => (tangent_contribution m texcoords t).2) v
        m.triangle_count).foldl vector3_add VECTOR3_ZERO) := by
  obtain ⟨h1, h2⟩ := compute_tangents_loop_length m texcoords m.triangle_count
  obtain ⟨g1, g2⟩ := compute_tangents_loop_getD m texcoords v hv m.triangle_count
  refine ⟨fun t => ?_, ?_, ?_⟩
  · simp only [tangent_contribution, triangle_tangent, lengyel_contribution]
  · rw [← g1, List.getD_eq_getElem?_getD,
      List.getElem?_eq_getElem (by rw [h1]; exact hv)]
    rfl
  · rw [← g2, List.getD_eq_getElem?_getD,
      List.getElem?_eq_getElem (by rw [h2]; exact hv)]
    rfl

/-- Witness of C10 on the unit square: both triangles contribute the tangent
`(1, 0, 0)` and the bitangent `(0, 1, 0)`, vertex 0 lies on both and
accumulates `(2, 0, 0)` and `(0, 2, 0)`; with collapsed texcoords both
triangles contribute zero vectors, which are still accumulated. -/
theorem compute_tangents_accumulates_lengyel_witness :
    tangent_contribution flat_quad flat_quad_texcoords 0 = (⟨1, 0, 0⟩, ⟨0, 1, 0⟩) ∧
    tangent_contribution flat_quad flat_quad_texcoords 1 = (⟨1, 0, 0⟩, ⟨0, 1, 0⟩) ∧
    (compute_tangents_loop flat_quad flat_quad_texcoords 2).1 =
      [⟨2, 0, 0⟩, ⟨1, 0, 0⟩, ⟨2, 0, 0⟩, ⟨1, 0, 0⟩] ∧
    (compute_tangents_loop flat_quad flat_quad_texcoords 2).2 =
      [⟨0, 2, 0⟩, ⟨0, 1, 0⟩, ⟨0, 2, 0⟩, ⟨0, 1, 0⟩] ∧
    corner_contributions flat_quad
      (fun t => (tangent_contribution flat_quad collapsed_texcoords t).1) 0 2 =
        [⟨0, 0, 0⟩, ⟨0, 0, 0⟩] ∧
    ((∀ t, tangent_contribution flat_quad flat_quad_texcoords t =
      lengyel_contribution
        (vector3_subtract (flat_quad.positions.getD (triangle_vertex flat_quad t 1) VECTOR3_ZERO)
          (flat_quad.positions.getD (triangle_vertex flat_quad t 0) VECTOR3_ZERO))
        (vector3_subtract (flat_quad.positions.getD (triangle_vertex flat_quad t 2) VECTOR3_ZERO)
          (flat_quad.positions.getD (triangle_vertex flat_quad t 0) VECTOR3_ZERO))
        ((flat_quad_texcoords.getD (triangle_vertex flat_quad t 1) ⟨0, 0⟩).u -
          (flat_quad_texcoords.getD (triangle_vertex flat_quad t 0) ⟨0, 0⟩).u)
        ((flat_quad_texcoords.getD (triangle_vertex flat_quad t 1) ⟨0, 0⟩).v -
          (flat_quad_texcoords.getD (triangle_vertex flat_quad t 0) ⟨0, 0⟩).v)
        ((flat_quad_texcoords.getD (triangle_vertex flat_quad t 2) ⟨0, 0⟩).u -
          (flat_quad_texcoords.getD (triangle_vertex flat_quad t 0) ⟨0, 0⟩).u)
        ((flat_quad_texcoords.getD (triangle_vertex flat_quad t 2) ⟨0, 0⟩).v -
          (flat_quad_texcoords.getD (triangle_vertex flat_quad t 0) ⟨0, 0⟩).v)) ∧
    (compute_tangents_loop flat_quad flat_quad_texcoords flat_quad.triangle_count).1[0]? =
      some ((corner_contributions flat_quad
        (fun t => (tangent_contribution flat_quad flat_quad_texcoords t).1) 0
        flat_quad.triangle_count).foldl vector3_add VECTOR3_ZERO) ∧
    (compute_tangents_loop flat_quad flat_quad_texcoords flat_quad.triangle_count).2[0]? =
      some ((corner_contributions flat_quad
        (fun t => (tangent_contribution flat_quad flat_quad_texcoords t).2) 0
        flat_quad.triangle_count).foldl vector3_add VECTOR3_ZERO)) :=
  ⟨by simp [tangent_contribution, triangle_tangent, triangle_vertex, flat_quad,
      flat_quad_texcoords, uint32_wrap, vector3_subtract, vector3_multiply_scalar,
      VECTOR3_ZERO],
    by simp [tangent_contribution, triangle_tangent, triangle_vertex, flat_quad,
      flat_quad_texcoords, uint32_wrap, vector3_subtract, vector3_multiply_scalar,
      VECTOR3_ZERO],
    by simp [compute_tangents_loop, compute_tangents_triangle, triangle_tangent, accumulate,
      triangle_vertex, flat_quad, flat_quad_texcoords, uint32_wrap, vector3_subtract,
      vector3_multiply_scalar, vector3_add, VECTOR3_ZERO]; norm_num,
    by simp [compute_tangents_loop, compute_tangents_triangle, triangle_tangent, accumulate,
      triangle_vertex, flat_quad, flat_quad_texcoords, uint32_wrap, vector3_subtract,
      vector3_multiply_scalar, vector3_add, VECTOR3_ZERO]; norm_num,
    by simp [corner_contributions, tangent_contribution, triangle_tangent, triangle_vertex,
      flat_quad, collapsed_texcoords, uint32_wrap, VECTOR3_ZERO, List.filter],
    compute_tangents_accumulates_lengyel flat_quad flat_quad_texcoords 0 (by decide)⟩

/-! ## Attribute access -/

theorem read_vertex_attribute_in_bounds {F α : Type} (m : mesh F) (array : List α)
    (hinv : mesh_invariant m) (harray : array.length = m.vertex_count)
    (triangle_index vertex_index : Nat) (ht : triangle_index < m.triangle_count)
    (hv : vertex_index ≤ 2) :
    ∃ index value, m.indices[triangle_index * 3 + vertex_index]? = some index ∧
      array[index]? = some value ∧
      read_vertex_attribute m array triangle_index vertex_index =
        ⟨[mesh_read.index (triangle_index * 3 + vertex_index), mesh_read.attribute index],
          some value⟩ := by
  obtain ⟨hcount, hfit, hlt, -⟩ := hinv
  have hoff : triangle_index * 3 + vertex_index < m.indices.length := by omega
  have hwrap : uint32_wrap (triangle_index * 3 + vertex_index) =
      triangle_index * 3 + vertex_index := by
    unfold uint32_wrap; exact Nat.mod_eq_of_lt (by omega)
  have hidx : m.indices[triangle_index * 3 + vertex_index]? =
      some (m.indices[triangle_index * 3 + vertex_index]) := List.getElem?_eq_getElem hoff
  have hin : m.indices[triangle_index * 3 + vertex_index] < array.length := by
    rw [harray]; exact hlt _ (List.getElem_mem _)
  refine ⟨_, _, hidx, List.getElem?_eq_getElem hin, ?_⟩
  unfold read_vertex_attribute
  simp only [hwrap, hidx, List.getElem?_eq_getElem hin]

/-- C11: for a mesh that satisfies the import invariants, each of
`get_mesh_position`, `get_mesh_texcoord`, `get_mesh_normal` and
`get_mesh_tangent` returns the zero vector of its type without reading the
index buffer or the attribute array when `triangle_index >= triangle_count`
or `vertex_index > 2` or (for texcoord, normal, tangent) the array is absent;
otherwise it reads `indices[triangle_index * 3 + vertex_index]` and then the
attribute at that index, both in bounds, and returns that attribute. -/
theorem get_mesh_attribute_guarded {F : Type} [Zero F] (m : mesh F)
    (hinv : mesh_invariant m) (triangle_index vertex_index : Nat) :
    ((m.triangle_count ≤ triangle_index ∨ 2 < vertex_index) →
      get_mesh_position m triangle_index vertex_index = ⟨[], some VECTOR3_ZERO⟩ ∧
      get_mesh_texcoord m triangle_index vertex_index = ⟨[], some VECTOR2_ZERO⟩ ∧
      get_mesh_normal m triangle_index vertex_index = ⟨[], some VECTOR3_ZERO⟩ ∧
      get_mesh_tangent m triangle_index vertex_index = ⟨[], some VECTOR4_ZERO⟩) ∧
    (m.texcoords = none →
      get_mesh_texcoord m triangle_index vertex_index = ⟨[], some VECTOR2_ZERO⟩) ∧
    (m.normals = none →
      get_mesh_normal m triangle_index vertex_index = ⟨[], some VECTOR3_ZERO⟩) ∧
    (m.tangents = none →
      get_mesh_tangent m triangle_index vertex_index = ⟨[], some VECTOR4_ZERO⟩) ∧
    (triangle_index < m.triangle_count → vertex_index ≤ 2 →
      ∃ index, m.indices[triangle_index * 3 + vertex_index]? = some index ∧
        (∃ p, m.positions[index]? = some p ∧
          get_mesh_position m triangle_index vertex_index =
            ⟨[mesh_read.index (triangle_index * 3 + vertex_index),
              mesh_read.attribute index], some p⟩) ∧
        (∀ l, m.texcoords = some l → ∃ w, l[index]? = some w ∧
          get_mesh_texcoord m triangle_index vertex_index =
            ⟨[mesh_read.index (triangle_index * 3 + vertex_index),
              mesh_read.attribute index], some w⟩) ∧
        (∀ l, m.normals = some l → ∃ n, l[index]? = some n ∧
          get_mesh_normal m triangle_index vertex_index =
            ⟨[mesh_read.index (triangle_index * 3 + vertex_index),
              mesh_read.attribute index], some n⟩) ∧
        (∀ l, m.tangents = some l → ∃ t, l[index]? = some t ∧
          get_mesh_tangent m triangle_index vertex_index =
            ⟨[mesh_read.index (triangle_index * 3 + vertex_index),
              mesh_read.attribute index], some t⟩)) := by
  refine ⟨fun hguard => ?_, fun hnone => ?_, fun hnone => ?_, fun hnone => ?_,
    fun ht hv => ?_⟩
  · have hg : triangle_index ≥ m.triangle_count ∨ vertex_index > 2 := hguard
    refine ⟨?_, ?_, ?_, ?_⟩
    · unfold get_mesh_position; rw [if_pos hg]
    · unfold get_mesh_texcoord; rw [if_pos hg]
    · unfold get_mesh_normal; rw [if_pos hg]
    · unfold get_mesh_tangent; rw [if_pos hg]
  · unfold get_mesh_texcoord; rw [hnone]; split <;> rfl
  · unfold get_mesh_normal; rw [hnone]; split <;> rfl
  · unfold get_mesh_tangent; rw [hnone]; split <;> rfl
  · have hg : ¬ (triangle_index ≥ m.triangle_count ∨ vertex_index > 2) := by omega
    obtain ⟨index, p, hidx, hp, hread⟩ :=
      read_vertex_attribute_in_bounds m m.positions hinv hinv.2.2.2.1 triangle_index
        vertex_index ht hv
    refine ⟨index, hidx, ⟨p, hp, ?_⟩, fun l hl => ?_, fun l hl => ?_, fun l hl => ?_⟩
    · unfold get_mesh_position; rw [if_neg hg]; exact hread
    · obtain ⟨index', w, hidx', hw, hread'⟩ :=
        read_vertex_attribute_in_bounds m l hinv (hinv.2.2.2.2.1 l hl) triangle_index
          vertex_index ht hv
      have hii : index' = index := Option.some.inj (hidx'.symm.trans hidx)
      subst hii
      refine ⟨w, hw, ?_⟩
      unfold get_mesh_texcoord; rw [if_neg hg, hl]; exact hread'
    · obtain ⟨index', n, hidx', hn, hread'⟩ :=
        read_vertex_attribute_in_bounds m l hinv (hinv.2.2.2.2.2.1 l hl) triangle_index
          vertex_index ht hv
      have hii : index' = index := Option.some.inj (hidx'.symm.trans hidx)
      subst hii
      refine ⟨n, hn, ?_⟩
      unfold get_mesh_normal; rw [if_neg hg, hl]; exact hread'
    · obtain ⟨index', t, hidx', htan, hread'⟩ :=
        read_vertex_attribute_in_bounds m l hinv (hinv.2.2.2.2.2.2 l hl) triangle_index
          vertex_index ht hv
      have hii : index' = index := Option.some.inj (hidx'.symm.trans hidx)
      subst hii
      refine ⟨t, htan, ?_⟩
      unfold get_mesh_tangent; rw [if_neg hg, hl]; exact hread'

theorem flat_quad_invariant : mesh_invariant flat_quad := by
  refine ⟨by decide, by decide, by decide, by decide, ?_, ?_, ?_⟩
  · intro l hl
    have : l = flat_quad_texcoords := (Option.some.inj hl).symm
    subst this; decide
  · intro l hl
    have : l = [⟨0, 0, 1⟩, ⟨0, 0, 1⟩, ⟨0, 0, 1⟩, ⟨0, 0, 1⟩] := (Option.some.inj hl).symm
    subst this; decide
  · intro l hl
    exact absurd hl (by simp [flat_quad])

/-- Witness of C11 on the unit square (2 triangles, no tangents): corner 2 of
triangle 1 is vertex 3 with position `(0, 1, 0)` and texcoord `(0, 1)`; the
accesses `(2, 0)` and `(0, 3)` and every tangent access return zero and read
nothing. -/
theorem get_mesh_attribute_guarded_witness :
    get_mesh_position flat_quad 1 2 =
      ⟨[mesh_read.index 5, mesh_read.attribute 3], some ⟨0, 1, 0⟩⟩ ∧
    get_mesh_texcoord flat_quad 1 2 =
      ⟨[mesh_read.index 5, mesh_read.attribute 3], some ⟨0, 1⟩⟩ ∧
    get_mesh_position flat_quad 2 0 = ⟨[], some VECTOR3_ZERO⟩ ∧
    get_mesh_normal flat_quad 0 3 = ⟨[], some VECTOR3_ZERO⟩ ∧
    get_mesh_tangent flat_quad 1 2 = ⟨[], some VECTOR4_ZERO⟩ ∧
    ((flat_quad.triangle_count ≤ 2 ∨ 2 < 0) →
      get_mesh_position flat_quad 2 0 = ⟨[], some VECTOR3_ZERO⟩ ∧
      get_mesh_texcoord flat_quad 2 0 = ⟨[], some VECTOR2_ZERO⟩ ∧
      get_mesh_normal flat_quad 2 0 = ⟨[], some VECTOR3_ZERO⟩ ∧
      get_mesh_tangent flat_quad 2 0 = ⟨[], some VECTOR4_ZERO⟩) ∧
    (∃ index, flat_quad.indices[1 * 3 + 2]? = some index ∧
      (∃ p, flat_quad.positions[index]? = some p ∧
        get_mesh_position flat_quad 1 2 =
          ⟨[mesh_read.index (1 * 3 + 2), mesh_read.attribute index], some p⟩) ∧
      (∀ l, flat_quad.texcoords = some l → ∃ w, l[index]? = some w ∧
        get_mesh_texcoord flat_quad 1 2 =
          ⟨[mesh_read.index (1 * 3 + 2), mesh_read.attribute index], some w⟩) ∧
      (∀ l, flat_quad.normals = some l → ∃ n, l[index]? = some n ∧
        get_mesh_normal flat_quad 1 2 =
          ⟨[mesh_read.index (1 * 3 + 2), mesh_read.attribute index], some n⟩) ∧
      (∀ l, flat_quad.tangents = some l → ∃ t, l[index]? = some t ∧
        get_mesh_tangent flat_quad 1 2 =
          ⟨[mesh_read.index (1 * 3 + 2), mesh_read.attribute index], some t⟩)) :=
  ⟨by decide, by decide, by decide, by decide, by decide,
    (get_mesh_attribute_guarded flat_quad flat_quad_invariant 2 0).1,
    (get_mesh_attribute_guarded flat_quad flat_quad_invariant 1 2).2.2.2.2
      (by decide) (by decide)⟩

/-! ## `texture_sample`: the selected texel -/

theorem sample_index_lt {F : Type} [Zero F] [One F] [Mul F] [NatCast F] [LT F]
    [DecidableRel (LT.lt : F → F → Prop)] (trunc : F → Nat) (coordinate : F) (size : Nat)
    (h0 : 0 < size) (h32 : size < 4294967296) : sample_index trunc coordinate size < size := by
  unfold sample_index
  simp only
  split
  · have : size + 4294967296 - 1 = (size - 1) + 4294967296 := by omega
    rw [this, uint32_wrap, Nat.add_mod_right, Nat.mod_eq_of_lt (by omega)]
    omega
  · omega

theorem texture_sample_offset_eq {F : Type} [Zero F] [One F] [Mul F] [NatCast F] [LT F]
    [DecidableRel (LT.lt : F → F → Prop)] (trunc : F → Nat) (t : texture)
    (texcoord : vector2 F) (hw : 0 < t.width) (hw32 : t.width < 4294967296)
    (hh : 0 < t.height) (hh32 : t.height < 4294967296) :
    texture_sample_offset trunc t texcoord =
        sample_index trunc texcoord.u t.width +
          uint32_wrap (sample_index trunc texcoord.v t.height * t.width) ∧
      texture_sample_offset trunc t texcoord < t.width * t.height ∧
      texture_sample_offset trunc t texcoord < 8589934592 := by
  have hu := sample_index_lt trunc texcoord.u t.width hw hw32
  have hv := sample_index_lt trunc texcoord.v t.height hh hh32
  have hmod : uint32_wrap (sample_index trunc texcoord.v t.height * t.width) ≤
      sample_index trunc texcoord.v t.height * t.width := Nat.mod_le _ _
  have hmod32 : uint32_wrap (sample_index trunc texcoord.v t.height * t.width) <
      4294967296 := Nat.mod_lt _ (by decide)
  have hrow : (sample_index trunc texcoord.v t.height + 1) * t.width ≤
      t.height * t.width := Nat.mul_le_mul_right _ hv
  rw [Nat.succ_mul] at hrow
  have hcomm : t.width * t.height = t.height * t.width := Nat.mul_comm _ _
  have heq : texture_sample_offset trunc t texcoord =
      sample_index trunc texcoord.u t.width +
        uint32_wrap (sample_index trunc texcoord.v t.height * t.width) := by
    unfold texture_sample_offset
    simp only [size_wrap]
    exact Nat.mod_eq_of_lt (by omega)
  refine ⟨heq, ?_, ?_⟩
  · rw [heq]; omega
  · rw [heq]; omega

theorem read_texel_eq_some (pixels : List uint8_t) (target : Nat)
    (h : target + 3 < pixels.length) :
    ∃ b0 b1 b2 b3, pixels[target]? = some b0 ∧ pixels[target + 1]? = some b1 ∧
      pixels[target + 2]? = some b2 ∧ pixels[target + 3]? = some b3 ∧
      read_texel pixels target = some (b0, b1, b2, b3) := by
  have h0 : pixels[target]? = some pixels[target] := List.getElem?_eq_getElem (by omega)
  have h1 : pixels[target + 1]? = some pixels[target + 1] :=
    List.getElem?_eq_getElem (by omega)
  have h2 : pixels[target + 2]? = some pixels[target + 2] :=
    List.getElem?_eq_getElem (by omega)
  have h3 : pixels[target + 3]? = some pixels[target + 3] :=
    List.getElem?_eq_getElem (by omega)
  refine ⟨_, _, _, _, h0, h1, h2, h3, ?_⟩
  unfold read_texel
  rw [h0, h1, h2, h3]

theorem get_pixel_size_eq_four (format : texture_format) (h : get_pixel_size format ≠ 0) :
    get_pixel_size format = 4 := by
  cases format <;> first | rfl | exact absurd rfl h

theorem texture_sample_reads {F : Type} [Zero F] [One F] [Mul F] [Div F] [NatCast F] [LT F]
    [DecidableRel (LT.lt : F → F → Prop)] (trunc : F → Nat) (powf : F → F → F)
    (load : uint8_t × uint8_t × uint8_t × uint8_t → F) (t : texture)
    (texcoord : vector2 F) (hk : texture_sample_offset trunc t texcoord < 8589934592)
    (hformat : get_pixel_size t.format ≠ 0) :
    (texture_sample trunc powf load (some t) texcoord).reads =
      [texture_sample_offset trunc t texcoord * 4,
        texture_sample_offset trunc t texcoord * 4 + 1,
        texture_sample_offset trunc t texcoord * 4 + 2,
        texture_sample_offset trunc t texcoord * 4 + 3] := by
  have hwrap : size_wrap (texture_sample_offset trunc t texcoord * 4) =
      texture_sample_offset trunc t texcoord * 4 := by
    unfold size_wrap; exact Nat.mod_eq_of_lt (by omega)
  unfold texture_sample
  cases hf : t.format with
  | TEXTURE_FORMAT_RGBA8 => simp [hf, hwrap]
  | TEXTURE_FORMAT_SRGB8_A8 => simp [hf, hwrap]
  | TEXTURE_FORMAT_DEPTH_FLOAT => simp [hf, hwrap, sizeof_float]
  | unrecognized tag => rw [hf] at hformat; exact absurd rfl hformat

theorem texture_sample_reads_in_buffer {F : Type} [Zero F] [One F] [Mul F] [Div F] [NatCast F]
    [LT F] [DecidableRel (LT.lt : F → F → Prop)] (trunc : F → Nat) (powf : F → F → F)
    (load : uint8_t × uint8_t × uint8_t × uint8_t → F) (t : texture)
    (texcoord : vector2 F) (hw : 0 < t.width) (hw32 : t.width < 4294967296)
    (hh : 0 < t.height) (hh32 : t.height < 4294967296)
    (hformat : get_pixel_size t.format ≠ 0) :
    texture_sample_offset trunc t texcoord < t.width * t.height ∧
      (texture_sample trunc powf load (some t) texcoord).reads =
        [texture_sample_offset trunc t texcoord * 4,
          texture_sample_offset trunc t texcoord * 4 + 1,
          texture_sample_offset trunc t texcoord * 4 + 2,
          texture_sample_offset trunc t texcoord * 4 + 3] ∧
      (t.pixels.length = t.width * t.height * get_pixel_size t.format →
        (∀ o, o ∈ (texture_sample trunc powf load (some t) texcoord).reads →
          o < t.pixels.length) ∧
        (texture_sample trunc powf load (some t) texcoord).value.isSome = true) := by
  obtain ⟨-, hlt, hk⟩ := texture_sample_offset_eq trunc t texcoord hw hw32 hh hh32
  have hreads := texture_sample_reads trunc powf load t texcoord hk hformat
  refine ⟨hlt, hreads, fun hlen => ?_⟩
  rw [get_pixel_size_eq_four t.format hformat] at hlen
  have hin : texture_sample_offset trunc t texcoord * 4 + 3 < t.pixels.length := by
    rw [hlen]; omega
  refine ⟨fun o ho => ?_, ?_⟩
  · rw [hreads] at ho
    simp only [List.mem_cons, List.mem_singleton, List.not_mem_nil, or_false] at ho
    omega
  · have hwrap : size_wrap (texture_sample_offset trunc t texcoord * 4) =
        texture_sample_offset trunc t texcoord * 4 := by
      unfold size_wrap; exact Nat.mod_eq_of_lt (by omega)
    obtain ⟨b0, b1, b2, b3, -, -, -, -, hread⟩ := read_texel_eq_some t.pixels _ hin
    unfold texture_sample
    cases hf : t.format with
    | TEXTURE_FORMAT_RGBA8 => simp [hf, hwrap, hread]
    | TEXTURE_FORMAT_SRGB8_A8 => simp [hf, hwrap, hread]
    | TEXTURE_FORMAT_DEPTH_FLOAT => simp [hf, hwrap, hread, sizeof_float]
    | unrecognized tag => rw [hf] at hformat; exact absurd rfl hformat

/-! ## `texture_sample` in exact arithmetic -/

theorem checker_texture_invariant : texture_invariant checker_texture := by
  unfold texture_invariant
  decide

/-- C14: for a texture that satisfies the texture invariant, `texture_sample`
reads the four bytes `b0 .. b3` of the selected texel and returns
`(b0 / 255, b1 / 255, b2 / 255, b3 / 255)` for RGBA8,
`(powf (b0 / 255, GAMMA), powf (b1 / 255, GAMMA), powf (b2 / 255, GAMMA),
b3 / 255)` for SRGB8_A8, so that alpha is dequantised and not gamma-converted,
and `(d, d, d, 1)` for DEPTH_FLOAT, where `d` is the `float` the four bytes
hold. -/
theorem texture_sample_decodes {F : Type} [Zero F] [One F] [Mul F] [Div F] [NatCast F]
    [LT F] [DecidableRel (LT.lt : F → F → Prop)] (trunc : F → Nat) (powf : F → F → F)
    (load : uint8_t × uint8_t × uint8_t × uint8_t → F) (t : texture)
    (texcoord : vector2 F) (hinv : texture_invariant t) :
    ∃ b0 b1 b2 b3,
      t.pixels[texture_sample_offset trunc t texcoord * 4]? = some b0 ∧
      t.pixels[texture_sample_offset trunc t texcoord * 4 + 1]? = some b1 ∧
      t.pixels[texture_sample_offset trunc t texcoord * 4 + 2]? = some b2 ∧
      t.pixels[texture_sample_offset trunc t texcoord * 4 + 3]? = some b3 ∧
      (t.format = TEXTURE_FORMAT_RGBA8 →
        (texture_sample trunc powf load (some t) texcoord).value =
          some ⟨((b0.val : Nat) : F) / ((255 : Nat) : F),
            ((b1.val : Nat) : F) / ((255 : Nat) : F),
            ((b2.val : Nat) : F) / ((255 : Nat) : F),
            ((b3.val : Nat) : F) / ((255 : Nat) : F)⟩) ∧
      (t.format = TEXTURE_FORMAT_SRGB8_A8 →
        (texture_sample trunc powf load (some t) texcoord).value =
          some ⟨powf (((b0.val : Nat) : F) / ((255 : Nat) : F)) GAMMA,
            powf (((b1.val : Nat) : F) / ((255 : Nat) : F)) GAMMA,
            powf (((b2.val : Nat) : F) / ((255 : Nat) : F)) GAMMA,
            ((b3.val : Nat) : F) / ((255 : Nat) : F)⟩) ∧
      (t.format = TEXTURE_FORMAT_DEPTH_FLOAT →
        (texture_sample trunc powf load (some t) texcoord).value =
          some ⟨load (b0, b1, b2, b3), load (b0, b1, b2, b3), load (b0, b1, b2, b3), 1⟩) := by
  obtain ⟨hw, hw32, hh, hh32, hformat, hlen, -⟩ := hinv
  obtain ⟨-, hlt, hk⟩ := texture_sample_offset_eq trunc t texcoord hw hw32 hh hh32
  rw [get_pixel_size_eq_four t.format hformat] at hlen
  have hin : texture_sample_offset trunc t texcoord * 4 + 3 < t.pixels.length := by
    rw [hlen]; omega
  have hwrap : size_wrap (texture_sample_offset trunc t texcoord * 4) =
      texture_sample_offset trunc t texcoord * 4 := by
    unfold size_wrap; exact Nat.mod_eq_of_lt (by omega)
  obtain ⟨b0, b1, b2, b3, h0, h1, h2, h3, hread⟩ := read_texel_eq_some t.pixels _ hin
  refine ⟨b0, b1, b2, b3, h0, h1, h2, h3, fun hf => ?_, fun hf => ?_, fun hf => ?_⟩
  · unfold texture_sample
    simp [hf, hwrap, hread]
  · unfold texture_sample
    simp [hf, hwrap, hread]
  · unfold texture_sample
    simp [hf, hwrap, hread, sizeof_float]

/-- Witness of C14 on the `2 x 2` RGBA8 texture: the texcoord `(1, 1)` selects
the texel with the bytes 31, 32, 33, 255, decoded to
`(31/255, 32/255, 33/255, 1)`. -/
theorem texture_sample_decodes_witness :
    (texture_sample rat_trunc rat_powf rat_load (some checker_texture) ⟨1, 1⟩).value =
      some ⟨31 / 255, 32 / 255, 33 / 255, 1⟩ ∧
    ∃ b0 b1 b2 b3,
      checker_texture.pixels[texture_sample_offset rat_trunc checker_texture
        (⟨1, 1⟩ : vector2 ℚ) * 4]? = some b0 ∧
      checker_texture.pixels[texture_sample_offset rat_trunc checker_texture
        (⟨1, 1⟩ : vector2 ℚ) * 4 + 1]? = some b1 ∧
      checker_texture.pixels[texture_sample_offset rat_trunc checker_texture
        (⟨1, 1⟩ : vector2 ℚ) * 4 + 2]? = some b2 ∧
      checker_texture.pixels[texture_sample_offset rat_trunc checker_texture
        (⟨1, 1⟩ : vector2 ℚ) * 4 + 3]? = some b3 ∧
      (checker_texture.format = TEXTURE_FORMAT_RGBA8 →
        (texture_sample rat_trunc rat_powf rat_load (some checker_texture) ⟨1, 1⟩).value =
          some ⟨((b0.val : Nat) : ℚ) / ((255 : Nat) : ℚ),
            ((b1.val : Nat) : ℚ) / ((255 : Nat) : ℚ),
            ((b2.val : Nat) : ℚ) / ((255 : Nat) : ℚ),
            ((b3.val : Nat) : ℚ) / ((255 : Nat) : ℚ)⟩) ∧
      (checker_texture.format = TEXTURE_FORMAT_SRGB8_A8 →
        (texture_sample rat_trunc rat_powf rat_load (some checker_texture) ⟨1, 1⟩).value =
          some ⟨rat_powf (((b0.val : Nat) : ℚ) / ((255 : Nat) : ℚ)) GAMMA,
            rat_powf (((b1.val : Nat) : ℚ) / ((255 : Nat) : ℚ)) GAMMA,
            rat_powf (((b2.val : Nat) : ℚ) / ((255 : Nat) : ℚ)) GAMMA,
            ((b3.val : Nat) : ℚ) / ((255 : Nat) : ℚ)⟩) ∧
      (checker_texture.format = TEXTURE_FORMAT_DEPTH_FLOAT →
        (texture_sample rat_trunc rat_powf rat_load (some checker_texture) ⟨1, 1⟩).value =
          some ⟨rat_load (b0, b1, b2, b3), rat_load (b0, b1, b2, b3),
            rat_load (b0, b1, b2, b3), 1⟩) :=
  ⟨by
      have hoff : texture_sample_offset rat_trunc checker_texture (⟨1, 1⟩ : vector2 ℚ) = 3 := by
        norm_num [texture_sample_offset, sample_index, clamp01_float, rat_trunc,
          checker_texture, uint32_wrap, size_wrap]
      unfold texture_sample
      simp only [hoff]
      norm_num [checker_texture, size_wrap, read_texel,
        show ((31 : Fin 256) : ℕ) = 31 from rfl, show ((32 : Fin 256) : ℕ) = 32 from rfl,
        show ((33 : Fin 256) : ℕ) = 33 from rfl, show ((255 : Fin 256) : ℕ) = 255 from rfl],
    texture_sample_decodes rat_trunc rat_powf rat_load checker_texture ⟨1, 1⟩
      checker_texture_invariant⟩

/-- C15: for every texcoord, `texture_sample` with an absent texture returns
`(1, 1, 1, 1)` and reads no pixel data. -/
theorem texture_sample_absent {F : Type} [Zero F] [One F] [Mul F] [Div F] [NatCast F]
    [LT F] [DecidableRel (LT.lt : F → F → Prop)] (trunc : F → Nat) (powf : F → F → F)
    (load : uint8_t × uint8_t × uint8_t × uint8_t → F) (texcoord : vector2 F) :
    texture_sample trunc powf load none texcoord = ⟨[], some ⟨1, 1, 1, 1⟩⟩ ∧
      (texture_sample trunc powf load none texcoord).reads = [] ∧
      (texture_sample trunc powf load none texcoord).value = some ⟨1, 1, 1, 1⟩ :=
  ⟨rfl, rfl, rfl⟩

/-! ## `generate_texture` -/

theorem generate_texture_eq_some (a : texture_allocator) (fresh : Nat → uint8_t)
    (internal_format : texture_format) (width height : Nat) (hw : 0 < width)
    (hh : 0 < height) (hps : get_pixel_size internal_format ≠ 0) (hat : a.texture = true)
    (hap : a.pixels = true) :
    generate_texture a fresh internal_format width height =
      some
        { format := internal_format
          width := width
          height := height
          pixels :=
            (List.range (size_wrap (size_wrap (width * height) *
              get_pixel_size internal_format))).map fresh } := by
  have hdim : ¬ (width = 0 ∨ height = 0) := by omega
  unfold generate_texture
  rw [if_neg hdim]
  simp only [hps, hat, hap, if_false, Bool.not_true, Bool.false_eq_true]

/-- C16 as stated fails: with both allocations succeeding,
`generate_texture (TEXTURE_FORMAT_RGBA8, 2147483649, 2147483648)` returns a
texture of that width and height whose buffer has `8589934592` bytes, because
`pixel_count * pixel_size` exceeds the range of `size_t` and wraps; the buffer
does not have `width * height * pixel_size` bytes. -/
theorem generate_texture_byte_count_wraps :
    ∃ t, generate_texture ⟨true, true⟩ (fun _ => 0) TEXTURE_FORMAT_RGBA8
        2147483649 2147483648 = some t ∧
      t.format = TEXTURE_FORMAT_RGBA8 ∧ t.width = 2147483649 ∧ t.height = 2147483648 ∧
      t.pixels.length = 8589934592 ∧
      t.pixels.length ≠ 2147483649 * 2147483648 * get_pixel_size TEXTURE_FORMAT_RGBA8 := by
  have hwrap : size_wrap (size_wrap (2147483649 * 2147483648) *
      get_pixel_size TEXTURE_FORMAT_RGBA8) = 8589934592 := by
    simp only [size_wrap, get_pixel_size]
  refine ⟨_, generate_texture_eq_some ⟨true, true⟩ (fun _ => 0) TEXTURE_FORMAT_RGBA8
    2147483649 2147483648 (by omega) (by omega) (by simp [get_pixel_size]) rfl rfl,
    rfl, rfl, rfl, ?_, ?_⟩
  · simp only [List.length_map, List.length_range]
    exact hwrap
  · simp only [List.length_map, List.length_range, hwrap, get_pixel_size]
    decide

/-- C16, amended: `generate_texture` returns no texture when `width` or
`height` is 0 or the format is not one of the three formats; otherwise, when
both allocations succeed, it returns a texture with the given format, width
and height, and the pixel buffer has `width * height * pixel_size` bytes
provided that this number is in the range of `size_t`; `pixel_size` is 4 for
the two 8-bit formats and `sizeof (float)` for the depth format. -/
theorem generate_texture_result (a : texture_allocator) (fresh : Nat → uint8_t)
    (internal_format : texture_format) (width height : Nat) :
    ((width = 0 ∨ height = 0 ∨
        (internal_format ≠ TEXTURE_FORMAT_RGBA8 ∧ internal_format ≠ TEXTURE_FORMAT_SRGB8_A8 ∧
          internal_format ≠ TEXTURE_FORMAT_DEPTH_FLOAT)) →
      generate_texture a fresh internal_format width height = none) ∧
    (0 < width → 0 < height →
      (internal_format = TEXTURE_FORMAT_RGBA8 ∨ internal_format = TEXTURE_FORMAT_SRGB8_A8 ∨
        internal_format = TEXTURE_FORMAT_DEPTH_FLOAT) →
      a.texture = true → a.pixels = true →
      ∃ t, generate_texture a fresh internal_format width height = some t ∧
        t.format = internal_format ∧ t.width = width ∧ t.height = height ∧
        (width * height * get_pixel_size internal_format < 18446744073709551616 →
          t.pixels.length = width * height * get_pixel_size internal_format)) ∧
    get_pixel_size TEXTURE_FORMAT_RGBA8 = 4 ∧ get_pixel_size TEXTURE_FORMAT_SRGB8_A8 = 4 ∧
    get_pixel_size TEXTURE_FORMAT_DEPTH_FLOAT = sizeof_float := by
  refine ⟨fun hbad => ?_, fun hw hh hformat hat hap => ?_, rfl, rfl, rfl⟩
  · unfold generate_texture
    rcases hbad with h | h | ⟨h1, h2, h3⟩
    · rw [if_pos (Or.inl h)]
    · rw [if_pos (Or.inr h)]
    · split
      · rfl
      · have hps : get_pixel_size internal_format = 0 := by
          cases internal_format with
          | TEXTURE_FORMAT_RGBA8 => exact absurd rfl h1
          | TEXTURE_FORMAT_SRGB8_A8 => exact absurd rfl h2
          | TEXTURE_FORMAT_DEPTH_FLOAT => exact absurd rfl h3
          | unrecognized tag => rfl
        simp only [hps, if_true]
  · have hps : get_pixel_size internal_format ≠ 0 := by
      rcases hformat with h | h | h <;> rw [h] <;> decide
    refine ⟨_, generate_texture_eq_some a fresh internal_format width height hw hh hps hat
      hap, rfl, rfl, rfl, fun hfit => ?_⟩
    · have hpos : 0 < get_pixel_size internal_format := Nat.pos_of_ne_zero hps
      have hcount : width * height < 18446744073709551616 :=
        lt_of_le_of_lt (Nat.le_mul_of_pos_right _ hpos) hfit
      simp only [List.length_map, List.length_range, size_wrap]
      rw [Nat.mod_eq_of_lt hcount, Nat.mod_eq_of_lt hfit]

/-- Witness of the amended C16: a `3 x 2` depth texture gets 24 bytes, and a
width of 0 or an unrecognised format gives no texture. -/
theorem generate_texture_result_witness :
    (∃ t, generate_texture ⟨true, true⟩ (fun _ => 0) TEXTURE_FORMAT_DEPTH_FLOAT 3 2 = some t ∧
      t.format = TEXTURE_FORMAT_DEPTH_FLOAT ∧ t.width = 3 ∧ t.height = 2 ∧
      ((3 : Nat) * 2 * get_pixel_size TEXTURE_FORMAT_DEPTH_FLOAT < 18446744073709551616 →
        t.pixels.length = 3 * 2 * get_pixel_size TEXTURE_FORMAT_DEPTH_FLOAT)) ∧
    generate_texture ⟨true, true⟩ (fun _ => 0) TEXTURE_FORMAT_RGBA8 0 2 = none ∧
    generate_texture ⟨true, true⟩ (fun _ => 0) (unrecognized 7) 3 2 = none :=
  ⟨(generate_texture_result ⟨true, true⟩ (fun _ => 0) TEXTURE_FORMAT_DEPTH_FLOAT 3 2).2.1
      (by decide) (by decide) (Or.inr (Or.inr rfl)) rfl rfl,
    (generate_texture_result ⟨true, true⟩ (fun _ => 0) TEXTURE_FORMAT_RGBA8 0 2).1
      (Or.inl rfl),
    (generate_texture_result ⟨true, true⟩ (fun _ => 0) (unrecognized 7) 3 2).1
      (Or.inr (Or.inr ⟨by decide, by decide, by decide⟩))⟩

/-! ## `texture_sample` on the buffer of `generate_texture` -/

theorem generate_texture_oversized :
    ∃ t, generate_texture ⟨true, true⟩ (fun _ => 0) TEXTURE_FORMAT_RGBA8
        2147483649 2147483648 = some t ∧
      t.format = TEXTURE_FORMAT_RGBA8 ∧ t.width = 2147483649 ∧ t.height = 2147483648 ∧
      t.pixels.length = 8589934592 := by
  have hwrap : size_wrap (size_wrap (2147483649 * 2147483648) *
      get_pixel_size TEXTURE_FORMAT_RGBA8) = 8589934592 := by
    simp only [size_wrap, get_pixel_size]
  refine ⟨_, generate_texture_eq_some ⟨true, true⟩ (fun _ => 0) TEXTURE_FORMAT_RGBA8
    2147483649 2147483648 (by omega) (by omega) (by simp [get_pixel_size]) rfl rfl,
    rfl, rfl, rfl, ?_⟩
  simp only [List.length_map, List.length_range]
  exact hwrap

/-- C12 as stated fails: with both allocations succeeding,
`generate_texture (TEXTURE_FORMAT_RGBA8, 2147483649, 2147483648)` returns a
texture whose buffer has `8589934592` bytes, the byte count having wrapped in
`size_t`.  Sampling it at the texcoord `(1, 0)` selects the pixel offset
`2147483648`, which is below `width * height`, and reads the bytes
`8589934592` to `8589934595`: all four lie behind the buffer. -/
theorem texture_sample_reads_past_generated_buffer :
    ∃ t, generate_texture ⟨true, true⟩ (fun _ => 0) TEXTURE_FORMAT_RGBA8
        2147483649 2147483648 = some t ∧
      t.pixels.length = 8589934592 ∧
      texture_sample_offset rat_trunc t (⟨1, 0⟩ : vector2 ℚ) = 2147483648 ∧
      texture_sample_offset rat_trunc t (⟨1, 0⟩ : vector2 ℚ) < t.width * t.height ∧
      (texture_sample rat_trunc rat_powf rat_load (some t) (⟨1, 0⟩ : vector2 ℚ)).reads =
        [8589934592, 8589934593, 8589934594, 8589934595] ∧
      (∀ o, o ∈ (texture_sample rat_trunc rat_powf rat_load (some t)
          (⟨1, 0⟩ : vector2 ℚ)).reads → t.pixels.length ≤ o) ∧
      (texture_sample rat_trunc rat_powf rat_load (some t) (⟨1, 0⟩ : vector2 ℚ)).value =
        none := by
  obtain ⟨t, hgen, hformat, hw, hh, hlen⟩ := generate_texture_oversized
  have hoff : texture_sample_offset rat_trunc t (⟨1, 0⟩ : vector2 ℚ) = 2147483648 := by
    unfold texture_sample_offset
    rw [hw, hh]
    norm_num [sample_index, clamp01_float, rat_trunc, uint32_wrap, size_wrap]
  have hreads : (texture_sample rat_trunc rat_powf rat_load (some t)
      (⟨1, 0⟩ : vector2 ℚ)).reads =
      [8589934592, 8589934593, 8589934594, 8589934595] := by
    rw [texture_sample_reads rat_trunc rat_powf rat_load t _ (by rw [hoff]; decide)
      (by rw [hformat]; decide), hoff]
  have hnone : t.pixels[8589934592]? = none :=
    List.getElem?_eq_none (by rw [hlen])
  refine ⟨t, hgen, hlen, hoff, ?_, hreads, ?_, ?_⟩
  · rw [hoff, hw, hh]; decide
  · intro o ho
    rw [hreads] at ho
    simp only [List.mem_cons, List.mem_singleton, List.not_mem_nil, or_false] at ho
    rw [hlen]
    omega
  · unfold texture_sample
    simp only [hformat, hoff, if_true]
    have htarget : size_wrap (2147483648 * 4) = 8589934592 := by
      simp only [size_wrap]
    rw [htarget]
    simp [read_texel, hnone]

/-- C12 (amended): for a width and a height from 1 to `2 ^ 32 - 1` and one of
the three formats such that `width * height * pixel_size` is in the range of
`size_t`, `generate_texture` returns, when its allocations succeed, a texture
whose buffer has that many bytes, and for every texcoord the pixel offset
`texture_sample` computes is below `width * height` and the four bytes it reads
lie inside the buffer.  In general, for every texture with positive 32-bit
dimensions in one of the three formats the pixel offset is below
`width * height`, and the bytes read lie inside every buffer of
`width * height * pixel_size` bytes. -/
theorem texture_sample_in_bounds {F : Type} [Zero F] [One F] [Mul F] [Div F] [NatCast F]
    [LT F] [DecidableRel (LT.lt : F → F → Prop)] (trunc : F → Nat) (powf : F → F → F)
    (load : uint8_t × uint8_t × uint8_t × uint8_t → F) (a : texture_allocator)
    (fresh : Nat → uint8_t) (internal_format : texture_format) (width height : Nat)
    (texcoord : vector2 F) (hw : 0 < width) (hw32 : width < 4294967296)
    (hh : 0 < height) (hh32 : height < 4294967296)
    (hformat : get_pixel_size internal_format ≠ 0)
    (hat : a.texture = true) (hap : a.pixels = true)
    (hsize : width * height * get_pixel_size internal_format < 18446744073709551616) :
    (∃ t, generate_texture a fresh internal_format width height = some t ∧
      t.pixels.length = width * height * get_pixel_size internal_format ∧
      texture_sample_offset trunc t texcoord < width * height ∧
      (∀ o, o ∈ (texture_sample trunc powf load (some t) texcoord).reads →
        o < t.pixels.length) ∧
      (texture_sample trunc powf load (some t) texcoord).reads =
        [texture_sample_offset trunc t texcoord * 4,
          texture_sample_offset trunc t texcoord * 4 + 1,
          texture_sample_offset trunc t texcoord * 4 + 2,
          texture_sample_offset trunc t texcoord * 4 + 3] ∧
      (texture_sample trunc powf load (some t) texcoord).value.isSome = true) ∧
    ∀ t : texture, 0 < t.width → t.width < 4294967296 → 0 < t.height →
      t.height < 4294967296 → get_pixel_size t.format ≠ 0 →
      texture_sample_offset trunc t texcoord < t.width * t.height ∧
        (t.pixels.length = t.width * t.height * get_pixel_size t.format →
          (∀ o, o ∈ (texture_sample trunc powf load (some t) texcoord).reads →
            o < t.pixels.length) ∧
          (texture_sample trunc powf load (some t) texcoord).value.isSome = true) := by
  constructor
  · have hgen := generate_texture_eq_some a fresh internal_format width height hw hh hformat
      hat hap
    have hpos : 0 < get_pixel_size internal_format := Nat.pos_of_ne_zero hformat
    have hcount : width * height < 18446744073709551616 :=
      lt_of_le_of_lt (Nat.le_mul_of_pos_right _ hpos) hsize
    have hlen : ((List.range (size_wrap (size_wrap (width * height) *
        get_pixel_size internal_format))).map fresh).length =
        width * height * get_pixel_size internal_format := by
      simp only [List.length_map, List.length_range, size_wrap]
      rw [Nat.mod_eq_of_lt hcount, Nat.mod_eq_of_lt hsize]
    obtain ⟨hlt, hreads, hin⟩ := texture_sample_reads_in_buffer trunc powf load
      { format := internal_format
        width := width
        height := height
        pixels := (List.range (size_wrap (size_wrap (width * height) *
          get_pixel_size internal_format))).map fresh }
      texcoord hw hw32 hh hh32 hformat
    exact ⟨_, hgen, hlen, hlt, (hin hlen).1, hreads, (hin hlen).2⟩
  · intro t htw htw32 hth hth32 htf
    obtain ⟨hlt, -, hin⟩ := texture_sample_reads_in_buffer trunc powf load t texcoord
      htw htw32 hth hth32 htf
    exact ⟨hlt, hin⟩

/-- Witness of the amended C12: `generate_texture` returns a `2 x 2` RGBA8
texture of 16 bytes, and the texcoord `(1, 1)` selects a pixel offset below 4
and reads inside the buffer. -/
theorem texture_sample_in_bounds_witness :
    (2 : Nat) * 2 * get_pixel_size TEXTURE_FORMAT_RGBA8 = 16 ∧
    ∃ t, generate_texture ⟨true, true⟩ (fun _ => 0) TEXTURE_FORMAT_RGBA8 2 2 = some t ∧
      t.pixels.length = 2 * 2 * get_pixel_size TEXTURE_FORMAT_RGBA8 ∧
      texture_sample_offset rat_trunc t (⟨1, 1⟩ : vector2 ℚ) < 2 * 2 ∧
      (∀ o, o ∈ (texture_sample rat_trunc rat_powf rat_load (some t)
          (⟨1, 1⟩ : vector2 ℚ)).reads → o < t.pixels.length) ∧
      (texture_sample rat_trunc rat_powf rat_load (some t) (⟨1, 1⟩ : vector2 ℚ)).reads =
        [texture_sample_offset rat_trunc t (⟨1, 1⟩ : vector2 ℚ) * 4,
          texture_sample_offset rat_trunc t (⟨1, 1⟩ : vector2 ℚ) * 4 + 1,
          texture_sample_offset rat_trunc t (⟨1, 1⟩ : vector2 ℚ) * 4 + 2,
          texture_sample_offset rat_trunc t (⟨1, 1⟩ : vector2 ℚ) * 4 + 3] ∧
      (texture_sample rat_trunc rat_powf rat_load (some t)
        (⟨1, 1⟩ : vector2 ℚ)).value.isSome = true :=
  ⟨by decide,
    (texture_sample_in_bounds rat_trunc rat_powf rat_load ⟨true, true⟩ (fun _ => 0)
      TEXTURE_FORMAT_RGBA8 2 2 (⟨1, 1⟩ : vector2 ℚ) (by decide) (by decide) (by decide)
      (by decide) (by decide) rfl rfl (by decide)).1⟩

/-! ## `set_texture_pixels` -/

theorem set_four_getElem? {α : Type} (l : List α) (a : Nat) (x0 x1 x2 x3 : α)
    (h : a + 3 < l.length) (i : Nat) :
    ((((l.set a x0).set (a + 1) x1).set (a + 2) x2).set (a + 3) x3)[i]? =
      if i = a then some x0 else if i = a + 1 then some x1
      else if i = a + 2 then some x2 else if i = a + 3 then some x3 else l[i]? := by
  simp only [List.getElem?_set, List.length_set]
  split_ifs <;> first | rfl | omega

theorem set_texture_pixels_loop_length (pixels : Nat → uint8_t) (p : Nat)
    (texture_pixels : List uint8_t) :
    (set_texture_pixels_loop pixels p texture_pixels).length = texture_pixels.length := by
  induction p with
  | zero => rfl
  | succ p ih => simp [set_texture_pixels_loop, ih]

theorem set_texture_pixels_loop_getElem? (pixels : Nat → uint8_t)
    (texture_pixels : List uint8_t) (hfit : texture_pixels.length < 18446744073709551616)
    (n : Nat) (hn : n * 4 ≤ texture_pixels.length) (p : Nat) (hp : p < n) :
    (set_texture_pixels_loop pixels n texture_pixels)[4 * p]? = some (pixels (3 * p)) ∧
      (set_texture_pixels_loop pixels n texture_pixels)[4 * p + 1]? =
        some (pixels (3 * p + 1)) ∧
      (set_texture_pixels_loop pixels n texture_pixels)[4 * p + 2]? =
        some (pixels (3 * p + 2)) ∧
      (set_texture_pixels_loop pixels n texture_pixels)[4 * p + 3]? = some 255 := by
  induction n with
  | zero => omega
  | succ n ih =>
    have h3 : size_wrap (n * 3) = n * 3 := by
      unfold size_wrap; exact Nat.mod_eq_of_lt (by omega)
    have h4 : size_wrap (n * 4) = n * 4 := by
      unfold size_wrap; exact Nat.mod_eq_of_lt (by omega)
    have hlen : n * 4 + 3 < (set_texture_pixels_loop pixels n texture_pixels).length := by
      rw [set_texture_pixels_loop_length]; omega
    have hstep : ∀ i, (set_texture_pixels_loop pixels (n + 1) texture_pixels)[i]? =
        if i = n * 4 then some (pixels (n * 3)) else if i = n * 4 + 1 then
          some (pixels (n * 3 + 1))
        else if i = n * 4 + 2 then some (pixels (n * 3 + 2)) else if i = n * 4 + 3 then
          some 255
        else (set_texture_pixels_loop pixels n texture_pixels)[i]? := by
      intro i
      show ((((((set_texture_pixels_loop pixels n texture_pixels).set (size_wrap (n * 4))
        (pixels (size_wrap (n * 3)))).set (size_wrap (n * 4) + 1)
        (pixels (size_wrap (n * 3) + 1))).set (size_wrap (n * 4) + 2)
        (pixels (size_wrap (n * 3) + 2))).set (size_wrap (n * 4) + 3) 255))[i]? = _
      rw [h3, h4]
      exact set_four_getElem? _ _ _ _ _ _ hlen i
    have hkeep : ∀ i, i < n * 4 →
        (set_texture_pixels_loop pixels (n + 1) texture_pixels)[i]? =
          (set_texture_pixels_loop pixels n texture_pixels)[i]? := by
      intro i hi
      rw [hstep]
      split_ifs <;> first | rfl | omega
    rcases Nat.lt_or_ge p n with hlt | hge
    · have hearlier := ih (by omega) hlt
      have k0 := hkeep (4 * p) (by omega)
      have k1 := hkeep (4 * p + 1) (by omega)
      have k2 := hkeep (4 * p + 2) (by omega)
      have k3 := hkeep (4 * p + 3) (by omega)
      exact ⟨k0.trans hearlier.1, k1.trans hearlier.2.1, k2.trans hearlier.2.2.1,
        k3.trans hearlier.2.2.2⟩
    · have hpn : p = n := by omega
      subst hpn
      have e3 : 3 * p = p * 3 := Nat.mul_comm _ _
      have e4 : 4 * p = p * 4 := Nat.mul_comm _ _
      rw [hstep, hstep, hstep, hstep, e3, e4]
      refine ⟨?_, ?_, ?_, ?_⟩
      · rw [if_pos rfl]
      · rw [if_neg (by omega), if_pos rfl]
      · rw [if_neg (by omega), if_neg (by omega), if_pos rfl]
      · rw [if_neg (by omega), if_neg (by omega), if_neg (by omega), if_pos rfl]

/-- C17: for an RGBA8 or SRGB8_A8 texture that satisfies the texture invariant
and every source image, `set_texture_pixels` returns `true`, leaves format,
width and height as they are, and afterwards, for every pixel
`p < width * height`, the texture bytes `4p`, `4p + 1`, `4p + 2` are the source
bytes `3p`, `3p + 1`, `3p + 2` and the texture byte `4p + 3` is 255. -/
theorem set_texture_pixels_expands (t : texture) (pixels : Nat → uint8_t)
    (hinv : texture_invariant t)
    (hformat : t.format = TEXTURE_FORMAT_RGBA8 ∨ t.format = TEXTURE_FORMAT_SRGB8_A8) :
    ∃ t', set_texture_pixels (some t) (some pixels) = (true, some t') ∧
      t'.format = t.format ∧ t'.width = t.width ∧ t'.height = t.height ∧
      t'.pixels.length = t.pixels.length ∧
      ∀ p, p < t.width * t.height →
        t'.pixels[4 * p]? = some (pixels (3 * p)) ∧
        t'.pixels[4 * p + 1]? = some (pixels (3 * p + 1)) ∧
        t'.pixels[4 * p + 2]? = some (pixels (3 * p + 2)) ∧
        t'.pixels[4 * p + 3]? = some 255 := by
  obtain ⟨hw, hw32, hh, hh32, hps, hlen, hfit⟩ := hinv
  rw [get_pixel_size_eq_four t.format hps] at hlen
  have hcount : size_wrap (t.width * t.height) = t.width * t.height := by
    unfold size_wrap; exact Nat.mod_eq_of_lt (by omega)
  refine ⟨{ t with pixels := set_texture_pixels_loop pixels (t.width * t.height) t.pixels },
    ?_, rfl, rfl, rfl, set_texture_pixels_loop_length _ _ _, fun p hp => ?_⟩
  · unfold set_texture_pixels
    simp only [hformat, if_true, hcount]
  · exact set_texture_pixels_loop_getElem? pixels t.pixels hfit (t.width * t.height)
      (by omega) p hp

/-- C18: `set_texture_pixels` returns `false` exactly when the texture is
absent, or the source is absent, or the format of the texture is neither
RGBA8 nor SRGB8_A8 (as for DEPTH_FLOAT), and whenever it returns `false` the
texture (pixel buffer, format and dimensions) is what it was. -/
theorem set_texture_pixels_fails_iff (texture : Option texture)
    (pixels : Option (Nat → uint8_t)) :
    ((set_texture_pixels texture pixels).1 = false ↔
      texture = none ∨ pixels = none ∨
        ∃ t, texture = some t ∧ t.format ≠ TEXTURE_FORMAT_RGBA8 ∧
          t.format ≠ TEXTURE_FORMAT_SRGB8_A8) ∧
    ((set_texture_pixels texture pixels).1 = false →
      (set_texture_pixels texture pixels).2 = texture) ∧
    (∀ t, texture = some t → t.format = TEXTURE_FORMAT_DEPTH_FLOAT →
      set_texture_pixels texture pixels = (false, some t)) := by
  cases texture with
  | none =>
    refine ⟨?_, fun _ => rfl, fun t ht => absurd ht (by simp)⟩
    simp [set_texture_pixels]
  | some t =>
    cases pixels with
    | none =>
      refine ⟨?_, fun _ => rfl, fun t' ht' _ => ?_⟩
      · simp [set_texture_pixels]
      · rw [← Option.some.inj ht']; rfl
    | some pixels =>
      by_cases hf : t.format = TEXTURE_FORMAT_RGBA8 ∨ t.format = TEXTURE_FORMAT_SRGB8_A8
      · have hres : set_texture_pixels (some t) (some pixels) =
            (true, some { t with
              pixels := set_texture_pixels_loop pixels (size_wrap (t.width * t.height))
                t.pixels }) := by
          unfold set_texture_pixels
          simp only [hf, if_true]
        refine ⟨?_, ?_, fun t' ht' hd => ?_⟩
        · rw [hres]
          constructor
          · intro h; exact absurd h (by simp)
          · rintro (h | h | ⟨t', ht', h1, h2⟩)
            · exact absurd h (by simp)
            · exact absurd h (by simp)
            · rw [← Option.some.inj ht'] at h1 h2
              rcases hf with h | h
              · exact absurd h h1
              · exact absurd h h2
        · rw [hres]; intro h; exact absurd h (by simp)
        · rw [← Option.some.inj ht'] at hd
          rw [hd] at hf
          rcases hf with h | h
          · exact absurd h (by decide)
          · exact absurd h (by decide)
      · have hres : set_texture_pixels (some t) (some pixels) = (false, some t) := by
          unfold set_texture_pixels
          simp only [hf, if_false]
        refine ⟨?_, fun _ => by rw [hres], fun t' ht' _ => ?_⟩
        · rw [hres]
          simp only [true_iff]
          exact Or.inr (Or.inr ⟨t, rfl, fun h => hf (Or.inl h), fun h => hf (Or.inr h)⟩)
        · rw [hres, Option.some.inj ht']

/-- Witness of C17: the `2 x 2` RGBA8 texture filled from the image whose
bytes are 0, 1, 2, ... holds `0 1 2 255 3 4 5 255 6 7 8 255 9 10 11 255`. -/
theorem set_texture_pixels_expands_witness :
    (set_texture_pixels (some checker_texture) (some ramp_image)).1 = true ∧
    (set_texture_pixels (some checker_texture) (some ramp_image)).2 =
      some { checker_texture with
        pixels := [0, 1, 2, 255, 3, 4, 5, 255, 6, 7, 8, 255, 9, 10, 11, 255] } ∧
    ∃ t', set_texture_pixels (some checker_texture) (some ramp_image) = (true, some t') ∧
      t'.format = checker_texture.format ∧ t'.width = checker_texture.width ∧
      t'.height = checker_texture.height ∧
      t'.pixels.length = checker_texture.pixels.length ∧
      ∀ p, p < checker_texture.width * checker_texture.height →
        t'.pixels[4 * p]? = some (ramp_image (3 * p)) ∧
        t'.pixels[4 * p + 1]? = some (ramp_image (3 * p + 1)) ∧
        t'.pixels[4 * p + 2]? = some (ramp_image (3 * p + 2)) ∧
        t'.pixels[4 * p + 3]? = some 255 :=
  ⟨by decide, by decide,
    set_texture_pixels_expands checker_texture ramp_image checker_texture_invariant
      (Or.inl rfl)⟩

/-- Witness of C18: a depth texture, an absent texture and an absent source
make `set_texture_pixels` return `false`, and the depth texture is unchanged. -/
theorem set_texture_pixels_fails_iff_witness :
    set_texture_pixels (some depth_texel) (some ramp_image) = (false, some depth_texel) ∧
    (set_texture_pixels none (some ramp_image)).1 = false ∧
    (set_texture_pixels (some checker_texture) none).1 = false ∧
    (set_texture_pixels (some checker_texture) (some ramp_image)).1 = true ∧
    ((set_texture_pixels (some depth_texel) (some ramp_image)).1 = false →
      (set_texture_pixels (some depth_texel) (some ramp_image)).2 = some depth_texel) :=
  ⟨(set_texture_pixels_fails_iff (some depth_texel) (some ramp_image)).2.2 depth_texel rfl
      rfl,
    by decide, by decide, by decide,
    (set_texture_pixels_fails_iff (some depth_texel) (some ramp_image)).2.1⟩

/-! ## Colour conversion in exact arithmetic -/

/-- C19: in exact arithmetic, with the truncating conversion of `x * 255` to an
8-bit unsigned integer, `uint8_to_float (float_to_uint8 (x))` differs from `x`
by at most `1 / 255` for every `x` in `[0, 1]`; it is never above `x`. -/
theorem float_to_uint8_roundtrip {F : Type} [LinearOrderedField F] [FloorRing F] (x : F)
    (h0 : 0 ≤ x) (h1 : x ≤ 1) :
    |uint8_to_float (float_to_uint8 Nat.floor x) - x| ≤ 1 / 255 ∧
      uint8_to_float (float_to_uint8 Nat.floor x) ≤ x ∧
      (float_to_uint8 Nat.floor x).val = ⌊x * 255⌋₊ := by
  have hy0 : 0 ≤ x * 255 := mul_nonneg h0 (by norm_num)
  have hy1 : x * 255 ≤ 255 := by
    calc x * 255 ≤ 1 * 255 := mul_le_mul_of_nonneg_right h1 (by norm_num)
      _ = 255 := one_mul _
  have hfloor_le : ⌊x * 255⌋₊ ≤ 255 := by
    have : ⌊x * 255⌋₊ ≤ ⌊(255 : F)⌋₊ := Nat.floor_mono hy1
    have h255 : ⌊(255 : F)⌋₊ = 255 := Nat.floor_ofNat 255
    omega
  have hval : (float_to_uint8 Nat.floor x).val = ⌊x * 255⌋₊ := by
    show ⌊x * ((255 : Nat) : F)⌋₊ % 256 = ⌊x * 255⌋₊
    rw [Nat.cast_ofNat]
    exact Nat.mod_eq_of_lt (by omega)
  have hfl : ((⌊x * 255⌋₊ : Nat) : F) ≤ x * 255 := Nat.floor_le hy0
  have hlt : x * 255 < ((⌊x * 255⌋₊ : Nat) : F) + 1 := Nat.lt_floor_add_one _
  have hdef : uint8_to_float (float_to_uint8 Nat.floor x) =
      ((⌊x * 255⌋₊ : Nat) : F) / 255 := by
    unfold uint8_to_float
    rw [hval, Nat.cast_ofNat]
  have hle : ((⌊x * 255⌋₊ : Nat) : F) / 255 ≤ x := by
    rw [div_le_iff₀ (by norm_num)]
    exact hfl
  have hge : x - 1 / 255 ≤ ((⌊x * 255⌋₊ : Nat) : F) / 255 := by
    rw [le_div_iff₀ (by norm_num)]
    have : (x - 1 / 255) * 255 = x * 255 - 1 := by ring
    rw [this]
    linarith
  refine ⟨?_, hdef ▸ hle, hval⟩
  rw [hdef, abs_le]
  constructor
  · linarith
  · linarith

/-- Witness of C19 at `x = 1/2`: the byte is 127 and `127 / 255` is within
`1 / 255` of `1/2`. -/
theorem float_to_uint8_roundtrip_witness :
    (0 : ℚ) ≤ 1 / 2 ∧ (1 / 2 : ℚ) ≤ 1 ∧
    (|uint8_to_float (float_to_uint8 Nat.floor (1 / 2 : ℚ)) - 1 / 2| ≤ (1 / 255 : ℚ) ∧
      uint8_to_float (float_to_uint8 Nat.floor (1 / 2 : ℚ)) ≤ (1 / 2 : ℚ) ∧
      (float_to_uint8 Nat.floor (1 / 2 : ℚ)).val = ⌊(1 / 2 : ℚ) * 255⌋₊) :=
  ⟨by norm_num, by norm_num,
    float_to_uint8_roundtrip (1 / 2 : ℚ) (by norm_num) (by norm_num)⟩

/-- C20: in exact real arithmetic, with `powf` the real power function and the
fixed gamma 2.2, `convert_to_linear_color (convert_to_srgb_color (x)) = x` for
every `x` in `(0, 1]`. -/
theorem convert_to_linear_color_of_srgb (x : ℝ) (h0 : 0 < x) (_h1 : x ≤ 1) :
    convert_to_linear_color (fun a b : ℝ => a ^ b)
        (convert_to_srgb_color (fun a b : ℝ => a ^ b) x) = x ∧
      (GAMMA : ℝ) = 2.2 ∧
      convert_to_srgb_color (fun a b : ℝ => a ^ b) x = x ^ (1 / (2.2 : ℝ)) ∧
      ∀ y : ℝ, convert_to_linear_color (fun a b : ℝ => a ^ b) y = y ^ (2.2 : ℝ) := by
  have hg : (GAMMA : ℝ) = 2.2 := by
    unfold GAMMA
    norm_num
  have hg0 : (GAMMA : ℝ) ≠ 0 := by rw [hg]; norm_num
  refine ⟨?_, hg, ?_, fun y => ?_⟩
  · show (x ^ (1 / (GAMMA : ℝ))) ^ (GAMMA : ℝ) = x
    rw [← Real.rpow_mul (le_of_lt h0), one_div_mul_cancel hg0, Real.rpow_one]
  · show x ^ (1 / (GAMMA : ℝ)) = _
    rw [hg]
  · show y ^ (GAMMA : ℝ) = _
    rw [hg]

/-- Witness of C20 at `x = 1/2`. -/
theorem convert_to_linear_color_of_srgb_witness :
    (0 : ℝ) < 1 / 2 ∧ (1 / 2 : ℝ) ≤ 1 ∧
    convert_to_linear_color (fun a b : ℝ => a ^ b)
      (convert_to_srgb_color (fun a b : ℝ => a ^ b) (1 / 2)) = 1 / 2 :=
  ⟨by norm_num, by norm_num,
    (convert_to_linear_color_of_srgb (1 / 2) (by norm_num) (by norm_num)).1⟩

/-! ## Deduplication: size of the unique-triple table -/

theorem lengyel_solves {F : Type} [Field F] (e1 e2 : vector3 F) (x1 y1 x2 y2 : F)
    (hd : x1 * y2 - x2 * y1 ≠ 0) :
    vector3_add
        (vector3_multiply_scalar
          (vector3_multiply_scalar
            (vector3_subtract (vector3_multiply_scalar e1 y2) (vector3_multiply_scalar e2 y1))
            (1 / (x1 * y2 - x2 * y1))) x1)
        (vector3_multiply_scalar
          (vector3_multiply_scalar
            (vector3_subtract (vector3_multiply_scalar e2 x1) (vector3_multiply_scalar e1 x2))
            (1 / (x1 * y2 - x2 * y1))) y1) = e1 ∧
      vector3_add
        (vector3_multiply_scalar
          (vector3_multiply_scalar
            (vector3_subtract (vector3_multiply_scalar e1 y2) (vector3_multiply_scalar e2 y1))
            (1 / (x1 * y2 - x2 * y1))) x2)
        (vector3_multiply_scalar
          (vector3_multiply_scalar
            (vector3_subtract (vector3_multiply_scalar e2 x1) (vector3_multiply_scalar e1 x2))
            (1 / (x1 * y2 - x2 * y1))) y2) = e2 := by
  obtain ⟨a1, b1, c1⟩ := e1
  obtain ⟨a2, b2, c2⟩ := e2
  simp only [vector3_add, vector3_multiply_scalar, vector3_subtract, vector3.mk.injEq]
  refine ⟨⟨?_, ?_, ?_⟩, ⟨?_, ?_, ?_⟩⟩ <;> (field_simp; ring)

theorem tangent_contribution_of_ne_zero {F : Type} [Field F] [DecidableEq F] (m : mesh F)
    (texcoords : List (vector2 F)) (t : Nat)
    (hd : triangle_uv_determinant m texcoords t ≠ 0) :
    tangent_contribution m texcoords t =
      (vector3_multiply_scalar
          (vector3_subtract
            (vector3_multiply_scalar (triangle_edge m t 1)
              (triangle_uv_delta m texcoords t 2).v)
            (vector3_multiply_scalar (triangle_edge m t 2)
              (triangle_uv_delta m texcoords t 1).v))
          (1 / triangle_uv_determinant m texcoords t),
        vector3_multiply_scalar
          (vector3_subtract
            (vector3_multiply_scalar (triangle_edge m t 2)
              (triangle_uv_delta m texcoords t 1).u)
            (vector3_multiply_scalar (triangle_edge m t 1)
              (triangle_uv_delta m texcoords t 2).u))
          (1 / triangle_uv_determinant m texcoords t)) := by
  unfold triangle_uv_determinant triangle_uv_delta at hd
  unfold tangent_contribution triangle_tangent triangle_uv_determinant triangle_uv_delta
    triangle_edge
  simp only at hd ⊢
  rw [if_neg hd]

/-- C24: over a field (exact arithmetic), the tangent `T` and the bitangent `B`
that `compute_tangents` computes for a triangle with non-zero UV determinant
`d = x1 * y2 - x2 * y1` solve the linear system of Lengyel's method:
`x1 * T + y1 * B = e1` and `x2 * T + y2 * B = e2`, where `e1 = p1 - p0`,
`e2 = p2 - p0` and `(x1, y1)`, `(x2, y2)` are the UV deltas to vertex 0. -/
theorem compute_tangents_solves_lengyel {F : Type} [Field F] [DecidableEq F] (m : mesh F)
    (texcoords : List (vector2 F)) (t : Nat)
    (hd : triangle_uv_determinant m texcoords t ≠ 0) :
    vector3_add
        (vector3_multiply_scalar (tangent_contribution m texcoords t).1
          (triangle_uv_delta m texcoords t 1).u)
        (vector3_multiply_scalar (tangent_contribution m texcoords t).2
          (triangle_uv_delta m texcoords t 1).v) = triangle_edge m t 1 ∧
    vector3_add
        (vector3_multiply_scalar (tangent_contribution m texcoords t).1
          (triangle_uv_delta m texcoords t 2).u)
        (vector3_multiply_scalar (tangent_contribution m texcoords t).2
          (triangle_uv_delta m texcoords t 2).v) = triangle_edge m t 2 := by
  rw [tangent_contribution_of_ne_zero m texcoords t hd]
  exact lengyel_solves _ _ _ _ _ _ hd

/-- Witness of C24 on triangle 1 of the unit square: `e1 = (1, 1, 0)`,
`e2 = (0, 1, 0)`, the UV deltas are `(1, 1)` and `(0, 1)`, `d = 1`, and
`T = (1, 0, 0)`, `B = (0, 1, 0)` solve the system. -/
theorem compute_tangents_solves_lengyel_witness :
    triangle_uv_determinant flat_quad flat_quad_texcoords 1 = 1 ∧
    triangle_edge flat_quad 1 1 = ⟨1, 1, 0⟩ ∧ triangle_edge flat_quad 1 2 = ⟨0, 1, 0⟩ ∧
    (vector3_add
        (vector3_multiply_scalar (tangent_contribution flat_quad flat_quad_texcoords 1).1
          (triangle_uv_delta flat_quad flat_quad_texcoords 1 1).u)
        (vector3_multiply_scalar (tangent_contribution flat_quad flat_quad_texcoords 1).2
          (triangle_uv_delta flat_quad flat_quad_texcoords 1 1).v) =
        triangle_edge flat_quad 1 1 ∧
      vector3_add
        (vector3_multiply_scalar (tangent_contribution flat_quad flat_quad_texcoords 1).1
          (triangle_uv_delta flat_quad flat_quad_texcoords 1 2).u)
        (vector3_multiply_scalar (tangent_contribution flat_quad flat_quad_texcoords 1).2
          (triangle_uv_delta flat_quad flat_quad_texcoords 1 2).v) =
        triangle_edge flat_quad 1 2) := by
  have hd : triangle_uv_determinant flat_quad flat_quad_texcoords 1 = 1 := by
    norm_num [triangle_uv_determinant, triangle_uv_delta, triangle_vertex, flat_quad,
      flat_quad_texcoords, uint32_wrap]
  refine ⟨hd, ?_, ?_,
    compute_tangents_solves_lengyel flat_quad flat_quad_texcoords 1 (by rw [hd]; norm_num)⟩
  · norm_num [triangle_edge, triangle_vertex, flat_quad, uint32_wrap, vector3_subtract,
      VECTOR3_ZERO]
  · norm_num [triangle_edge, triangle_vertex, flat_quad, uint32_wrap, vector3_subtract,
      VECTOR3_ZERO]

theorem compute_tangents_getElem? {F : Type} [Add F] [Sub F] [Mul F] [Div F] [Neg F]
    [Zero F] [One F] [LT F] [DecidableEq F] [DecidableRel (LT.lt : F → F → Prop)]
    (normalize : vector3 F → vector3 F) (a : allocator) (m m' : mesh F)
    (tangents : List (vector4 F)) (normals : List (vector3 F))
    (texcoords : List (vector2 F))
    (h : compute_tangents normalize a m = some m') (ht : m'.tangents = some tangents)
    (hn : m.normals = some normals) (htc : m.texcoords = some texcoords) (v : Nat)
    (hv : v < m.vertex_count) :
    tangents[v]? =
      some (vertex_tangent normalize
        ((compute_tangents_loop m texcoords m.triangle_count).1.getD v VECTOR3_ZERO)
        ((compute_tangents_loop m texcoords m.triangle_count).2.getD v VECTOR3_ZERO)
        (normals.getD v VECTOR3_ZERO)) := by
  unfold compute_tangents at h
  rw [hn, htc] at h
  simp only at h
  split at h
  · exact absurd h (by simp)
  · have hm := Option.some.inj h
    subst hm
    have hl := Option.some.inj ht
    subst hl
    rw [List.getElem?_map, List.getElem?_range hv]
    rfl

theorem gram_schmidt_orthogonal {F : Type} [Field F] (n t : vector3 F)
    (hunit : vector3_dot n n = 1) :
    vector3_dot n (vector3_subtract t (vector3_multiply_scalar n (vector3_dot n t))) = 0 := by
  obtain ⟨nx, ny, nz⟩ := n
  obtain ⟨tx, ty, tz⟩ := t
  simp only [vector3_dot, vector3_subtract, vector3_multiply_scalar] at hunit ⊢
  linear_combination (-(nx * tx + ny * ty + nz * tz)) * hunit

theorem vector3_dot_multiply_scalar {F : Type} [Field F] (n t : vector3 F) (s : F) :
    vector3_dot n (vector3_multiply_scalar t s) = vector3_dot n t * s := by
  obtain ⟨nx, ny, nz⟩ := n
  obtain ⟨tx, ty, tz⟩ := t
  simp only [vector3_dot, vector3_multiply_scalar]
  ring

/-- C25: over a field (exact arithmetic), for a mesh with normals and texcoords
and a successful allocation `compute_tangents` returns a mesh with a tangent
array; for a vertex `v` whose normal `n` has unit length, and `t` the tangent
accumulated for `v` by the triangle loop, the `xyz` part of the tangent stored
for `v` is `vector3_normalize` of the Gram-Schmidt vector `t - n * (n . t)`,
that vector is orthogonal to `n`, and hence, `vector3_normalize` returning a
scalar multiple of its argument, the stored `xyz` is orthogonal to `n`.  The
Gram-Schmidt step gives a vector orthogonal to `n` for every `t`. -/
theorem compute_tangents_orthogonal {F : Type} [Field F] [LT F] [DecidableEq F]
    [DecidableRel (LT.lt : F → F → Prop)] (normalize : vector3 F → vector3 F)
    (hnormalize : ∀ u, ∃ s, normalize u = vector3_multiply_scalar u s)
    (a : allocator) (m : mesh F) (normals : List (vector3 F))
    (texcoords : List (vector2 F))
    (ha : a.tangents = true) (hn : m.normals = some normals)
    (htc : m.texcoords = some texcoords) (v : Nat) (hv : v < m.vertex_count)
    (hunit : vector3_dot (normals.getD v VECTOR3_ZERO) (normals.getD v VECTOR3_ZERO) = 1) :
    (∃ m' tangents T,
      compute_tangents normalize a m = some m' ∧ m'.tangents = some tangents ∧
      tangents[v]? = some T ∧
      (⟨T.x, T.y, T.z⟩ : vector3 F) =
        normalize
          (vector3_subtract
            ((compute_tangents_loop m texcoords m.triangle_count).1.getD v VECTOR3_ZERO)
            (vector3_multiply_scalar (normals.getD v VECTOR3_ZERO)
              (vector3_dot (normals.getD v VECTOR3_ZERO)
                ((compute_tangents_loop m texcoords m.triangle_count).1.getD v
                  VECTOR3_ZERO)))) ∧
      vector3_dot (normals.getD v VECTOR3_ZERO)
        (vector3_subtract
          ((compute_tangents_loop m texcoords m.triangle_count).1.getD v VECTOR3_ZERO)
          (vector3_multiply_scalar (normals.getD v VECTOR3_ZERO)
            (vector3_dot (normals.getD v VECTOR3_ZERO)
              ((compute_tangents_loop m texcoords m.triangle_count).1.getD v
                VECTOR3_ZERO)))) = 0 ∧
      vector3_dot (normals.getD v VECTOR3_ZERO) ⟨T.x, T.y, T.z⟩ = 0) ∧
    ∀ t : vector3 F,
      vector3_dot (normals.getD v VECTOR3_ZERO)
        (vector3_subtract t
          (vector3_multiply_scalar (normals.getD v VECTOR3_ZERO)
            (vector3_dot (normals.getD v VECTOR3_ZERO) t))) = 0 := by
  refine ⟨?_, fun t => gram_schmidt_orthogonal _ t hunit⟩
  have hret : compute_tangents normalize a m =
      some { m with
        tangents := some ((List.range m.vertex_count).map (fun v =>
          vertex_tangent normalize
            ((compute_tangents_loop m texcoords m.triangle_count).1.getD v VECTOR3_ZERO)
            ((compute_tangents_loop m texcoords m.triangle_count).2.getD v VECTOR3_ZERO)
            (normals.getD v VECTOR3_ZERO))) } := by
    unfold compute_tangents
    rw [hn, htc]
    simp only [ha, Bool.not_true, Bool.false_eq_true, if_false]
  have hget := compute_tangents_getElem? normalize a m _ _ normals texcoords hret rfl hn htc
    v hv
  refine ⟨_, _, _, hret, rfl, hget, rfl, gram_schmidt_orthogonal _ _ hunit, ?_⟩
  simp only [vertex_tangent]
  obtain ⟨s, hs⟩ := hnormalize
    (vector3_subtract
      ((compute_tangents_loop m texcoords m.triangle_count).1.getD v VECTOR3_ZERO)
      (vector3_multiply_scalar (normals.getD v VECTOR3_ZERO)
        (vector3_dot (normals.getD v VECTOR3_ZERO)
          ((compute_tangents_loop m texcoords m.triangle_count).1.getD v VECTOR3_ZERO))))
  rw [hs, vector3_dot_multiply_scalar, gram_schmidt_orthogonal _ _ hunit, zero_mul]

/-- Witness of C25 on the triangle with the unit normal `(0, 0, 1)` at its
vertices and `vector3_normalize` replaced by the identity: the tangent stored
for vertex 1 is `(1, 0, 0, 1)`, orthogonal to the normal. -/
theorem compute_tangents_orthogonal_witness :
    vector3_dot (⟨0, 0, 1⟩ : vector3 ℚ) ⟨0, 0, 1⟩ = 1 ∧
    (∃ m' tangents,
      compute_tangents id allocator.succeeding (lit_triangle [⟨0, 0⟩, ⟨1, 0⟩, ⟨0, 1⟩]) =
        some m' ∧
      m'.tangents = some tangents ∧ tangents[1]? = some ⟨1, 0, 0, 1⟩) ∧
    ∃ m' tangents T,
      compute_tangents id allocator.succeeding (lit_triangle [⟨0, 0⟩, ⟨1, 0⟩, ⟨0, 1⟩]) =
        some m' ∧
      m'.tangents = some tangents ∧ tangents[1]? = some T ∧
      vector3_dot (⟨0, 0, 1⟩ : vector3 ℚ) ⟨T.x, T.y, T.z⟩ = 0 := by
  have hunit : vector3_dot (⟨0, 0, 1⟩ : vector3 ℚ) ⟨0, 0, 1⟩ = 1 := by
    norm_num [vector3_dot]
  have hid : ∀ u : vector3 ℚ, ∃ s, id u = vector3_multiply_scalar u s := by
    intro u
    refine ⟨1, ?_⟩
    cases u
    simp [vector3_multiply_scalar]
  obtain ⟨m', tangents, T, h1, h2, h3, -, -, h6⟩ :=
    (compute_tangents_orthogonal id hid allocator.succeeding
      (lit_triangle [⟨0, 0⟩, ⟨1, 0⟩, ⟨0, 1⟩]) [⟨0, 0, 1⟩, ⟨0, 0, 1⟩, ⟨0, 0, 1⟩]
      [⟨0, 0⟩, ⟨1, 0⟩, ⟨0, 1⟩] rfl rfl rfl 1 (by decide) hunit).1
  refine ⟨hunit, ⟨_, _, rfl, rfl, ?_⟩, m', tangents, T, h1, h2, h3, h6⟩
  simp [lit_triangle, flat_triangle, compute_tangents_loop, compute_tangents_triangle,
    triangle_tangent, triangle_vertex, accumulate, vertex_tangent, uint32_wrap,
    vector3_subtract, vector3_multiply_scalar, vector3_add, vector3_dot, vector3_cross,
    VECTOR3_ZERO, List.range_succ]

/-! ## `texture_sample`: the 32-bit row product -/

theorem tall_texture_invariant : texture_invariant tall_texture := by
  unfold texture_invariant
  refine ⟨by decide, by decide, by decide, by decide, by decide, ?_, ?_⟩
  · show (List.replicate 17180131328 (0 : uint8_t)).length = 65536 * 65537 * 4
    rw [List.length_replicate]
  · show (List.replicate 17180131328 (0 : uint8_t)).length < 18446744073709551616
    rw [List.length_replicate]
    decide

/-- C26 (the code departs from the claim): `tall_texture` satisfies the texture
invariant (`generate_texture` creates such a texture), and for the texcoord
`(0, 1)` `texture_sample` selects column 0 and row 65536, whose row-major
offset is `0 + 65536 * 65536 = 4294967296`; the product
`v_index * texture->width` is formed in `uint32_t` and wraps to 0, so the pixel
offset computed is 0 and the bytes read are those of the texel in column 0 and
row 0.  For 32-bit dimensions the offset is the row-major one whenever
`width * height` is at most `2 ^ 32`. -/
theorem texture_sample_row_product_wraps :
    texture_invariant tall_texture ∧
    sample_index Nat.floor (0 : ℚ) tall_texture.width = 0 ∧
    sample_index Nat.floor (1 : ℚ) tall_texture.height = 65536 ∧
    texture_sample_offset Nat.floor tall_texture (⟨0, 1⟩ : vector2 ℚ) = 0 ∧
    sample_index Nat.floor (0 : ℚ) tall_texture.width +
      sample_index Nat.floor (1 : ℚ) tall_texture.height * tall_texture.width = 4294967296 ∧
    texture_sample_offset Nat.floor tall_texture (⟨0, 1⟩ : vector2 ℚ) ≠
      sample_index Nat.floor (0 : ℚ) tall_texture.width +
        sample_index Nat.floor (1 : ℚ) tall_texture.height * tall_texture.width ∧
    (texture_sample Nat.floor rat_powf rat_load (some tall_texture)
      (⟨0, 1⟩ : vector2 ℚ)).reads = [0, 1, 2, 3] ∧
    (∀ (trunc : ℚ → Nat) (t : texture) (texcoord : vector2 ℚ),
      0 < t.width → t.width < 4294967296 → 0 < t.height → t.height < 4294967296 →
      t.width * t.height ≤ 4294967296 →
      texture_sample_offset trunc t texcoord =
        sample_index trunc texcoord.u t.width +
          sample_index trunc texcoord.v t.height * t.width) := by
  have hu : sample_index Nat.floor (0 : ℚ) tall_texture.width = 0 := by
    norm_num [sample_index, clamp01_float, tall_texture, uint32_wrap]
  have hv : sample_index Nat.floor (1 : ℚ) tall_texture.height = 65536 := by
    norm_num [sample_index, clamp01_float, tall_texture, uint32_wrap]
  have hoff : texture_sample_offset Nat.floor tall_texture (⟨0, 1⟩ : vector2 ℚ) = 0 := by
    unfold texture_sample_offset
    simp only [hu, hv]
    norm_num [tall_texture, uint32_wrap, size_wrap]
  refine ⟨tall_texture_invariant, hu, hv, hoff, ?_, ?_, ?_, ?_⟩
  · rw [hu, hv]; rfl
  · rw [hoff, hu, hv]; decide
  · rw [texture_sample_reads Nat.floor rat_powf rat_load tall_texture _
      (by rw [hoff]; decide) (by decide), hoff]
  · intro trunc t texcoord hw hw32 hh hh32 hsmall
    have hvlt := sample_index_lt trunc texcoord.v t.height hh hh32
    have h1 : (sample_index trunc texcoord.v t.height + 1) * t.width ≤
        t.height * t.width := Nat.mul_le_mul_right _ hvlt
    rw [Nat.succ_mul] at h1
    have h2 : t.height * t.width = t.width * t.height := Nat.mul_comm _ _
    have hrow : sample_index trunc texcoord.v t.height * t.width < 4294967296 := by omega
    have hulim : sample_index trunc texcoord.u t.width < 4294967296 :=
      lt_trans (sample_index_lt trunc texcoord.u t.width hw hw32) hw32
    unfold texture_sample_offset
    simp only [size_wrap, uint32_wrap]
    rw [Nat.mod_eq_of_lt hrow]
    exact Nat.mod_eq_of_lt (by omega)

/-! ## `basic_fragment_shader` -/

theorem specular_lighting_of_not_pos {F : Type} [Add F] [Mul F] [Neg F] [Zero F] [One F]
    [LT F] [DecidableRel (LT.lt : F → F → Prop)] (normalize : vector3 F → vector3 F)
    (powf : F → F → F) (input : shader_context F) (unif : basic_uniform F)
    (h : ¬ 0 < n_dot_l normalize input unif) :
    specular_lighting normalize powf input unif = VECTOR3_ZERO := by
  unfold specular_lighting
  simp only
  rw [if_neg h]

theorem texture_sample_value_of_invariant {F : Type} [Zero F] [One F] [Mul F] [Div F]
    [NatCast F] [LT F] [DecidableRel (LT.lt : F → F → Prop)] (trunc : F → Nat)
    (powf : F → F → F) (load : uint8_t × uint8_t × uint8_t × uint8_t → F) (t : texture)
    (texcoord : vector2 F) (hinv : texture_invariant t) :
    ∃ sample, (texture_sample trunc powf load (some t) texcoord).value = some sample := by
  obtain ⟨hw, hw32, hh, hh32, hformat, hlen, -⟩ := hinv
  obtain ⟨-, hlt, hk⟩ := texture_sample_offset_eq trunc t texcoord hw hw32 hh hh32
  rw [get_pixel_size_eq_four t.format hformat] at hlen
  have hin : texture_sample_offset trunc t texcoord * 4 + 3 < t.pixels.length := by
    rw [hlen]; omega
  have hwrap : size_wrap (texture_sample_offset trunc t texcoord * 4) =
      texture_sample_offset trunc t texcoord * 4 := by
    unfold size_wrap; exact Nat.mod_eq_of_lt (by omega)
  obtain ⟨b0, b1, b2, b3, -, -, -, -, hread⟩ := read_texel_eq_some t.pixels _ hin
  rw [← Option.isSome_iff_exists]
  unfold texture_sample
  cases hf : t.format with
  | TEXTURE_FORMAT_RGBA8 => simp [hf, hwrap, hread]
  | TEXTURE_FORMAT_SRGB8_A8 => simp [hf, hwrap, hread]
  | TEXTURE_FORMAT_DEPTH_FLOAT => simp [hf, hwrap, hread, sizeof_float]
  | unrecognized tag => rw [hf] at hformat; exact absurd rfl hformat

theorem basic_fragment_shader_returns {F : Type} [Add F] [Mul F] [Div F] [Neg F] [Zero F]
    [One F] [NatCast F] [LT F] [DecidableRel (LT.lt : F → F → Prop)]
    (normalize : vector3 F → vector3 F) (trunc : F → Nat) (powf : F → F → F)
    (load : uint8_t × uint8_t × uint8_t × uint8_t → F) (input : shader_context F)
    (unif : basic_uniform F)
    (htexture : unif.diffuse_texture = none ∨
      ∃ t, unif.diffuse_texture = some t ∧ texture_invariant t) :
    ∃ sample,
      (texture_sample trunc powf load unif.diffuse_texture
        (shader_context_vector2 input TEXCOORD)).value = some sample ∧
      basic_fragment_shader normalize trunc powf load input unif =
        some (vector3_to_4
          (vector3_add
            (vector3_multiply
              (vector3_add (ambient_lighting unif) (diffuse_lighting normalize input unif))
              (vector4_to_3 sample))
            (specular_lighting normalize powf input unif)) 1) := by
  have hsome : ∃ sample, (texture_sample trunc powf load unif.diffuse_texture
      (shader_context_vector2 input TEXCOORD)).value = some sample := by
    rcases htexture with hnone | ⟨t, ht, hinv⟩
    · rw [hnone]; exact ⟨_, by simp [texture_sample]; rfl⟩
    · rw [ht]; exact texture_sample_value_of_invariant trunc powf load t _ hinv
  obtain ⟨sample, hsample⟩ := hsome
  refine ⟨sample, hsample, ?_⟩
  unfold basic_fragment_shader
  simp only [hsample, Option.map_some']

/-- C21: when the dot product of the normalised interpolated normal with the
light direction is `<= 0`, the specular term of `basic_fragment_shader` is the
zero vector, and two runs that agree on the texcoord, the normal and the
uniform members other than `shininess` and `specular_reflectance` return the
same colour, whatever their view-space positions, shininess and specular
reflectance are; a colour is returned whenever the diffuse map is absent or a
well-formed texture. -/
theorem basic_fragment_shader_specular_independent {F : Type} [Add F] [Mul F] [Div F]
    [Neg F] [Zero F] [One F] [NatCast F] [Preorder F] [DecidableRel (LT.lt : F → F → Prop)]
    (normalize : vector3 F → vector3 F) (trunc : F → Nat) (powf : F → F → F)
    (load : uint8_t × uint8_t × uint8_t × uint8_t → F)
    (input input' : shader_context F) (unif unif' : basic_uniform F)
    (htexcoord : input'.vector2_slots TEXCOORD = input.vector2_slots TEXCOORD)
    (hnormal : input'.vector3_slots NORMAL = input.vector3_slots NORMAL)
    (hdirection : unif'.light_direction = unif.light_direction)
    (hcolor : unif'.light_color = unif.light_color)
    (hambient : unif'.ambient_color = unif.ambient_color)
    (hareflectance : unif'.ambient_reflectance = unif.ambient_reflectance)
    (hdreflectance : unif'.diffuse_reflectance = unif.diffuse_reflectance)
    (htexture : unif'.diffuse_texture = unif.diffuse_texture)
    (h : vector3_dot (normalize (input.vector3_slots NORMAL)) unif.light_direction ≤ 0) :
    specular_lighting normalize powf input unif = VECTOR3_ZERO ∧
      specular_lighting normalize powf input' unif' = VECTOR3_ZERO ∧
      basic_fragment_shader normalize trunc powf load input' unif' =
        basic_fragment_shader normalize trunc powf load input unif ∧
      ((unif.diffuse_texture = none ∨
          ∃ t, unif.diffuse_texture = some t ∧ texture_invariant t) →
        ∃ c, basic_fragment_shader normalize trunc powf load input unif = some c ∧
          basic_fragment_shader normalize trunc powf load input' unif' = some c) := by
  have hdot : n_dot_l normalize input unif =
      vector3_dot (normalize (input.vector3_slots NORMAL)) unif.light_direction := rfl
  have hdot' : n_dot_l normalize input' unif' = n_dot_l normalize input unif := by
    unfold n_dot_l shader_context_vector3
    simp only [hnormal, hdirection]
  have hnot : ¬ 0 < n_dot_l normalize input unif := by
    rw [hdot]; exact not_lt_of_le h
  have hs := specular_lighting_of_not_pos normalize powf input unif hnot
  have hs' := specular_lighting_of_not_pos normalize powf input' unif' (by rw [hdot']; exact hnot)
  have hamb : ambient_lighting unif' = ambient_lighting unif := by
    unfold ambient_lighting
    rw [hambient, hareflectance]
  have hdiff : diffuse_lighting normalize input' unif' = diffuse_lighting normalize input unif := by
    unfold diffuse_lighting
    simp only [hdot', hcolor, hdreflectance]
  have hsame : basic_fragment_shader normalize trunc powf load input' unif' =
      basic_fragment_shader normalize trunc powf load input unif := by
    unfold basic_fragment_shader
    simp only [hs, hs', hamb, hdiff, htexture, shader_context_vector2, htexcoord]
  refine ⟨hs, hs', hsame, fun hwf => ?_⟩
  obtain ⟨sample, -, hc⟩ :=
    basic_fragment_shader_returns normalize trunc powf load input unif hwf
  exact ⟨_, hc, hsame.trans hc⟩

/-- Witness of C21: with the light behind the surface (`N . L = -1`) a run
with another position, shininess and specular reflectance returns the same
colour. -/
theorem basic_fragment_shader_specular_independent_witness :
    vector3_dot (id (facing_context.vector3_slots NORMAL)) backlit_uniform.light_direction
      = -1 ∧
    specular_lighting id rat_powf facing_context backlit_uniform = VECTOR3_ZERO ∧
    basic_fragment_shader id rat_trunc rat_powf rat_load
        { facing_context with
          vector3_slots := fun i => if i = 0 then ⟨0, 0, 1⟩ else ⟨3, 4, 5⟩ }
        { backlit_uniform with shininess := 32, specular_reflectance := ⟨1/2, 1/3, 1/4⟩ } =
      basic_fragment_shader id rat_trunc rat_powf rat_load facing_context backlit_uniform ∧
    ∃ c, basic_fragment_shader id rat_trunc rat_powf rat_load facing_context backlit_uniform =
        some c ∧
      basic_fragment_shader id rat_trunc rat_powf rat_load
        { facing_context with
          vector3_slots := fun i => if i = 0 then ⟨0, 0, 1⟩ else ⟨3, 4, 5⟩ }
        { backlit_uniform with shininess := 32, specular_reflectance := ⟨1/2, 1/3, 1/4⟩ } =
        some c := by
  have hdot : vector3_dot (id (facing_context.vector3_slots NORMAL))
      backlit_uniform.light_direction = -1 := by
    norm_num [vector3_dot, facing_context, backlit_uniform, NORMAL]
  have key := basic_fragment_shader_specular_independent id rat_trunc rat_powf rat_load
    facing_context
    { facing_context with vector3_slots := fun i => if i = 0 then ⟨0, 0, 1⟩ else ⟨3, 4, 5⟩ }
    backlit_uniform
    { backlit_uniform with shininess := 32, specular_reflectance := ⟨1/2, 1/3, 1/4⟩ }
    rfl rfl rfl rfl rfl rfl rfl rfl (by rw [hdot]; norm_num)
  exact ⟨hdot, key.1, key.2.2.1,
    key.2.2.2 (Or.inr ⟨checker_texture, rfl, checker_texture_invariant⟩)⟩

theorem checker_texture_first_texel :
    (texture_sample rat_trunc rat_powf rat_load (some checker_texture)
      (⟨0, 0⟩ : vector2 ℚ)).value = some ⟨1 / 255, 2 / 255, 3 / 255, 1⟩ := by
  have hoff : texture_sample_offset rat_trunc checker_texture (⟨0, 0⟩ : vector2 ℚ) = 0 := by
    norm_num [texture_sample_offset, sample_index, clamp01_float, rat_trunc,
      checker_texture, uint32_wrap, size_wrap]
  unfold texture_sample
  simp only [hoff]
  norm_num [checker_texture, size_wrap, read_texel,
    show ((1 : Fin 256) : ℕ) = 1 from rfl, show ((2 : Fin 256) : ℕ) = 2 from rfl,
    show ((3 : Fin 256) : ℕ) = 3 from rfl, show ((255 : Fin 256) : ℕ) = 255 from rfl]

/-- C22 as stated fails: with white ambient light of full reflectance, the
light behind the surface (no diffuse and no specular term) and the diffuse map
sample `(1/255, 2/255, 3/255, 1)`, `basic_fragment_shader` returns
`(1/255, 2/255, 3/255, 1)`: the sample multiplies the ambient term too, whereas
`ambient + diffuse * sample + specular` is `(1, 1, 1)`. -/
theorem basic_fragment_shader_textures_ambient :
    ∃ c sample,
      basic_fragment_shader id rat_trunc rat_powf rat_load facing_context backlit_uniform =
        some c ∧
      (texture_sample rat_trunc rat_powf rat_load backlit_uniform.diffuse_texture
        (shader_context_vector2 facing_context TEXCOORD)).value = some sample ∧
      c = ⟨1 / 255, 2 / 255, 3 / 255, 1⟩ ∧
      ambient_lighting backlit_uniform = ⟨1, 1, 1⟩ ∧
      diffuse_only_textured (ambient_lighting backlit_uniform)
        (diffuse_lighting id facing_context backlit_uniform)
        (specular_lighting id rat_powf facing_context backlit_uniform)
        (vector4_to_3 sample) = ⟨1, 1, 1⟩ ∧
      vector4_to_3 c ≠
        diffuse_only_textured (ambient_lighting backlit_uniform)
          (diffuse_lighting id facing_context backlit_uniform)
          (specular_lighting id rat_powf facing_context backlit_uniform)
          (vector4_to_3 sample) := by
  have hsample : (texture_sample rat_trunc rat_powf rat_load backlit_uniform.diffuse_texture
      (shader_context_vector2 facing_context TEXCOORD)).value =
      some ⟨1 / 255, 2 / 255, 3 / 255, 1⟩ := checker_texture_first_texel
  have hamb : ambient_lighting backlit_uniform = ⟨1, 1, 1⟩ := by
    norm_num [ambient_lighting, vector3_multiply, backlit_uniform]
  have hdiff : diffuse_lighting id facing_context backlit_uniform = ⟨0, 0, 0⟩ := by
    norm_num [diffuse_lighting, n_dot_l, max_float, vector3_dot, vector3_multiply,
      vector3_multiply_scalar, shader_context_vector3, facing_context, backlit_uniform,
      NORMAL]
  have hspec : specular_lighting id rat_powf facing_context backlit_uniform = ⟨0, 0, 0⟩ := by
    norm_num [specular_lighting, n_dot_l, vector3_dot, shader_context_vector3,
      facing_context, backlit_uniform, NORMAL, VECTOR3_ZERO]
  have hclaimed : diffuse_only_textured (ambient_lighting backlit_uniform)
      (diffuse_lighting id facing_context backlit_uniform)
      (specular_lighting id rat_powf facing_context backlit_uniform)
      (vector4_to_3 (⟨1 / 255, 2 / 255, 3 / 255, 1⟩ : vector4 ℚ)) = ⟨1, 1, 1⟩ := by
    rw [hamb, hdiff, hspec]
    norm_num [diffuse_only_textured, vector3_add, vector3_multiply, vector4_to_3]
  have hcode : basic_fragment_shader id rat_trunc rat_powf rat_load facing_context
      backlit_uniform = some ⟨1 / 255, 2 / 255, 3 / 255, 1⟩ := by
    unfold basic_fragment_shader
    simp only [hsample, hamb, hdiff, hspec, Option.map_some']
    norm_num [vector3_add, vector3_multiply, vector4_to_3, vector3_to_4]
  refine ⟨_, _, hcode, hsample, rfl, hamb, hclaimed, ?_⟩
  rw [hclaimed]
  norm_num [vector4_to_3]

/-- C22 (amended): whenever the diffuse map is absent or a well-formed texture,
`basic_fragment_shader` returns a colour; the returned colour has alpha exactly
one, and its RGB part is `(ambient + diffuse) * sample + specular`, where
`sample` is the diffuse map sample at the interpolated texture coordinate:
the sample multiplies the sum of the ambient and the diffuse term. Here
`ambient = ambient_color * ambient_reflectance` and
`diffuse = light_color * max(0, N·L) * diffuse_reflectance`, componentwise. -/
theorem basic_fragment_shader_color {F : Type} [Add F] [Mul F] [Div F] [Neg F] [Zero F]
    [One F] [NatCast F] [LT F] [DecidableRel (LT.lt : F → F → Prop)]
    (normalize : vector3 F → vector3 F) (trunc : F → Nat) (powf : F → F → F)
    (load : uint8_t × uint8_t × uint8_t × uint8_t → F) (input : shader_context F)
    (unif : basic_uniform F)
    (htexture : unif.diffuse_texture = none ∨
      ∃ t, unif.diffuse_texture = some t ∧ texture_invariant t) :
    ∃ c sample,
      basic_fragment_shader normalize trunc powf load input unif = some c ∧
      (texture_sample trunc powf load unif.diffuse_texture
        (shader_context_vector2 input TEXCOORD)).value = some sample ∧
      c.w = 1 ∧
      vector4_to_3 c =
        vector3_add
          (vector3_multiply
            (vector3_add (ambient_lighting unif) (diffuse_lighting normalize input unif))
            (vector4_to_3 sample))
          (specular_lighting normalize powf input unif) ∧
      ambient_lighting unif =
        vector3_multiply unif.ambient_color unif.ambient_reflectance ∧
      diffuse_lighting normalize input unif =
        vector3_multiply
          (vector3_multiply_scalar unif.light_color
            (max_float 0
              (vector3_dot (normalize (shader_context_vector3 input NORMAL))
                unif.light_direction)))
          unif.diffuse_reflectance := by
  obtain ⟨sample, hsample, hcode⟩ :=
    basic_fragment_shader_returns normalize trunc powf load input unif htexture
  exact ⟨_, sample, hcode, hsample, rfl, rfl, rfl, rfl⟩

theorem basic_fragment_shader_color_witness :
    ∃ c sample,
      basic_fragment_shader id rat_trunc rat_powf rat_load facing_context backlit_uniform =
        some c ∧
      (texture_sample rat_trunc rat_powf rat_load backlit_uniform.diffuse_texture
        (shader_context_vector2 facing_context TEXCOORD)).value = some sample ∧
      c.w = 1 ∧
      vector4_to_3 c =
        vector3_add
          (vector3_multiply
            (vector3_add (ambient_lighting backlit_uniform)
              (diffuse_lighting id facing_context backlit_uniform))
            (vector4_to_3 sample))
          (specular_lighting id rat_powf facing_context backlit_uniform) ∧
      ambient_lighting backlit_uniform =
        vector3_multiply backlit_uniform.ambient_color backlit_uniform.ambient_reflectance ∧
      diffuse_lighting id facing_context backlit_uniform =
        vector3_multiply
          (vector3_multiply_scalar backlit_uniform.light_color
            (max_float 0
              (vector3_dot (id (shader_context_vector3 facing_context NORMAL))
                backlit_uniform.light_direction)))
          backlit_uniform.diffuse_reflectance :=
  basic_fragment_shader_color id rat_trunc rat_powf rat_load facing_context backlit_uniform
    (Or.inr ⟨checker_texture, rfl, checker_texture_invariant⟩)

/-! ## The input beyond the range of `uint32_t` -/

theorem wrapping_data_faces : ∀ f, f < wrapping_data.face_count →
    wrapping_data.face_vertices f = 0 ∨ wrapping_data.face_vertices f = 3 :=
  fun _ _ => Or.inr rfl

theorem wrapping_data_total : face_vertex_total wrapping_data = 4294967298 := by
  have h : ∀ k, ((List.range k).map wrapping_data.face_vertices).sum = 3 * k := by
    intro k
    induction k with
    | zero => rfl
    | succ k ih =>
      rw [List.sum_range_succ, ih]
      show 3 * k + 3 = 3 * (k + 1)
      omega
  unfold face_vertex_total
  rw [h]
  rfl

theorem wrapping_data_index_count :
    count_indices wrapping_data wrapping_data.face_count = some 2 := by
  rw [count_indices_eq_some_wrap wrapping_data _ wrapping_data_faces]
  have h := wrapping_data_total
  unfold face_vertex_total at h
  rw [h]
  rfl

theorem wrapping_data_result :
    ∃ m, set_vertex_attributes id allocator.succeeding blank_mesh wrapping_data = some m ∧
      m.indices = [0, 1] ∧ m.vertex_count = 2 ∧ m.triangle_count = 0 ∧
      m.positions = [⟨0, 0, 0⟩, ⟨1, 0, 0⟩] ∧ m.texcoords = none ∧ m.normals = none := by
  obtain ⟨m, hm⟩ := set_vertex_attributes_succeeds id allocator.succeeding blank_mesh
    wrapping_data 2 wrapping_data_index_count rfl rfl rfl rfl
  obtain ⟨c, hc, hind, hvc, htc, hpos, htex, hnor⟩ := set_vertex_attributes_eq_some hm
  rw [wrapping_data_index_count] at hc
  have hc2 : c = 2 := (Option.some.inj hc).symm
  subst hc2
  exact ⟨m, hm, hind.trans rfl, hvc.trans rfl, htc.trans rfl, hpos.trans rfl,
    htex.trans rfl, hnor.trans rfl⟩

/-- C1 as stated fails: every face of `wrapping_data` is a triangle and all
allocations succeed, but the `4294967298` face-vertex references make the
`uint32_t index_count` wrap to 2, so `set_vertex_attributes` writes the two
indices `[0, 1]` only.  References 0 and 2 carry the same triple, yet
reference 0 has the index 0 and reference 2 has no index at all. -/
theorem set_vertex_attributes_wrapped_reference_unindexed :
    (∀ f, f < wrapping_data.face_count →
      wrapping_data.face_vertices f = 0 ∨ wrapping_data.face_vertices f = 3) ∧
    face_vertex_total wrapping_data = 4294967298 ∧
    count_indices wrapping_data wrapping_data.face_count = some 2 ∧
    ∃ m, set_vertex_attributes id allocator.succeeding blank_mesh wrapping_data = some m ∧
      m.indices = [0, 1] ∧
      wrapping_data.indices 0 = wrapping_data.indices 2 ∧
      m.indices[0]? = some 0 ∧ m.indices[2]? = none ∧
      ¬ (m.indices[0]? = m.indices[2]? ↔
        wrapping_data.indices 0 = wrapping_data.indices 2) := by
  obtain ⟨m, hm, hind, -⟩ := wrapping_data_result
  refine ⟨wrapping_data_faces, wrapping_data_total, wrapping_data_index_count, m, hm, hind,
    rfl, by rw [hind]; rfl, by rw [hind]; rfl, ?_⟩
  rw [hind]
  intro h
  exact absurd (h.2 rfl) (by decide)

/-- C2 as stated fails: on `wrapping_data`, whose faces are all triangles, the
face-vertex references carry three distinct triples, but the wrapped
`index_count` is 2 and the mesh gets `vertex_count = 2`; reference 3 carries a
triple not seen before and receives no index. -/
theorem set_vertex_attributes_wrapped_vertex_count :
    (∀ f, f < wrapping_data.face_count →
      wrapping_data.face_vertices f = 0 ∨ wrapping_data.face_vertices f = 3) ∧
    ∃ m, set_vertex_attributes id allocator.succeeding blank_mesh wrapping_data = some m ∧
      m.vertex_count = 2 ∧
      3 ≤ (references wrapping_data (face_vertex_total wrapping_data)).toFinset.card ∧
      m.vertex_count ≠
        (references wrapping_data (face_vertex_total wrapping_data)).toFinset.card ∧
      3 < face_vertex_total wrapping_data ∧
      wrapping_data.indices 3 ∉ references wrapping_data 3 ∧
      m.indices[3]? = none := by
  obtain ⟨m, hm, hind, hvc, -⟩ := wrapping_data_result
  have hsub : ({⟨1, 0, 0⟩, ⟨2, 0, 0⟩, ⟨3, 1, 1⟩} : Finset fastObjIndex) ⊆
      (references wrapping_data (face_vertex_total wrapping_data)).toFinset := by
    intro x hx
    rw [List.mem_toFinset, mem_references, wrapping_data_total]
    simp only [Finset.mem_insert, Finset.mem_singleton] at hx
    rcases hx with h | h | h
    · exact ⟨0, by decide, h ▸ rfl⟩
    · exact ⟨1, by decide, h ▸ rfl⟩
    · exact ⟨3, by decide, h ▸ rfl⟩
  have hcard : 3 ≤
      (references wrapping_data (face_vertex_total wrapping_data)).toFinset.card := by
    have h3 : ({⟨1, 0, 0⟩, ⟨2, 0, 0⟩, ⟨3, 1, 1⟩} : Finset fastObjIndex).card = 3 := by
      decide
    rw [← h3]
    exact Finset.card_le_card hsub
  refine ⟨wrapping_data_faces, m, hm, hvc, hcard, by rw [hvc]; omega,
    by rw [wrapping_data_total]; decide, by decide, by rw [hind]; rfl⟩

/-- C3 as stated fails: on `wrapping_data`, whose faces are all triangles, the
face vertex counts sum to `4294967298`, but two indices are written, and
`triangle_count` is `2 / 3 = 0`, so that `triangle_count * 3` is not the
length of the index buffer. -/
theorem set_vertex_attributes_wrapped_index_buffer :
    (∀ f, f < wrapping_data.face_count →
      wrapping_data.face_vertices f = 0 ∨ wrapping_data.face_vertices f = 3) ∧
    face_vertex_total wrapping_data = 4294967298 ∧
    ∃ m, set_vertex_attributes id allocator.succeeding blank_mesh wrapping_data = some m ∧
      m.indices.length = 2 ∧ m.triangle_count = 0 ∧
      m.indices.length ≠ face_vertex_total wrapping_data ∧
      m.triangle_count * 3 ≠ m.indices.length := by
  obtain ⟨m, hm, hind, -, htc, -⟩ := wrapping_data_result
  have hlen : m.indices.length = 2 := by rw [hind]; rfl
  refine ⟨wrapping_data_faces, wrapping_data_total, m, hm, hlen, htc, ?_, ?_⟩
  · rw [hlen, wrapping_data_total]; decide
  · rw [hlen, htc]; decide

/-- C6 as stated fails: on `wrapping_data`, whose faces are all triangles,
reference 5 has the texcoord index 1 and the normal index 1, both valid, but
only the references 0 and 1 are scanned, and the mesh gets neither a texcoord
array nor source normals. -/
theorem set_vertex_attributes_wrapped_optional_arrays :
    (∀ f, f < wrapping_data.face_count →
      wrapping_data.face_vertices f = 0 ∨ wrapping_data.face_vertices f = 3) ∧
    5 < face_vertex_total wrapping_data ∧
    (0 < (wrapping_data.indices 5).t ∧
      (wrapping_data.indices 5).t < wrapping_data.texcoord_count) ∧
    (0 < (wrapping_data.indices 5).n ∧
      (wrapping_data.indices 5).n < wrapping_data.normal_count) ∧
    ∃ m, set_vertex_attributes id allocator.succeeding blank_mesh wrapping_data = some m ∧
      m.texcoords = none ∧ m.normals = none := by
  obtain ⟨m, hm, -, -, -, -, htex, hnor⟩ := wrapping_data_result
  exact ⟨wrapping_data_faces, by rw [wrapping_data_total]; decide, by decide, by decide,
    m, hm, htex, hnor⟩

end Foolrenderer
